import Mathlib

/-!
# Dew-Controller firmware: a verification development

Shallow embedding of the control and acquisition engine of the dew-heater
controller firmware (`Firmware/Dew Controller.X/main.c` and `menuhelper.c`).

Conventions of the embedding:

* C unsigned integers of width `w` are natural numbers reduced `% 2 ^ w` after
  every operation that can wrap.
* C `float` quantities (voltages, currents, temperatures) are rationals: the
  comparisons and the linear conversions of the source are kept, rounding of
  the floating-point unit is not modelled.
* Static variables and hardware pins are fields of explicit state records.
* A function that can end in `while(1);` returns an `Outcome`, which records
  whether the call returned or halted, and the state at that point.
* What a call reads from the hardware or from code outside the two files (the
  tick counter, the serial receiver, conversion results, the content of a local
  without initializer) is passed in as an environment record.
* Calls that act on the hardware (`uartSendByte`, `setSwitch`,
  `adcGetConversion`, display commands) are recorded in logs, in order.
-/

namespace DewController

/-! ## Smoothing filter (`main.c`, `ema`) -/

/-- Wrap-around bound of `uint32_t`. -/
def U32 : Nat := 2 ^ 32

/-- Wrap-around bound of `uint16_t`. -/
def U16 : Nat := 2 ^ 16

/-- The macro `ALPHA(x) ( (uint32_t)(x * 65535) )`: the fraction `x` scaled to
fixed point, truncated toward zero and stored in 32 bits. -/
def ALPHA (x : ℚ) : Nat := (Int.toNat ⌊x * 65535⌋) % U32

/-- The function `ema(in, average, alpha)`:
`tmp0 = in * alpha + average * (65536 - alpha); return (tmp0 + 32768) / 65536;`
with every `uint32_t` operation reduced modulo `2 ^ 32` and the returned value
reduced modulo `2 ^ 16` (the `uint16_t` return type). The first argument is
called `inp` because `in` is reserved. -/
def ema (inp average alpha : Nat) : Nat :=
  let tmp0 := ((inp * alpha) % U32 + (average * ((65536 + U32 - alpha) % U32)) % U32) % U32
  (((tmp0 + 32768) % U32) / 65536) % U16

/-- The exact value the filter is specified to return:
`floor((sample*alpha + average*(65536 - alpha) + 32768) / 65536)` over the
natural numbers, with no wrap-around anywhere. -/
def emaExact (sample average alpha : Nat) : Nat :=
  (sample * alpha + average * (65536 - alpha) + 32768) / 65536

/-- The running average after `n` calls `avg = ema(sample, avg, alpha)` with a
constant sample, as in `convertAnalogValues` and `getAvgChannelCurrents`. -/
def emaIter (sample alpha : Nat) : Nat → Nat → Nat
  | avg, 0 => avg
  | avg, n + 1 => emaIter sample alpha (ema sample avg alpha) n


/-! ## Data model (`common.h` is not among the sources; the records below list
the members that `main.c` and `menuhelper.c` access) -/

/-- Codes handed to `error()` in `main.c` and `menuhelper.c`. -/
inductive t_error where
  | ERR_NUKED
  | ERR_OVERCURRENT
  | ERR_MENU
  | WARN_VOLT_HIGH
  | WARN_VOLT_LOW
  | WARN_REMOVED
  | WARN_SHORT
  deriving DecidableEq, Repr

/-- Channel status values used by `initGlobalData` and `getAvgChannelCurrents`. -/
inductive t_chStatus where
  | OFF
  | ON
  | CH_OPEN
  | CH_DISABLED
  deriving DecidableEq, Repr

/-- Channel mode values (`AUTO` is set by `initGlobalData`). -/
inductive t_chMode where
  | AUTO
  | MANUAL
  deriving DecidableEq, Repr

/-- One element of `data->chData[]`, with the members the sources access. -/
structure t_chData where
  lensDia : ℚ
  status : t_chStatus
  mode : t_chMode
  Pmax : ℚ
  Preq : ℚ
  Patt : ℚ
  cur : Nat
  current : ℚ
  DCreq : ℚ
  dt : ℚ
  deriving DecidableEq, Repr

/-- The bit-field `data->status`. -/
structure t_status where
  AUX_SENSOR_OK : Nat
  SENSOR_OK : Nat
  deriving DecidableEq, Repr

/-- The aggregate `t_globalData`, with the members the sources access. -/
structure t_globalData where
  tempC : ℚ
  relHum : ℚ
  dewPointC : ℚ
  sensorVersion : Nat
  tempAux : ℚ
  voltage : ℚ
  current : ℚ
  power : ℚ
  dpOffset : ℚ
  skyTemp : ℚ
  fudgeFactor : ℚ
  chData : List t_chData
  status : t_status
  deriving DecidableEq, Repr

/-- The frame `t_dataPacket` returned by `getDataPacket()`, with the members
`checkSensor` reads. -/
structure t_dataPacket where
  header : Nat
  status : Nat
  tempC : ℚ
  relHum : ℚ
  dewPointC : ℚ
  version : Nat
  deriving DecidableEq, Repr

/-- Output and input pins named in `main.c`. -/
structure t_pins where
  SW_CH0 : Nat
  SW_CH1 : Nat
  SW_CH2 : Nat
  SW_CH3 : Nat
  SW_CH4 : Nat
  PEN : Nat
  OLED_PWR : Nat
  nFAULT : Nat
  deriving DecidableEq, Repr

/-- Display commands issued by `menu()`. -/
inductive t_oledCmd where
  | DISPLAYON
  | DISPLAYOFF
  deriving DecidableEq, Repr

/-- The whole mutable state the modelled functions touch: the aggregate, the
pins, the static locals of `convertAnalogValues`, `checkSensor` and `menu`,
the global `g_screenRefresh`, and logs of what was sent to the serial link,
to the display, and to `error()`. -/
structure Sys where
  data : t_globalData
  pins : t_pins
  avgT : Nat
  avgV : Nat
  avgI : Nat
  sensorUpdateInterval : Nat
  sensorTimeout : Nat
  sensorState : Nat
  menuSleep : Nat
  menuState : Nat
  g_screenRefresh : Nat
  uartSent : List Nat
  oledCmds : List t_oledCmd
  raised : List t_error
  deriving DecidableEq, Repr

/-- Result of a call that may end in `while(1);`: either the call returned, or
the processor is halted; both carry the state reached. -/
inductive Outcome (σ : Type) where
  | returns (s : σ)
  | halts (s : σ)
  deriving DecidableEq, Repr

/-- The state carried by an outcome. -/
def Outcome.state {σ : Type} : Outcome σ → σ
  | .returns s => s
  | .halts s => s

/-- Whether the outcome is a halt. -/
def Outcome.halted {σ : Type} : Outcome σ → Bool
  | .returns _ => false
  | .halts _ => true

/-- Sequencing of calls: nothing runs after a halt. -/
def Outcome.andThen {σ : Type} (o : Outcome σ) (f : σ → Outcome σ) : Outcome σ :=
  match o with
  | .returns s => f s
  | .halts s => .halts s

/-- Modelled from the spec: `error()` is declared in `common.h`, which is not
among the sources. Every code is recorded; warnings and recoverable faults
return to the caller (section 7: raised, displayed or logged, execution
continues), the fatal hardware-destroyed condition `ERR_NUKED` does not
(section 4.5: no recovery; section 7: the process halts intentionally). -/
def error (code : t_error) (s : Sys) : Outcome Sys :=
  if code = t_error.ERR_NUKED then .halts { s with raised := s.raised ++ [code] }
  else .returns { s with raised := s.raised ++ [code] }

/-- Modelled from the spec: `timeSince()` is declared in `common.h`, which is
not among the sources. Section 6: `elapsedSince(t) -> ticks` over a monotonic
tick counter; the static time stamps are `uint32_t`, so the difference is taken
modulo `2 ^ 32`. `now` is the value `timeNow()` returns during the call. -/
def timeSince (now t : Nat) : Nat := (now % U32 + U32 - t % U32) % U32

/-! ## Constants of `main.c` -/

def TEMP_AUX_MIN : ℚ := -30
def TEMP_AUX_MAX : ℚ := 100
def SENSOR_UPDATE_INTERVALL : Nat := 50
def SENSOR_TIMEOUT : Nat := 20
def MIN_CURRENT : ℚ := 0.05
def MAX_CURRENT : ℚ := 3.0
def VOLT_CRIT_HIGH : ℚ := 13.8
def VOLT_WARN_HIGH : ℚ := 13.0
def VOLT_WARN_LOW : ℚ := 11.4
def VOLT_TURN_OFF : ℚ := 11.0

/-! ## Analog acquisition (`main.c`, `convertAnalogValues`) -/

/-- The three values `adcGetConversion` returns during one call of
`convertAnalogValues`, for `AIN_TEMP`, `AIN_VSENS` and `AIN_ISENS`. -/
structure t_adcSample where
  temp : Nat
  vsens : Nat
  isens : Nat
  deriving DecidableEq, Repr

/-- The function `convertAnalogValues`: each conversion result is stored in the
`uint16_t` local `adc`, smoothed into the static average of its line with
weight `ALPHA(0.65)`, and converted to physical units. -/
def convertAnalogValues (adc : t_adcSample) (s : Sys) : Sys :=
  let avgT := ema (adc.temp % U16) s.avgT (ALPHA 0.65)
  let avgV := ema (adc.vsens % U16) s.avgV (ALPHA 0.65)
  let avgI := ema (adc.isens % U16) s.avgI (ALPHA 0.65)
  let tempAux : ℚ := ((avgT : ℚ) * 0.1191) - 34.512
  let voltage : ℚ := ((avgV : ℚ) * 5.0 * (150.0 + 47.0)) / (1023.0 * 47.0)
  let current : ℚ := ((avgI : ℚ) * 5.0) / (1023.0 * 0.05 * 50.0)
  { s with
    avgT := avgT
    avgV := avgV
    avgI := avgI
    data := { s.data with
      tempAux := tempAux
      voltage := voltage
      current := current
      power := voltage * current } }

/-! ## Safety monitor (`main.c`, `systemCheck`) -/

/-- The voltage part of `systemCheck` (the `if / else if / else if` chain that
follows the overcurrent block). -/
def systemCheckVoltage (s : Sys) : Outcome Sys :=
  if s.data.voltage > VOLT_CRIT_HIGH ∨ s.data.voltage ≤ VOLT_TURN_OFF then
    .halts { s with
      pins := { s.pins with
        SW_CH1 := 0, SW_CH2 := 0, SW_CH3 := 0, SW_CH4 := 0, PEN := 0, OLED_PWR := 0 } }
  else if s.data.voltage > VOLT_WARN_HIGH ∧ s.data.voltage ≤ VOLT_CRIT_HIGH then
    error t_error.WARN_VOLT_HIGH s
  else if s.data.voltage > VOLT_TURN_OFF ∧ s.data.voltage ≤ VOLT_WARN_LOW then
    error t_error.WARN_VOLT_LOW s
  else
    .returns s

/-- The overcurrent block of `systemCheck`: outputs and power-enable off, one
re-sample through `convertAnalogValues`, then `ERR_NUKED` or `ERR_OVERCURRENT`. -/
def systemCheckCurrent (adc : t_adcSample) (s : Sys) : Outcome Sys :=
  if s.data.current > MAX_CURRENT then
    let s1 := { s with
      pins := { s.pins with SW_CH1 := 0, SW_CH2 := 0, SW_CH3 := 0, SW_CH4 := 0, PEN := 0 } }
    let s2 := convertAnalogValues adc s1
    if s2.data.current > MAX_CURRENT then error t_error.ERR_NUKED s2
    else error t_error.ERR_OVERCURRENT s2
  else
    .returns s

/-- The function `systemCheck`: the overcurrent block followed, with a plain
`if` (no `else`), by the voltage chain. `adc` holds the conversion results the
re-sample would read. -/
def systemCheck (adc : t_adcSample) (s : Sys) : Outcome Sys :=
  (systemCheckCurrent adc s).andThen systemCheckVoltage

/-! ## Sensor link protocol (`main.c`, `checkSensor`) -/

/-- The function `checkSensor`. `now` is the tick counter, `dataReady` the
value of `uartIsDataReady()` and `dp` the frame `getDataPacket()` points to. -/
def checkSensor (now : Nat) (dataReady : Bool) (dp : t_dataPacket) (s : Sys) : Sys :=
  let s0 : Sys :=
    if s.data.tempAux < TEMP_AUX_MIN ∨ s.data.tempAux > TEMP_AUX_MAX then
      { s with data := { s.data with status := { s.data.status with AUX_SENSOR_OK := 0 } } }
    else
      { s with data := { s.data with status := { s.data.status with AUX_SENSOR_OK := 1 } } }
  match s0.sensorState with
  | 0 =>
    if timeSince now s0.sensorUpdateInterval ≥ SENSOR_UPDATE_INTERVALL then
      { s0 with
        sensorUpdateInterval := now % U32
        sensorTimeout := now % U32
        uartSent := s0.uartSent ++ [('?').toNat]
        sensorState := 1 }
    else s0
  | 1 =>
    if timeSince now s0.sensorTimeout > SENSOR_TIMEOUT then
      { s0 with
        data := { s0.data with status := { s0.data.status with SENSOR_OK := 0 } }
        sensorState := 0 }
    else if dataReady then
      if dp.header = 0xAA ∧ dp.status = 1 then
        { s0 with
          data := { s0.data with
            tempC := dp.tempC
            relHum := dp.relHum
            dewPointC := dp.dewPointC
            sensorVersion := dp.version
            status := { s0.data.status with SENSOR_OK := 1 } }
          sensorState := 0 }
      else
        { s0 with
          data := { s0.data with status := { s0.data.status with SENSOR_OK := 0 } }
          sensorState := 0 }
    else s0
  | _ => { s0 with sensorState := 0 }

/-! ## Menu navigation engine (`menuhelper.c`) -/

def ST_ANY : Nat := 255
def MENU_TIMEOUT : Nat := 300
def DISPLAY_TIMEOUT : Nat := 1200

/-! The enumeration `e_menuStates`, by its integer values. -/

def ST_STATUS_VIEW : Nat := 0
def ST_CHANNEL_VIEW : Nat := 1
def ST_CHANNEL_SETUP : Nat := 2
def ST_SET_OUTPUT_POWER : Nat := 3
def ST_SET_LENS_DIA : Nat := 4
def ST_SETUP : Nat := 5
def ST_SET_DP_OFFSET : Nat := 6
def ST_SET_SKY_TEMP : Nat := 7
def ST_SET_FUDGE_FACTOR : Nat := 8

/-- Modelled from the spec: the enumeration `e_buttonPress` is declared in a
header that is not among the sources; `getNextState` names `PB_SHORT` and
`PB_LONG`, and section 6 lists the button events None, ShortPress, LongPress. -/
inductive e_buttonPress where
  | PB_NONE
  | PB_SHORT
  | PB_LONG
  deriving DecidableEq, Repr

/-- The row type `t_nextState` (six `uint8_t` members). -/
structure t_nextState where
  state : Nat
  intState : Nat
  pbShort : Nat
  pbLong : Nat
  timeout : Nat
  noAction : Nat
  deriving DecidableEq, Repr

/-- The table `nextStateTbl`, row for row. -/
def nextStateTbl : List t_nextState := [
  ⟨ST_STATUS_VIEW, ST_ANY, ST_CHANNEL_VIEW, ST_SETUP, ST_STATUS_VIEW, ST_STATUS_VIEW⟩,
  ⟨ST_CHANNEL_VIEW, ST_ANY, ST_STATUS_VIEW, ST_CHANNEL_SETUP, ST_CHANNEL_VIEW, ST_CHANNEL_VIEW⟩,
  ⟨ST_CHANNEL_SETUP, 0, ST_SET_OUTPUT_POWER, ST_CHANNEL_VIEW, ST_CHANNEL_VIEW, ST_CHANNEL_SETUP⟩,
  ⟨ST_CHANNEL_SETUP, 1, ST_SET_LENS_DIA, ST_CHANNEL_VIEW, ST_CHANNEL_VIEW, ST_CHANNEL_SETUP⟩,
  ⟨ST_CHANNEL_SETUP, 2, ST_CHANNEL_SETUP, ST_CHANNEL_VIEW, ST_CHANNEL_VIEW, ST_CHANNEL_SETUP⟩,
  ⟨ST_SET_OUTPUT_POWER, 0, ST_CHANNEL_SETUP, ST_CHANNEL_SETUP, ST_CHANNEL_SETUP,
    ST_SET_OUTPUT_POWER⟩,
  ⟨ST_SET_OUTPUT_POWER, 1, ST_CHANNEL_SETUP, ST_CHANNEL_SETUP, ST_CHANNEL_SETUP,
    ST_CHANNEL_SETUP⟩,
  ⟨ST_SET_LENS_DIA, 0, ST_CHANNEL_SETUP, ST_CHANNEL_SETUP, ST_CHANNEL_SETUP, ST_SET_LENS_DIA⟩,
  ⟨ST_SETUP, 0, ST_SET_DP_OFFSET, ST_STATUS_VIEW, ST_STATUS_VIEW, ST_SETUP⟩,
  ⟨ST_SETUP, 1, ST_SET_SKY_TEMP, ST_STATUS_VIEW, ST_STATUS_VIEW, ST_SETUP⟩,
  ⟨ST_SETUP, 2, ST_SET_FUDGE_FACTOR, ST_STATUS_VIEW, ST_STATUS_VIEW, ST_SETUP⟩,
  ⟨ST_SET_DP_OFFSET, 0, ST_SETUP, ST_SETUP, ST_SETUP, ST_SET_DP_OFFSET⟩,
  ⟨ST_SET_SKY_TEMP, 0, ST_SETUP, ST_SETUP, ST_SETUP, ST_SET_SKY_TEMP⟩,
  ⟨ST_SET_FUDGE_FACTOR, 0, ST_SETUP, ST_SETUP, ST_SETUP, ST_SET_FUDGE_FACTOR⟩]

/-- Conversion of a `uint8_t` table entry to the `int8_t` return type. -/
def toInt8 (x : Nat) : Int :=
  if x % 256 < 128 then ((x % 256 : Nat) : Int) else ((x % 256 : Nat) : Int) - 256

/-- The `for` loop of `getNextState` over the rows still to be visited: the
first row whose state matches and whose page matches or is `ST_ANY` decides the
result; `-1` when the rows are exhausted. `timeout` is the `uint8_t` flag. -/
def getNextStateLoop (state intState : Nat) (pb : e_buttonPress) (timeout : Nat) :
    List t_nextState → Int
  | [] => -1
  | row :: rest =>
    if row.state = state then
      if row.intState = intState ∨ row.intState = ST_ANY then
        if timeout ≠ 0 then toInt8 row.timeout
        else if pb = e_buttonPress.PB_SHORT then toInt8 row.pbShort
        else if pb = e_buttonPress.PB_LONG then toInt8 row.pbLong
        else toInt8 row.noAction
      else getNextStateLoop state intState pb timeout rest
    else getNextStateLoop state intState pb timeout rest

/-- The function `getNextState`. -/
def getNextState (state intState : Nat) (pb : e_buttonPress) (timeout : Nat) : Int :=
  getNextStateLoop state intState pb timeout nextStateTbl

/-- The type `t_stateFuncPtr`, `uint8_t (*)(t_globalData*)`: a screen function
reads and may update the aggregate and returns its exit page. -/
abbrev t_stateFuncPtr : Type := t_globalData → Nat × t_globalData

/-- The nine screen functions named in `stateFuncTbl`; they are defined in
`menu.c`, which is not among the sources, and are parameters here. -/
structure t_screens where
  statusView : t_stateFuncPtr
  channelView : t_stateFuncPtr
  channelSetup : t_stateFuncPtr
  setOutputPower : t_stateFuncPtr
  setLensDia : t_stateFuncPtr
  setup : t_stateFuncPtr
  setDPOffset : t_stateFuncPtr
  setSkyTemp : t_stateFuncPtr
  setFudgeFactor : t_stateFuncPtr

/-- The table `stateFuncTbl`, row for row. -/
def stateFuncTbl (scr : t_screens) : List (Nat × t_stateFuncPtr) := [
  (ST_STATUS_VIEW, scr.statusView),
  (ST_CHANNEL_VIEW, scr.channelView),
  (ST_CHANNEL_SETUP, scr.channelSetup),
  (ST_SET_OUTPUT_POWER, scr.setOutputPower),
  (ST_SET_LENS_DIA, scr.setLensDia),
  (ST_SETUP, scr.setup),
  (ST_SET_DP_OFFSET, scr.setDPOffset),
  (ST_SET_SKY_TEMP, scr.setSkyTemp),
  (ST_SET_FUDGE_FACTOR, scr.setFudgeFactor)]

/-- The `for` loop of `getStateFunc` over the rows still to be visited; `none`
is the `NULL` pointer. -/
def getStateFuncLoop (state : Nat) : List (Nat × t_stateFuncPtr) → Option t_stateFuncPtr
  | [] => none
  | row :: rest => if row.1 = state then some row.2 else getStateFuncLoop state rest

/-- The function `getStateFunc`. -/
def getStateFunc (scr : t_screens) (state : Nat) : Option t_stateFuncPtr :=
  getStateFuncLoop state (stateFuncTbl scr)

/-- What one call of `menu()` reads from outside: the tick counter, the global
`userActivity` time stamp, the value of `getPB()`, and the indeterminate
content of the local `page` when no screen function assigns it. -/
structure t_menuEnv where
  now : Nat
  userActivity : Nat
  pb : e_buttonPress
  pageUninit : Nat

/-- The first half of the dispatcher body of `menu()`: the call of the screen
function of the current state (`error(ERR_MENU)` when there is none), giving
the exit page as the `uint8_t` later passed to `getNextState`. -/
def menuCallScreen (scr : t_screens) (env : t_menuEnv) (s : Sys) : Outcome (Nat × Sys) :=
  match getStateFunc scr s.menuState with
  | some func => .returns (((func s.data).1) % 256, { s with data := (func s.data).2 })
  | none =>
    match error t_error.ERR_MENU s with
    | .returns s1 => .returns (env.pageUninit % 256, s1)
    | .halts s1 => .halts (env.pageUninit % 256, s1)

/-- The dispatcher body of `menu()` (from `func = getStateFunc(state)` on). -/
def menuDispatch (scr : t_screens) (env : t_menuEnv) (s : Sys) : Outcome Sys :=
  match menuCallScreen scr env s with
  | .halts ps => .halts ps.2
  | .returns (page, s1) =>
    let s2 := { s1 with g_screenRefresh := 0 }
    let timeout : Nat := if timeSince env.now env.userActivity > MENU_TIMEOUT then 1 else 0
    let nextState := getNextState s2.menuState page env.pb timeout
    if nextState > -1 then
      if (s2.menuState : Int) ≠ nextState then
        .returns { s2 with g_screenRefresh := 1, menuState := nextState.toNat % 256 }
      else .returns s2
    else error t_error.ERR_MENU s2

/-- The function `menu()`: display sleep gating, then the dispatcher. -/
def menu (scr : t_screens) (env : t_menuEnv) (s : Sys) : Outcome Sys :=
  if s.menuSleep ≠ 0 then
    if timeSince env.now env.userActivity < DISPLAY_TIMEOUT then
      menuDispatch scr env
        { s with menuSleep := 0, oledCmds := s.oledCmds ++ [t_oledCmd.DISPLAYON] }
    else .returns s
  else
    if timeSince env.now env.userActivity > DISPLAY_TIMEOUT then
      .returns { s with menuSleep := 1, oledCmds := s.oledCmds ++ [t_oledCmd.DISPLAYOFF] }
    else menuDispatch scr env s

/-! ## Specification-side definitions -/

/-- Following the words of the spec: the first row of the transition table, in
table order, whose state equals the current state and whose sub-page equals the
current sub-page or is the wildcard. -/
def firstMatchingRow (state subPage : Nat) : Option t_nextState :=
  nextStateTbl.find? (fun r => decide (r.state = state) &&
    (decide (r.intState = subPage) || decide (r.intState = ST_ANY)))

/-- Following the words of the spec: the column chosen by priority, timeout
first, then short press, then long press, then no action. -/
def columnByPriority (r : t_nextState) (pb : e_buttonPress) (timeout : Nat) : Nat :=
  if timeout ≠ 0 then r.timeout
  else match pb with
    | .PB_SHORT => r.pbShort
    | .PB_LONG => r.pbLong
    | .PB_NONE => r.noAction

/-! ## Concrete states for evaluation -/

/-- A quiescent state with the given bus voltage and bus current and the given
running averages of the voltage and current lines; used to evaluate the
functions at concrete inputs. -/
def sampleSys (voltage current : ℚ) (avgV avgI : Nat) : Sys :=
  { data :=
      { tempC := 0, relHum := 0, dewPointC := 0, sensorVersion := 0, tempAux := 20,
        voltage := voltage, current := current, power := voltage * current,
        dpOffset := 3, skyTemp := -40, fudgeFactor := 1, chData := [],
        status := { AUX_SENSOR_OK := 1, SENSOR_OK := 1 } }
    pins :=
      { SW_CH0 := 1, SW_CH1 := 1, SW_CH2 := 1, SW_CH3 := 1, SW_CH4 := 1, PEN := 1,
        OLED_PWR := 1, nFAULT := 1 }
    avgT := 0, avgV := avgV, avgI := avgI
    sensorUpdateInterval := 0, sensorTimeout := 0, sensorState := 0
    menuSleep := 0, menuState := ST_STATUS_VIEW, g_screenRefresh := 0
    uartSent := [], oledCmds := [], raised := [] }

/-! ## Predicates used in the statements -/

/-- Every entry of the rows fits the positive range of `int8_t`. -/
def rowsFitInt8 (rows : List t_nextState) : Prop :=
  ∀ r ∈ rows, r.pbShort < 128 ∧ r.pbLong < 128 ∧ r.timeout < 128 ∧ r.noAction < 128

/-- The pair `(state, subPage)` has no matching row in `nextStateTbl`: no row
has this state together with this sub-page or the wildcard. -/
def noMatchingRow (state subPage : Nat) : Prop :=
  ∀ r ∈ nextStateTbl, ¬ (r.state = state ∧ (r.intState = subPage ∨ r.intState = ST_ANY))

/-- The call of `menu()` gets past the display sleep gating and runs the
dispatcher: a sleeping display is woken by activity within `DISPLAY_TIMEOUT`,
an awake display has not been idle for longer than `DISPLAY_TIMEOUT`. -/
def menuDispatches (env : t_menuEnv) (s : Sys) : Prop :=
  (s.menuSleep ≠ 0 ∧ timeSince env.now env.userActivity < DISPLAY_TIMEOUT) ∨
  (s.menuSleep = 0 ∧ ¬ timeSince env.now env.userActivity > DISPLAY_TIMEOUT)

/-- The exit page that the screen function of the current state hands to
`getNextState` in a call of `menu()`. -/
def menuExitPage (scr : t_screens) (env : t_menuEnv) (s : Sys) : Nat :=
  (menuCallScreen scr env s).state.1

/-- Screen functions that leave the aggregate alone and report exit page 1. -/
def sampleScreens : t_screens :=
  { statusView := fun d => (1, d), channelView := fun d => (1, d),
    channelSetup := fun d => (1, d), setOutputPower := fun d => (1, d),
    setLensDia := fun d => (1, d), setup := fun d => (1, d),
    setDPOffset := fun d => (1, d), setSkyTemp := fun d => (1, d),
    setFudgeFactor := fun d => (1, d) }


/-! ## Executions of the sensor link protocol -/

/-- What one call of `checkSensor` reads from outside: the tick counter, the
value of `uartIsDataReady()` and the frame `getDataPacket()` points to. -/
structure t_sensorEnv where
  now : Nat
  dataReady : Bool
  dp : t_dataPacket
  deriving DecidableEq, Repr

/-- An execution of `checkSensor` calls: one call per entry, in order, as in
the main loop. -/
def sensorRun : List t_sensorEnv → Sys → Sys
  | [], s => s
  | e :: es, s => sensorRun es (checkSensor e.now e.dataReady e.dp s)

/-- A well-formed frame (header 0xAA, status 1) with readings that differ from
those of `sampleSys`. -/
def sampleFrame : t_dataPacket :=
  { header := 0xAA, status := 1, tempC := 25, relHum := 60, dewPointC := 17, version := 3 }

/-- The stored sensor readings `tempC`, `relHum`, `dewPointC`, `sensorVersion`
of the aggregate. -/
def readings (d : t_globalData) : ℚ × ℚ × ℚ × Nat :=
  (d.tempC, d.relHum, d.dewPointC, d.sensorVersion)

/-- The readings carried by a frame. -/
def frameReadings (dp : t_dataPacket) : ℚ × ℚ × ℚ × Nat :=
  (dp.tempC, dp.relHum, dp.dewPointC, dp.version)

/-! ## Serial transport and the sensor link as a whole -/

/-- Modelled from the spec: the serial transport (`uartSendByte`,
`uartIsDataReady`, `getDataPacket` and the receive interrupt) is not among the
sources. Section 6 gives `sendByte(b)`, `byteAvailable()` and `receiveFrame()`,
which yields the packet once a full frame has arrived; section 5 has received
data queued for the sensor link protocol, which consumes it; section 4.6 has a
late response, arriving after the timeout, discarded by the transport. The
state is the frame waiting to be received, if any, and the tick at which the
last request byte was sent. -/
structure t_uart where
  rxFrame : Option t_dataPacket
  txTick : Nat
  deriving DecidableEq, Repr

/-- Content of the packet buffer while no frame is waiting. -/
def emptyFrame : t_dataPacket :=
  { header := 0, status := 0, tempC := 0, relHum := 0, dewPointC := 0, version := 0 }

/-- Modelled from the spec: `uartSendByte` as the transport sees it; the tick
of the request is noted (the byte itself is logged by `checkSensor`). -/
def uartSendByte (now : Nat) (u : t_uart) : t_uart := { u with txTick := now % U32 }

/-- Modelled from the spec: `uartIsDataReady`, true once a full frame has
arrived and is waiting. -/
def uartIsDataReady (u : t_uart) : Bool := u.rxFrame.isSome

/-- Modelled from the spec: `getDataPacket`, the waiting frame. -/
def getDataPacket (u : t_uart) : t_dataPacket := u.rxFrame.getD emptyFrame

/-- Modelled from the spec: the receive side of the transport when a full frame
`f` has arrived at tick `now`. Section 4.6: a response arriving after the
timeout of the request, more than `SENSOR_TIMEOUT` ticks after the request
byte, is discarded; otherwise the frame becomes the waiting frame. -/
def uartFrameArrives (now : Nat) (f : t_dataPacket) (u : t_uart) : t_uart :=
  if timeSince now u.txTick > SENSOR_TIMEOUT then u else { u with rxFrame := some f }

/-- The sensor link as a whole: the system state and the transport. -/
structure t_link where
  sys : Sys
  uart : t_uart
  deriving DecidableEq, Repr

/-- What happens in one pass of the main loop on the link: the tick counter at
the call of `checkSensor`, and the frame, if any, that has fully arrived since
the previous call. -/
structure t_linkEnv where
  now : Nat
  arrival : Option t_dataPacket
  deriving DecidableEq, Repr

/-- Modelled from the spec: how the transport, which is not among the sources,
and `checkSensor` act together in one pass of the main loop (section 5: the
receive interrupt queues what arrives, the protocol consumes it). The transport
takes in an arriving frame, `checkSensor` of `main.c` runs against the
transport, and the transport follows the calls `checkSensor` makes:
`uartSendByte` in the branch that sends the request, and `getDataPacket`, which
consumes the waiting frame, in the branch that receives. -/
def linkStep (e : t_linkEnv) (st : t_link) : t_link :=
  let u1 : t_uart :=
    match e.arrival with
    | some f => uartFrameArrives e.now f st.uart
    | none => st.uart
  let sys1 := checkSensor e.now (uartIsDataReady u1) (getDataPacket u1) st.sys
  let u2 : t_uart :=
    if st.sys.sensorState = 0 ∧
        timeSince e.now st.sys.sensorUpdateInterval ≥ SENSOR_UPDATE_INTERVALL then
      uartSendByte e.now u1
    else u1
  let u3 : t_uart :=
    if st.sys.sensorState = 1 ∧ ¬ timeSince e.now st.sys.sensorTimeout > SENSOR_TIMEOUT ∧
        uartIsDataReady u1 = true then
      { u2 with rxFrame := none }
    else u2
  { sys := sys1, uart := u3 }

/-- An execution of the link: one pass per entry, in order. -/
def linkRun : List t_linkEnv → t_link → t_link
  | [], st => st
  | e :: es, st => linkRun es (linkStep e st)

/-- The link at start-up over `sampleSys`: Idle, no frame waiting. -/
def sampleLink : t_link :=
  { sys := sampleSys 12 1 0 0, uart := { rxFrame := none, txTick := 0 } }

/-! ## Channel records -/

/-- Modelled from the spec: `NUM_CHANNELS` is defined in `common.h`, which is
not among the sources; section 3 gives `channels: array[4]`, and `setSwitch`
knows the channels 0 to 3. -/
def NUM_CHANNELS : Nat := 4

/-- Content read for an element beyond the end of `chData[]`; the array has
`NUM_CHANNELS` elements and the scanner stays within them. -/
def chDefault : t_chData :=
  { lensDia := 0, status := t_chStatus.OFF, mode := t_chMode.AUTO, Pmax := 0, Preq := 0,
    Patt := 0, cur := 0, current := 0, DCreq := 0, dt := 0 }

/-- The element `data->chData[n]`. -/
def chGet (d : t_globalData) (n : Nat) : t_chData := (d.chData[n]?).getD chDefault

/-- Assignment to members of `data->chData[n]`: the element is replaced by
`f` of it. -/
def chSet (d : t_globalData) (n : Nat) (f : t_chData → t_chData) : t_globalData :=
  { d with chData := d.chData.set n (f (chGet d n)) }

/-! ## Start-up values (`main.c`, `initGlobalData`) -/

/-- The loop body of `initGlobalData` for channel `n`. -/
def initChannel (d : t_globalData) (n : Nat) : t_globalData :=
  chSet d n (fun c => { c with
    lensDia := 4, status := t_chStatus.OFF, mode := t_chMode.AUTO, Pmax := 0, Preq := 0,
    Patt := 0, cur := 0 })

/-- The function `initGlobalData`: the scalar members are set, then the members
of every channel `n < NUM_CHANNELS`. -/
def initGlobalData (data : t_globalData) : t_globalData :=
  (List.range NUM_CHANNELS).foldl initChannel
    { data with
      tempC := 0, relHum := 0, dewPointC := 0, sensorVersion := 0, tempAux := 0,
      voltage := 0, current := 0, power := 0, dpOffset := 3.0, skyTemp := -40,
      fudgeFactor := 1.0 }

/-! ## Channel current scanner (`main.c`, `setSwitch`, `getAvgChannelCurrents`) -/

def NUM_SAMPLES : Nat := 20

/-- Modelled from the spec: the switch states `ON` and `OFF` handed to
`setSwitch` are defined in `common.h`; section 6 gives `setChannel(channelId,
on/off)`, taken as the pin levels 1 and 0. -/
def ON : Nat := 1

/-- See `ON`. -/
def OFF : Nat := 0

/-- The macro `ADC_TO_I(counts) ( (counts * 5.0) / (1023.0 * 0.05 * 50.0) )`. -/
def ADC_TO_I (counts : ℚ) : ℚ := (counts * 5.0) / (1023.0 * 0.05 * 50.0)

/-- The function `setSwitch`: the pin of channel 0 to 3 takes the state, any
other channel number is ignored. -/
def setSwitch (channel state : Nat) (p : t_pins) : t_pins :=
  match channel with
  | 0 => { p with SW_CH0 := state }
  | 1 => { p with SW_CH1 := state }
  | 2 => { p with SW_CH2 := state }
  | 3 => { p with SW_CH3 := state }
  | _ => p

/-- Hardware actions of the scanner, in the order they are issued: a call of
`setSwitch(channel, state)` or a call of `adcGetConversion(AIN_ISENS)`. -/
inductive t_scanEvent where
  | switch (channel state : Nat)
  | convert
  deriving DecidableEq, Repr

/-- The state `getAvgChannelCurrents` works on: the system state, the static
locals `avg`, `channel`, `samples`, `busy`, and the log of hardware actions. -/
structure ScanSys where
  sys : Sys
  avg : Nat
  channel : Nat
  samples : Nat
  busy : Nat
  events : List t_scanEvent
  deriving DecidableEq, Repr

/-- What one call of `getAvgChannelCurrents` reads from outside: the content
of the automatic local `adc` on entry (it has no initializer), and the value
`adcGetConversion(AIN_ISENS)` returns if it is called. -/
structure t_scanEnv where
  adcLocal : Nat
  conversion : Nat
  deriving DecidableEq, Repr

/-- The classification chain of `getAvgChannelCurrents` (from
`current = ADC_TO_I(adc)` to the end of the `if / else if / else`), for the
content `adc` of the local and the channel index. The quotient `Pmax / Preq`
is the rational one; for `Preq = 0` the floating-point quotient (infinite or
not a number) has no counterpart here. -/
def scanClassify (adc channel : Nat) (s : Sys) : Outcome Sys :=
  let current : ℚ := ADC_TO_I ((adc % U16 : Nat) : ℚ)
  if current < MIN_CURRENT then
    if (chGet s.data channel).status ≠ t_chStatus.CH_OPEN then
      (error t_error.WARN_REMOVED s).andThen (fun s1 =>
        .returns { s1 with
          data := chSet s1.data channel (fun c => { c with status := t_chStatus.CH_OPEN }) })
    else .returns s
  else if current > MAX_CURRENT then
    (error t_error.WARN_SHORT s).andThen (fun s1 =>
      let s2 : Sys := { s1 with
        data := chSet s1.data channel (fun c => { c with status := t_chStatus.CH_DISABLED }) }
      if s2.pins.nFAULT = 0 then
        .returns { s2 with pins := { { s2.pins with PEN := 0 } with PEN := 1 } }
      else .returns s2)
  else
    let d1 := chSet s.data channel (fun c => { c with current := current })
    let d2 := chSet d1 channel (fun c => { c with Pmax := d1.voltage * current })
    let d3 := chSet d2 channel (fun c => { c with DCreq := c.Pmax / c.Preq })
    .returns { s with data := d3 }

/-- The function `getAvgChannelCurrents`; the returned `busy` is the field
`busy` of the resulting state. `samples++` is a post-increment of a `uint8_t`,
and `avg` a `uint16_t`. -/
def getAvgChannelCurrents (env : t_scanEnv) (s : ScanSys) : Outcome ScanSys :=
  if s.busy = 0 then
    .returns { s with
      busy := 1
      samples := 0
      channel := 0
      avg := (chGet s.sys.data 0).cur % U16
      sys := { s.sys with pins := setSwitch 0 ON s.sys.pins }
      events := s.events ++ [t_scanEvent.switch 0 ON] }
  else if s.samples < NUM_SAMPLES then
    .returns { s with
      samples := (s.samples + 1) % 256
      avg := ema (env.conversion % U16) s.avg (ALPHA 0.65)
      events := s.events ++ [t_scanEvent.convert] }
  else
    let s1 : ScanSys := { s with
      samples := (s.samples + 1) % 256
      sys := { s.sys with pins := setSwitch s.channel OFF s.sys.pins }
      events := s.events ++ [t_scanEvent.switch s.channel OFF] }
    match scanClassify env.adcLocal s1.channel s1.sys with
    | .halts sy => .halts { s1 with sys := sy }
    | .returns sy =>
      if s1.channel < NUM_CHANNELS - 1 then
        .returns { s1 with
          channel := (s1.channel + 1) % 256
          avg := (chGet sy.data ((s1.channel + 1) % 256)).cur % U16
          sys := { sy with pins := setSwitch ((s1.channel + 1) % 256) ON sy.pins }
          events := s1.events ++ [t_scanEvent.switch ((s1.channel + 1) % 256) ON] }
      else
        .returns { s1 with sys := sy, busy := 0 }

/-- The outcome of the first `n` calls of `getAvgChannelCurrents`, call number
`k` (from 0) reading `envs k`. -/
def scanCalls (envs : Nat → t_scanEnv) : Nat → ScanSys → Outcome ScanSys
  | 0, s => .returns s
  | n + 1, s => (scanCalls envs n s).andThen (getAvgChannelCurrents (envs n))

/-- The channels de-energized (and classified) in a log, in order. -/
def classifiedChannels : List t_scanEvent → List Nat
  | [] => []
  | t_scanEvent.switch ch 0 :: rest => ch :: classifiedChannels rest
  | _ :: rest => classifiedChannels rest

/-- The number of conversions in a log. -/
def conversions (l : List t_scanEvent) : Nat := l.count t_scanEvent.convert

/-- The number of conversions a log shows between switching channel `ch` on
and switching it off again. -/
def samplesOf (ch : Nat) (l : List t_scanEvent) : Nat :=
  ((l.dropWhile (fun e => decide (e ≠ t_scanEvent.switch ch ON))).takeWhile
    (fun e => decide (e ≠ t_scanEvent.switch ch OFF))).count t_scanEvent.convert

/-- The hardware actions of one complete scan as the code issues them:
channel 0 on, 20 conversions, channel 0 off, then each of the channels 1 to 3
switched on and, at the next call, off again. -/
def scanTrace : List t_scanEvent :=
  [t_scanEvent.switch 0 ON] ++ List.replicate 20 t_scanEvent.convert ++
    [t_scanEvent.switch 0 OFF, t_scanEvent.switch 1 ON, t_scanEvent.switch 1 OFF,
     t_scanEvent.switch 2 ON, t_scanEvent.switch 2 OFF, t_scanEvent.switch 3 ON,
     t_scanEvent.switch 3 OFF]

/-- A channel record with the given status and required power. -/
def sampleCh (status : t_chStatus) (Preq : ℚ) : t_chData :=
  { lensDia := 4, status := status, mode := t_chMode.AUTO, Pmax := 0, Preq := Preq,
    Patt := 0, cur := 0, current := 0, DCreq := 0, dt := 0 }

/-- A scanner state over `sampleSys` (12 V) with four channels of the given
status and required power, and the given static locals. -/
def sampleScan (status : t_chStatus) (Preq : ℚ) (avg channel samples busy : Nat) : ScanSys :=
  { sys := { sampleSys 12 1 0 0 with
      data := { (sampleSys 12 1 0 0).data with
        chData := List.replicate 4 (sampleCh status Preq) } }
    avg := avg, channel := channel, samples := samples, busy := busy, events := [] }

/-! ## Thermal power model (`main.c`, `calcRequiredPower`) -/

def EPSILON : ℚ := 0.95
def RHO : ℚ := 5.67e-8
def PI : ℚ := 3.14
def C_TO_K : ℚ := 273.15
def INCH_TO_MM : ℚ := 0.0254
def K_FACTOR : ℚ := 0.85
def WIDTH : ℚ := 0.03

/-- The loop body of `calcRequiredPower` for channel `n`; `pow(x, 2.0)` and
`pow(x, 4.0)` are the exact powers. -/
def calcChannel (data : t_globalData) (n : Nat) : t_globalData :=
  let d : ℚ := INCH_TO_MM * (chGet data n).lensDia
  let A : ℚ := (PI * d ^ 2) / 4
  let T1 : ℚ := data.dewPointC + data.dpOffset + C_TO_K
  let T2 : ℚ := data.skyTemp + C_TO_K
  let phi : ℚ := EPSILON * RHO * A * (T1 ^ 4 - T2 ^ 4)
  let data1 := chSet data n (fun c => { c with Preq := phi * data.fudgeFactor })
  let p : ℚ := 2 * PI * INCH_TO_MM * (chGet data1 n).lensDia
  let A2 : ℚ := p * WIDTH
  let Rth : ℚ := ((chGet data1 n).lensDia / 2) * K_FACTOR * A2
  chSet data1 n (fun c => { c with dt := phi * Rth - data1.dewPointC })

/-- The function `calcRequiredPower`: the loop body for `n` from 0 to
`NUM_CHANNELS - 1`. -/
def calcRequiredPower (data : t_globalData) : t_globalData :=
  (List.range NUM_CHANNELS).foldl calcChannel data

/-- Following the words of the spec: the required power
`fudgeFactor * EPSILON * RHO * A * (T1^4 - T2^4)` with
`A = PI * (0.0254 * lensDia)^2 / 4`, `T1 = dewPoint + dpOffset + 273.15` and
`T2 = skyTemp + 273.15`, over the constants of the code. -/
def requiredPowerW (fudgeFactor lensDia dewPoint dpOffset skyTemp : ℚ) : ℚ :=
  fudgeFactor * 0.95 * 5.67e-8 * (3.14 * (0.0254 * lensDia) ^ 2 / 4) *
    ((dewPoint + dpOffset + 273.15) ^ 4 - (skyTemp + 273.15) ^ 4)

/-! # Theorems -/

/-! ## Smoothing filter -/



/-- Bounds on a convex combination with weights summing to 65536. -/
theorem convex_le (s v a : Nat) (ha : a ≤ 65536) (m : Nat) (hs : s ≤ m) (hv : v ≤ m) :
    s * a + v * (65536 - a) ≤ m * 65536 := by
  have h1 : s * a ≤ m * a := Nat.mul_le_mul_right a hs
  have h2 : v * (65536 - a) ≤ m * (65536 - a) := Nat.mul_le_mul_right _ hv
  have h3 : m * a + m * (65536 - a) = m * 65536 := by
    rw [← Nat.mul_add]; congr 1; omega
  omega

theorem convex_ge (s v a : Nat) (ha : a ≤ 65536) (m : Nat) (hs : m ≤ s) (hv : m ≤ v) :
    m * 65536 ≤ s * a + v * (65536 - a) := by
  have h1 : m * a ≤ s * a := Nat.mul_le_mul_right a hs
  have h2 : m * (65536 - a) ≤ v * (65536 - a) := Nat.mul_le_mul_right _ hv
  have h3 : m * a + m * (65536 - a) = m * 65536 := by
    rw [← Nat.mul_add]; congr 1; omega
  omega

theorem ema_eq_exact (s v a : Nat) (hs : s ≤ 65535) (hv : v ≤ 65535) (ha : a < 65536) :
    ema s v a = emaExact s v a := by
  have hc := convex_le s v a (le_of_lt ha) 65535 hs hv
  have h1 : s * a ≤ 65535 * 65536 := le_trans (Nat.le_add_right _ _) hc
  have h2 : v * (65536 - a) ≤ 65535 * 65536 := le_trans (Nat.le_add_left _ _) hc
  have e1 : (65536 + U32 - a) % U32 = 65536 - a := by
    unfold U32; omega
  unfold ema emaExact
  simp only [e1]
  have e2 : (s * a) % U32 = s * a := Nat.mod_eq_of_lt (by unfold U32; omega)
  have e3 : (v * (65536 - a)) % U32 = v * (65536 - a) := Nat.mod_eq_of_lt (by unfold U32; omega)
  rw [e2, e3]
  have e4 : (s * a + v * (65536 - a)) % U32 = s * a + v * (65536 - a) :=
    Nat.mod_eq_of_lt (by unfold U32; omega)
  rw [e4]
  have e5 : (s * a + v * (65536 - a) + 32768) % U32 = s * a + v * (65536 - a) + 32768 :=
    Nat.mod_eq_of_lt (by unfold U32; omega)
  rw [e5]
  apply Nat.mod_eq_of_lt
  unfold U16
  omega

theorem ALPHA_065 : ALPHA 0.65 = 42597 := by
  have h : ⌊(0.65 : ℚ) * 65535⌋ = 42597 := by
    rw [Int.floor_eq_iff]; constructor <;> norm_num
  unfold ALPHA U32
  rw [h]; rfl

theorem emaExact_ge (s v a m : Nat) (ha : a ≤ 65536) (hs : m ≤ s) (hv : m ≤ v) :
    m ≤ emaExact s v a := by
  unfold emaExact
  rw [Nat.le_div_iff_mul_le (by norm_num)]
  have := convex_ge s v a ha m hs hv
  omega

theorem emaExact_le (s v a m : Nat) (ha : a ≤ 65536) (hs : s ≤ m) (hv : v ≤ m) :
    emaExact s v a ≤ m := by
  unfold emaExact
  apply Nat.le_of_lt_succ
  rw [Nat.div_lt_iff_lt_mul (by norm_num)]
  have := convex_le s v a ha m hs hv
  omega

theorem ema_bounds (s v a : Nat) (hs : s ≤ 65535) (hv : v ≤ 65535) (ha : a < 65536) :
    min s v ≤ ema s v a ∧ ema s v a ≤ max s v := by
  rw [ema_eq_exact s v a hs hv ha]
  exact ⟨emaExact_ge s v a _ (le_of_lt ha) (min_le_left _ _) (min_le_right _ _),
    emaExact_le s v a _ (le_of_lt ha) (le_max_left _ _) (le_max_right _ _)⟩

theorem ema_fixed (s a : Nat) (hs : s ≤ 65535) (ha : a < 65536) : ema s s a = s := by
  have := ema_bounds s s a hs hs ha
  simp at this
  omega

theorem ema_step_up (s v a : Nat) (hs : s ≤ 65535) (hvs : v < s) (ha : a < 65536)
    (h : 32768 ≤ a) : v < ema s v a := by
  rw [ema_eq_exact s v a hs (by omega) ha]
  unfold emaExact
  show v + 1 ≤ _
  rw [Nat.le_div_iff_mul_le (by norm_num)]
  have h1 : (v + 1) * a ≤ s * a := Nat.mul_le_mul_right a hvs
  have h3 : v * a + v * (65536 - a) = v * 65536 := by
    rw [← Nat.mul_add]; congr 1; omega
  have h4 : (v + 1) * a = v * a + a := by ring
  omega

theorem ema_step_down (s v a : Nat) (hv : v ≤ 65535) (hsv : s < v) (ha : a < 65536)
    (h : 32768 < a) : ema s v a < v := by
  rw [ema_eq_exact s v a (by omega) hv ha]
  unfold emaExact
  rw [Nat.div_lt_iff_lt_mul (by norm_num)]
  have h1 : s * a ≤ (v - 1) * a := Nat.mul_le_mul_right a (by omega)
  have h3 : v * a + v * (65536 - a) = v * 65536 := by
    rw [← Nat.mul_add]; congr 1; omega
  have h4 : (v - 1) * a + a = v * a := by
    have : v - 1 + 1 = v := by omega
    calc (v - 1) * a + a = (v - 1 + 1) * a := by ring
      _ = v * a := by rw [this]
  omega

theorem emaIter_succ (s a : Nat) (v n : Nat) :
    emaIter s a v (n + 1) = ema s (emaIter s a v n) a := by
  induction n generalizing v with
  | zero => simp only [emaIter]
  | succ k ih =>
    rw [emaIter, ih (ema s v a)]
    simp only [emaIter]

theorem emaIter_add (s a : Nat) (v n k : Nat) :
    emaIter s a v (n + k) = emaIter s a (emaIter s a v n) k := by
  induction n generalizing v with
  | zero => simp [emaIter]
  | succ m ih =>
    have : m + 1 + k = (m + k) + 1 := by omega
    rw [this]
    simp only [emaIter]
    exact ih _

theorem emaIter_fixed (s a : Nat) (hs : s ≤ 65535) (ha : a < 65536) (n : Nat) :
    emaIter s a s n = s := by
  induction n with
  | zero => simp only [emaIter]
  | succ k ih => rw [emaIter_succ, ih, ema_fixed s a hs ha]

/-- While the starting average is below the sample, every iterate is in range
and not above the sample. -/
theorem emaIter_below (s a v : Nat) (hs : s ≤ 65535) (ha : a < 65536) (hvs : v ≤ s)
    (n : Nat) : emaIter s a v n ≤ s := by
  induction n with
  | zero => exact hvs
  | succ k ih =>
    rw [emaIter_succ]
    have := (ema_bounds s (emaIter s a v k) a hs (by omega) ha).2
    rw [max_eq_left ih] at this
    exact this

theorem emaIter_above (s a v : Nat) (hv : v ≤ 65535) (ha : a < 65536) (hsv : s ≤ v)
    (n : Nat) : s ≤ emaIter s a v n ∧ emaIter s a v n ≤ 65535 := by
  induction n with
  | zero => exact ⟨hsv, hv⟩
  | succ k ih =>
    rw [emaIter_succ]
    have hb := ema_bounds s (emaIter s a v k) a (by omega) ih.2 ha
    rw [min_eq_left ih.1, max_eq_right ih.1] at hb
    exact ⟨hb.1, by omega⟩

theorem emaIter_monotone (s a v : Nat) (hs : s ≤ 65535) (hv : v ≤ 65535) (ha : a < 65536)
    (n : Nat) :
    (v ≤ s → emaIter s a v n ≤ emaIter s a v (n + 1) ∧ emaIter s a v (n + 1) ≤ s) ∧
    (s ≤ v → s ≤ emaIter s a v (n + 1) ∧ emaIter s a v (n + 1) ≤ emaIter s a v n) := by
  constructor
  · intro hvs
    have hb := emaIter_below s a v hs ha hvs n
    have := ema_bounds s (emaIter s a v n) a hs (by omega) ha
    rw [min_eq_right hb, max_eq_left hb] at this
    rw [emaIter_succ]; exact this
  · intro hsv
    have hb := emaIter_above s a v hv ha hsv n
    have := ema_bounds s (emaIter s a v n) a hs hb.2 ha
    rw [min_eq_left hb.1, max_eq_right hb.1] at this
    rw [emaIter_succ]; exact this

/-- With a weight above one half the distance to the sample shrinks at every
call, so `d` calls suffice when the distance is at most `d`. -/
theorem emaIter_reaches (s a : Nat) (hs : s ≤ 65535) (ha : a < 65536) (h : 32768 < a)
    (d : Nat) : ∀ v, v ≤ 65535 → v ≤ s + d → s ≤ v + d → emaIter s a v d = s := by
  induction d with
  | zero =>
    intro v _ h1 h2
    simp only [emaIter]
    omega
  | succ k ih =>
    intro v hv h1 h2
    simp only [emaIter]
    have hb := ema_bounds s v a hs hv ha
    rcases Nat.lt_trichotomy v s with hlt | heq | hgt
    · have := ema_step_up s v a hs hlt ha (le_of_lt h)
      rw [min_eq_right (le_of_lt hlt), max_eq_left (le_of_lt hlt)] at hb
      exact ih _ (by omega) (by omega) (by omega)
    · subst heq
      rw [ema_fixed v a hs ha]
      exact emaIter_fixed v a hs ha k
    · have := ema_step_down s v a hv hgt ha h
      rw [min_eq_left (le_of_lt hgt), max_eq_right (le_of_lt hgt)] at hb
      exact ih _ (by omega) (by omega) (by omega)

theorem emaIter_converges (s a v : Nat) (hs : s ≤ 65535) (hv : v ≤ 65535) (ha : a < 65536)
    (h : 32768 < a) : ∃ N, ∀ n, N ≤ n → emaIter s a v n = s := by
  refine ⟨(s - v) + (v - s), fun n hn => ?_⟩
  obtain ⟨k, rfl⟩ := Nat.exists_eq_add_of_le hn
  rw [emaIter_add, emaIter_reaches s a hs ha h _ v hv (by omega) (by omega)]
  exact emaIter_fixed s a hs ha k

theorem emaIter_stall (a : Nat) (h : a ≤ 32768) (n : Nat) : emaIter 0 a 1 n = 1 := by
  induction n with
  | zero => simp only [emaIter]
  | succ k ih =>
    rw [emaIter_succ, ih, ema_eq_exact 0 1 a (by omega) (by omega) (by omega)]
    simp only [emaExact]
    omega

theorem emaIter_quarter_stalls (n : Nat) : emaIter 1000 16384 0 n ≤ 999 := by
  induction n with
  | zero => decide
  | succ k ih =>
    rw [emaIter_succ]
    generalize emaIter 1000 16384 0 k = v at ih
    rw [ema_eq_exact 1000 v 16384 (by omega) (by omega) (by omega)]
    simp only [emaExact]
    omega

/-- C1: for every sample and previous average in [0, 65535] and every alpha in
[0, 65536), `ema` computed with 32-bit wrapping intermediates and a 16-bit
result equals the exact value
`floor((sample*alpha + average*(65536 - alpha) + 32768) / 65536)`; each
intermediate stays below `2 ^ 32` and the quotient below `2 ^ 16`. -/
theorem ema_exact_no_overflow (inp average alpha : Nat)
    (hi : inp ≤ 65535) (hv : average ≤ 65535) (ha : alpha < 65536) :
    ema inp average alpha = (inp * alpha + average * (65536 - alpha) + 32768) / 65536 ∧
    inp * alpha < 2 ^ 32 ∧
    average * (65536 - alpha) < 2 ^ 32 ∧
    inp * alpha + average * (65536 - alpha) < 2 ^ 32 ∧
    inp * alpha + average * (65536 - alpha) + 32768 < 2 ^ 32 ∧
    (inp * alpha + average * (65536 - alpha) + 32768) / 65536 < 2 ^ 16 := by
  have hc := convex_le inp average alpha (le_of_lt ha) 65535 hi hv
  have h1 : inp * alpha ≤ 65535 * 65536 := le_trans (Nat.le_add_right _ _) hc
  have h2 : average * (65536 - alpha) ≤ 65535 * 65536 := le_trans (Nat.le_add_left _ _) hc
  refine ⟨ema_eq_exact inp average alpha hi hv ha, ?_, ?_, ?_, ?_, ?_⟩
  · omega
  · omega
  · omega
  · omega
  · omega

theorem ema_exact_no_overflow_witness :
    ema 65535 65535 65535 = (65535 * 65535 + 65535 * (65536 - 65535) + 32768) / 65536 ∧
    65535 * 65535 < 2 ^ 32 ∧
    65535 * (65536 - 65535) < 2 ^ 32 ∧
    65535 * 65535 + 65535 * (65536 - 65535) < 2 ^ 32 ∧
    65535 * 65535 + 65535 * (65536 - 65535) + 32768 < 2 ^ 32 ∧
    (65535 * 65535 + 65535 * (65536 - 65535) + 32768) / 65536 < 2 ^ 16 :=
  ema_exact_no_overflow 65535 65535 65535 (by decide) (by decide) (by decide)

/-- C2: for every sample and previous average in [0, 65535] and every alpha in
[0, 65536), the result of `ema` lies between the smaller and the larger of the
sample and the previous average. -/
theorem ema_within_min_max (inp average alpha : Nat)
    (hi : inp ≤ 65535) (hv : average ≤ 65535) (ha : alpha < 65536) :
    min inp average ≤ ema inp average alpha ∧ ema inp average alpha ≤ max inp average :=
  ema_bounds inp average alpha hi hv ha

theorem ema_within_min_max_witness :
    min 1000 0 ≤ ema 1000 0 42597 ∧ ema 1000 0 42597 ≤ max 1000 0 :=
  ema_within_min_max 1000 0 42597 (by decide) (by decide) (by decide)

/-- C3 (claim as stated fails): with sample 1000, starting average 0 and the
weight alpha = 16384 (one quarter), the fed-back average never equals the
sample, however many calls are made; it stalls at 999. -/
theorem ema_quarter_never_reaches_sample :
    ¬ ∃ n, emaIter 1000 16384 0 n = 1000 := by
  rintro ⟨n, hn⟩
  have := emaIter_quarter_stalls n
  omega

/-- C3 (amended): for every alpha in [0, 65536) and every sample and starting
average in [0, 65535], the fed-back averages move monotonically toward the
sample, never past it; and the averages reach the sample after finitely many
calls for all such samples and starting averages exactly when alpha exceeds
32768 (a weight above one half). -/
theorem ema_monotone_and_converges_iff (alpha : Nat) (ha : alpha < 65536) :
    (∀ sample avg, sample ≤ 65535 → avg ≤ 65535 → ∀ n,
      (avg ≤ sample →
        emaIter sample alpha avg n ≤ emaIter sample alpha avg (n + 1) ∧
        emaIter sample alpha avg (n + 1) ≤ sample) ∧
      (sample ≤ avg →
        sample ≤ emaIter sample alpha avg (n + 1) ∧
        emaIter sample alpha avg (n + 1) ≤ emaIter sample alpha avg n)) ∧
    ((∀ sample avg, sample ≤ 65535 → avg ≤ 65535 →
        ∃ N, ∀ n, N ≤ n → emaIter sample alpha avg n = sample) ↔ 32768 < alpha) := by
  refine ⟨fun s v hs hv n => emaIter_monotone s alpha v hs hv ha n, ?_, ?_⟩
  · intro h
    by_contra hle
    obtain ⟨N, hN⟩ := h 0 1 (by omega) (by omega)
    have h1 := hN N (le_refl N)
    rw [emaIter_stall alpha (by omega) N] at h1
    omega
  · intro h s v hs hv
    exact emaIter_converges s alpha v hs hv ha h

theorem ema_monotone_and_converges_iff_witness :
    (∀ sample avg, sample ≤ 65535 → avg ≤ 65535 → ∀ n,
      (avg ≤ sample →
        emaIter sample 42597 avg n ≤ emaIter sample 42597 avg (n + 1) ∧
        emaIter sample 42597 avg (n + 1) ≤ sample) ∧
      (sample ≤ avg →
        sample ≤ emaIter sample 42597 avg (n + 1) ∧
        emaIter sample 42597 avg (n + 1) ≤ emaIter sample 42597 avg n)) ∧
    ((∀ sample avg, sample ≤ 65535 → avg ≤ 65535 →
        ∃ N, ∀ n, N ≤ n → emaIter sample 42597 avg n = sample) ↔ 32768 < 42597) :=
  ema_monotone_and_converges_iff 42597 (by decide)

/-- C4: with alpha = ALPHA(0.65) = 42597, sample 1000 and starting average 0
the fed-back averages are 650, 877, 957, 985, 995, 998, 999, 1000: strictly
increasing on each of the first 8 calls, never above 1000, equal to 1000 after
8 calls and at every later call. -/
theorem ema_scenario_065 :
    ALPHA 0.65 = 42597 ∧
    List.map (emaIter 1000 (ALPHA 0.65) 0) (List.range 9) =
      [0, 650, 877, 957, 985, 995, 998, 999, 1000] ∧
    (∀ n, n < 8 →
      emaIter 1000 (ALPHA 0.65) 0 n < emaIter 1000 (ALPHA 0.65) 0 (n + 1)) ∧
    (∀ n, n < 8 → emaIter 1000 (ALPHA 0.65) 0 n < 1000) ∧
    (∀ n, emaIter 1000 (ALPHA 0.65) 0 n ≤ 1000) ∧
    emaIter 1000 (ALPHA 0.65) 0 8 = 1000 ∧
    (∀ n, 8 ≤ n → emaIter 1000 (ALPHA 0.65) 0 n = 1000) := by
  rw [ALPHA_065]
  refine ⟨rfl, by decide, by decide, by decide, ?_, by decide, ?_⟩
  · intro n
    exact emaIter_below 1000 42597 0 (by decide) (by decide) (by decide) n
  · intro n hn
    obtain ⟨k, rfl⟩ := Nat.exists_eq_add_of_le hn
    rw [emaIter_add]
    have h8 : emaIter 1000 42597 0 8 = 1000 := by decide
    rw [h8]
    exact emaIter_fixed 1000 42597 (by decide) (by decide) k

/-! ## Safety monitor -/

theorem systemCheck_of_current_ok (adc : t_adcSample) (s : Sys)
    (hc : s.data.current ≤ MAX_CURRENT) : systemCheck adc s = systemCheckVoltage s := by
  unfold systemCheck systemCheckCurrent
  rw [if_neg (not_lt.mpr hc)]
  rfl

theorem systemCheckVoltage_halt (s : Sys)
    (h : s.data.voltage > 13.8 ∨ s.data.voltage ≤ 11.0) :
    systemCheckVoltage s = .halts { s with
      pins := { s.pins with
        SW_CH1 := 0, SW_CH2 := 0, SW_CH3 := 0, SW_CH4 := 0, PEN := 0, OLED_PWR := 0 } } := by
  unfold systemCheckVoltage
  rw [if_pos (by simpa [VOLT_CRIT_HIGH, VOLT_TURN_OFF] using h)]

theorem systemCheckVoltage_high (s : Sys)
    (h : 13.0 < s.data.voltage ∧ s.data.voltage ≤ 13.8) :
    systemCheckVoltage s = .returns { s with raised := s.raised ++ [t_error.WARN_VOLT_HIGH] } := by
  obtain ⟨h1, h2⟩ := h
  unfold systemCheckVoltage
  have hn : ¬ (s.data.voltage > VOLT_CRIT_HIGH ∨ s.data.voltage ≤ VOLT_TURN_OFF) := by
    unfold VOLT_CRIT_HIGH VOLT_TURN_OFF
    rintro (h | h)
    · linarith
    · norm_num at h h1; linarith
  rw [if_neg hn, if_pos ⟨by simpa [VOLT_WARN_HIGH] using h1, by simpa [VOLT_CRIT_HIGH] using h2⟩]
  simp [error]

theorem systemCheckVoltage_low (s : Sys)
    (h : 11.0 < s.data.voltage ∧ s.data.voltage ≤ 11.4) :
    systemCheckVoltage s = .returns { s with raised := s.raised ++ [t_error.WARN_VOLT_LOW] } := by
  obtain ⟨h1, h2⟩ := h
  unfold systemCheckVoltage
  have hn : ¬ (s.data.voltage > VOLT_CRIT_HIGH ∨ s.data.voltage ≤ VOLT_TURN_OFF) := by
    unfold VOLT_CRIT_HIGH VOLT_TURN_OFF
    rintro (h | h)
    · norm_num at h h2; linarith
    · linarith
  have hn2 : ¬ (s.data.voltage > VOLT_WARN_HIGH ∧ s.data.voltage ≤ VOLT_CRIT_HIGH) := by
    unfold VOLT_WARN_HIGH
    rintro ⟨h, _⟩
    norm_num at h h2; linarith
  rw [if_neg hn, if_neg hn2,
    if_pos ⟨by simpa [VOLT_TURN_OFF] using h1, by simpa [VOLT_WARN_LOW] using h2⟩]
  simp [error]

theorem systemCheckVoltage_quiet (s : Sys)
    (h : 11.4 < s.data.voltage ∧ s.data.voltage ≤ 13.0) :
    systemCheckVoltage s = .returns s := by
  obtain ⟨h1, h2⟩ := h
  unfold systemCheckVoltage
  have hn : ¬ (s.data.voltage > VOLT_CRIT_HIGH ∨ s.data.voltage ≤ VOLT_TURN_OFF) := by
    unfold VOLT_CRIT_HIGH VOLT_TURN_OFF
    rintro (h | h)
    · norm_num at h h2; linarith
    · norm_num at h h1; linarith
  have hn2 : ¬ (s.data.voltage > VOLT_WARN_HIGH ∧ s.data.voltage ≤ VOLT_CRIT_HIGH) := by
    unfold VOLT_WARN_HIGH
    rintro ⟨h, _⟩
    norm_num at h h2; linarith
  have hn3 : ¬ (s.data.voltage > VOLT_TURN_OFF ∧ s.data.voltage ≤ VOLT_WARN_LOW) := by
    unfold VOLT_WARN_LOW
    rintro ⟨_, h⟩
    linarith
  rw [if_neg hn, if_neg hn2, if_neg hn3]

/-- The four voltage bands cover every voltage. -/
theorem voltage_band_cases (v : ℚ) :
    (v > 13.8 ∨ v ≤ 11.0) ∨ (13.0 < v ∧ v ≤ 13.8) ∨ (11.0 < v ∧ v ≤ 11.4) ∨
      (11.4 < v ∧ v ≤ 13.0) := by
  by_cases h1 : v > 13.8
  · exact Or.inl (Or.inl h1)
  by_cases h2 : v ≤ 11.0
  · exact Or.inl (Or.inr h2)
  by_cases h3 : 13.0 < v
  · exact Or.inr (Or.inl ⟨h3, not_lt.mp h1⟩)
  by_cases h4 : v ≤ 11.4
  · exact Or.inr (Or.inr (Or.inl ⟨not_le.mp h2, h4⟩))
  · exact Or.inr (Or.inr (Or.inr ⟨not_le.mp h4, not_lt.mp h3⟩))

/-- C5: when the bus current does not exceed MAX_CURRENT, the bus voltage alone
decides among four outcomes of `systemCheck`: it forces the outputs, the
power-enable and the display off and halts iff v > 13.8 or v <= 11.0; it
raises the voltage-high warning (and only that) iff 13.0 < v <= 13.8; it raises
the voltage-low warning (and only that) iff 11.0 < v <= 11.4; it returns with
the state untouched iff 11.4 < v <= 13.0. In particular v = 11.0 halts and
v = 11.0001 returns with the voltage-low warning. -/
theorem systemCheck_voltage_bands (adc : t_adcSample) (s : Sys)
    (hc : s.data.current ≤ MAX_CURRENT) :
    ((systemCheck adc s).halted = true ↔ (s.data.voltage > 13.8 ∨ s.data.voltage ≤ 11.0)) ∧
    ((systemCheck adc s).halted = true →
      systemCheck adc s = .halts { s with
        pins := { s.pins with
          SW_CH1 := 0, SW_CH2 := 0, SW_CH3 := 0, SW_CH4 := 0, PEN := 0, OLED_PWR := 0 } }) ∧
    (systemCheck adc s = .returns { s with raised := s.raised ++ [t_error.WARN_VOLT_HIGH] } ↔
      (13.0 < s.data.voltage ∧ s.data.voltage ≤ 13.8)) ∧
    (systemCheck adc s = .returns { s with raised := s.raised ++ [t_error.WARN_VOLT_LOW] } ↔
      (11.0 < s.data.voltage ∧ s.data.voltage ≤ 11.4)) ∧
    (systemCheck adc s = .returns s ↔ (11.4 < s.data.voltage ∧ s.data.voltage ≤ 13.0)) ∧
    (s.data.voltage = 11.0 → (systemCheck adc s).halted = true) ∧
    (s.data.voltage = 11.0001 →
      systemCheck adc s = .returns { s with raised := s.raised ++ [t_error.WARN_VOLT_LOW] }) := by
  rw [systemCheck_of_current_ok adc s hc]
  have hlen : ∀ e : t_error, ({ s with raised := s.raised ++ [e] } : Sys) ≠ s := by
    intro e h
    have := congrArg (fun x : Sys => x.raised.length) h
    simp at this
  have hne : ∀ e₁ e₂ : t_error, e₁ ≠ e₂ →
      ({ s with raised := s.raised ++ [e₁] } : Sys) ≠ { s with raised := s.raised ++ [e₂] } := by
    intro e₁ e₂ hd h
    have := congrArg (fun x : Sys => x.raised) h
    simp at this
    exact hd this
  rcases voltage_band_cases s.data.voltage with h | h | h | h
  · rw [systemCheckVoltage_halt s h]
    refine ⟨by simp [Outcome.halted, h], fun _ => rfl, ?_, ?_, ?_, ?_, ?_⟩
    · constructor
      · intro h'; cases h'
      · rintro ⟨h1, h2⟩; rcases h with h | h <;> (norm_num at h h1 h2; linarith)
    · constructor
      · intro h'; cases h'
      · rintro ⟨h1, h2⟩; rcases h with h | h <;> (norm_num at h h1 h2; linarith)
    · constructor
      · intro h'; cases h'
      · rintro ⟨h1, h2⟩; rcases h with h | h <;> (norm_num at h h1 h2; linarith)
    · intro _; rfl
    · intro hv; rcases h with h | h <;> (rw [hv] at h; norm_num at h)
  · rw [systemCheckVoltage_high s h]
    obtain ⟨h1, h2⟩ := h
    refine ⟨?_, ?_, ?_, ?_, ?_, ?_, ?_⟩
    · constructor
      · intro h'; simp [Outcome.halted] at h'
      · rintro (h | h) <;> (norm_num at h h1 h2; linarith)
    · intro h'; simp [Outcome.halted] at h'
    · exact ⟨fun _ => ⟨h1, h2⟩, fun _ => rfl⟩
    · constructor
      · intro h'
        exact absurd (Outcome.returns.inj h') (hne _ _ (by decide))
      · rintro ⟨_, h4⟩; norm_num at h1 h4; linarith
    · constructor
      · intro h'
        exact absurd (Outcome.returns.inj h') (hlen _)
      · rintro ⟨_, h4⟩; norm_num at h1 h4; linarith
    · intro hv; rw [hv] at h1; norm_num at h1
    · intro hv; rw [hv] at h1; norm_num at h1
  · rw [systemCheckVoltage_low s h]
    obtain ⟨h1, h2⟩ := h
    refine ⟨?_, ?_, ?_, ?_, ?_, ?_, ?_⟩
    · constructor
      · intro h'; simp [Outcome.halted] at h'
      · rintro (h | h) <;> (norm_num at h h1 h2; linarith)
    · intro h'; simp [Outcome.halted] at h'
    · constructor
      · intro h'
        exact absurd (Outcome.returns.inj h') (hne _ _ (by decide))
      · rintro ⟨h3, _⟩; norm_num at h2 h3; linarith
    · exact ⟨fun _ => ⟨h1, h2⟩, fun _ => rfl⟩
    · constructor
      · intro h'
        exact absurd (Outcome.returns.inj h') (hlen _)
      · rintro ⟨h3, _⟩; norm_num at h2 h3; linarith
    · intro hv; rw [hv] at h1; norm_num at h1
    · intro _; rfl
  · rw [systemCheckVoltage_quiet s h]
    obtain ⟨h1, h2⟩ := h
    refine ⟨?_, ?_, ?_, ?_, ?_, ?_, ?_⟩
    · constructor
      · intro h'; simp [Outcome.halted] at h'
      · rintro (h | h) <;> (norm_num at h h1 h2; linarith)
    · intro h'; simp [Outcome.halted] at h'
    · constructor
      · intro h'
        exact absurd (Outcome.returns.inj h').symm (hlen _)
      · rintro ⟨h3, _⟩; norm_num at h2 h3; linarith
    · constructor
      · intro h'
        exact absurd (Outcome.returns.inj h').symm (hlen _)
      · rintro ⟨_, h4⟩; norm_num at h1 h4; linarith
    · exact ⟨fun _ => ⟨h1, h2⟩, fun _ => rfl⟩
    · intro hv; rw [hv] at h1; norm_num at h1
    · intro hv; rw [hv] at h1 h2; norm_num at h1 h2

theorem systemCheck_voltage_bands_witness :
    (sampleSys 12 1 0 0).data.current ≤ MAX_CURRENT ∧
    systemCheck ⟨0, 0, 0⟩ (sampleSys 12 1 0 0) = .returns (sampleSys 12 1 0 0) :=
  have hc : (sampleSys 12 1 0 0).data.current ≤ MAX_CURRENT := by
    norm_num [sampleSys, MAX_CURRENT]
  ⟨hc, (systemCheck_voltage_bands ⟨0, 0, 0⟩ (sampleSys 12 1 0 0) hc).2.2.2.2.1.mpr
    ⟨by norm_num [sampleSys], by norm_num [sampleSys]⟩⟩

/-- C6 (claim as stated fails): at a bus voltage of exactly 13.8 with the bus
current within limits, `systemCheck` does not halt and raises the voltage-high
warning. -/
theorem systemCheck_at_crit_high_warns :
    (systemCheck ⟨0, 0, 0⟩ (sampleSys 13.8 1 0 0)).halted = false ∧
    (systemCheck ⟨0, 0, 0⟩ (sampleSys 13.8 1 0 0)).state.raised = [t_error.WARN_VOLT_HIGH] ∧
    (systemCheck ⟨0, 0, 0⟩ (sampleSys 13.8 1 0 0)).state.pins = (sampleSys 13.8 1 0 0).pins := by
  have hc : (sampleSys 13.8 1 0 0).data.current ≤ MAX_CURRENT := by
    norm_num [sampleSys, MAX_CURRENT]
  rw [systemCheck_of_current_ok _ _ hc,
    systemCheckVoltage_high _ ⟨by norm_num [sampleSys], by norm_num [sampleSys]⟩]
  simp [Outcome.halted, Outcome.state, sampleSys]

/-- C6 (amended): when the bus voltage is exactly 13.8 (VOLT_CRIT_HIGH) and the
bus current is within limits, `systemCheck` raises the voltage-high warning and
returns, without halting and without touching the outputs; with the current
within limits the critical-high action (outputs, power-enable and display off,
halt) is taken for every voltage strictly above 13.8. -/
theorem systemCheck_crit_high_boundary (adc : t_adcSample) (s : Sys)
    (hc : s.data.current ≤ MAX_CURRENT) :
    (s.data.voltage = 13.8 →
      systemCheck adc s = .returns { s with raised := s.raised ++ [t_error.WARN_VOLT_HIGH] }) ∧
    (s.data.voltage > 13.8 →
      systemCheck adc s = .halts { s with
        pins := { s.pins with
          SW_CH1 := 0, SW_CH2 := 0, SW_CH3 := 0, SW_CH4 := 0, PEN := 0, OLED_PWR := 0 } }) := by
  rw [systemCheck_of_current_ok adc s hc]
  constructor
  · intro hv
    exact systemCheckVoltage_high s ⟨by rw [hv]; norm_num, by rw [hv]⟩
  · intro hv
    exact systemCheckVoltage_halt s (Or.inl hv)

theorem systemCheck_crit_high_boundary_witness :
    (sampleSys 13.8 1 0 0).data.current ≤ MAX_CURRENT ∧
    (sampleSys 13.8 1 0 0).data.voltage = 13.8 ∧
    systemCheck ⟨0, 0, 0⟩ (sampleSys 13.8 1 0 0) =
      .returns { sampleSys 13.8 1 0 0 with
        raised := (sampleSys 13.8 1 0 0).raised ++ [t_error.WARN_VOLT_HIGH] } :=
  have hc : (sampleSys 13.8 1 0 0).data.current ≤ MAX_CURRENT := by
    norm_num [sampleSys, MAX_CURRENT]
  ⟨hc, rfl, (systemCheck_crit_high_boundary ⟨0, 0, 0⟩ (sampleSys 13.8 1 0 0) hc).1 rfl⟩

/-- The state in which the voltage chain of `systemCheck` runs after an
overcurrent that the re-sample no longer shows. -/
theorem systemCheck_of_overcurrent_recovered (adc : t_adcSample) (s : Sys)
    (h1 : s.data.current > MAX_CURRENT)
    (h2 : (convertAnalogValues adc s).data.current ≤ MAX_CURRENT) :
    systemCheck adc s = systemCheckVoltage
      { convertAnalogValues adc s with
        pins := { s.pins with SW_CH1 := 0, SW_CH2 := 0, SW_CH3 := 0, SW_CH4 := 0, PEN := 0 }
        raised := s.raised ++ [t_error.ERR_OVERCURRENT] } := by
  unfold systemCheck systemCheckCurrent
  rw [if_pos h1]
  have h3 : ¬ (convertAnalogValues adc { s with
      pins := { s.pins with SW_CH1 := 0, SW_CH2 := 0, SW_CH3 := 0, SW_CH4 := 0, PEN := 0 } }).data.current
        > MAX_CURRENT := not_lt.mpr h2
  simp only [h3, if_false]
  simp [error, Outcome.andThen, convertAnalogValues]

theorem ema_708 : ema 708 708 42597 = 708 := by decide
theorem ema_1000 : ema 1000 1000 42597 = 1000 := by decide

theorem resample_example_voltage :
    (convertAnalogValues ⟨0, 708, 1000⟩ (sampleSys 12 4 708 1000)).data.voltage =
      697380 / 48081 := by
  simp only [convertAnalogValues, ALPHA_065]
  simp [sampleSys, U16, ema_708]
  norm_num

theorem resample_example_current :
    (convertAnalogValues ⟨0, 708, 1000⟩ (sampleSys 12 4 708 1000)).data.current =
      5000 / 2557.5 := by
  simp only [convertAnalogValues, ALPHA_065]
  simp [sampleSys, U16, ema_1000]
  norm_num

/-- C7 (claim as stated fails): the state has bus current 4.0 A and a stored bus
voltage of 12 V; the re-sample reads 1000 counts on the current line (about
1.96 A, no longer over the limit) and 708 counts on the voltage line (about
14.5 V). `systemCheck` raises the overcurrent warning and then applies the
critical-voltage rule in the same evaluation: it halts. -/
theorem systemCheck_overcurrent_still_halts :
    (sampleSys 12 4 708 1000).data.current > MAX_CURRENT ∧
    (convertAnalogValues ⟨0, 708, 1000⟩ (sampleSys 12 4 708 1000)).data.current ≤ MAX_CURRENT ∧
    (systemCheck ⟨0, 708, 1000⟩ (sampleSys 12 4 708 1000)).halted = true ∧
    (systemCheck ⟨0, 708, 1000⟩ (sampleSys 12 4 708 1000)).state.raised =
      [t_error.ERR_OVERCURRENT] := by
  have h1 : (sampleSys 12 4 708 1000).data.current > MAX_CURRENT := by
    norm_num [sampleSys, MAX_CURRENT]
  have h2 : (convertAnalogValues ⟨0, 708, 1000⟩ (sampleSys 12 4 708 1000)).data.current
      ≤ MAX_CURRENT := by
    rw [resample_example_current]; norm_num [MAX_CURRENT]
  refine ⟨h1, h2, ?_⟩
  rw [systemCheck_of_overcurrent_recovered _ _ h1 h2, systemCheckVoltage_halt _
    (Or.inl (by
      show (convertAnalogValues ⟨0, 708, 1000⟩ (sampleSys 12 4 708 1000)).data.voltage > 13.8
      rw [resample_example_voltage]; norm_num))]
  simp [Outcome.halted, Outcome.state, sampleSys]

/-- Effects of the voltage chain on a state whose outputs and power-enable are
already off, in terms of the voltage it sees. -/
theorem systemCheckVoltage_effects (s2 : Sys) (hp1 : s2.pins.SW_CH1 = 0)
    (hp2 : s2.pins.SW_CH2 = 0) (hp3 : s2.pins.SW_CH3 = 0) (hp4 : s2.pins.SW_CH4 = 0)
    (hp5 : s2.pins.PEN = 0) :
    (systemCheckVoltage s2).state.pins.SW_CH1 = 0 ∧
    (systemCheckVoltage s2).state.pins.SW_CH2 = 0 ∧
    (systemCheckVoltage s2).state.pins.SW_CH3 = 0 ∧
    (systemCheckVoltage s2).state.pins.SW_CH4 = 0 ∧
    (systemCheckVoltage s2).state.pins.PEN = 0 ∧
    (systemCheckVoltage s2).state.data = s2.data ∧
    ((systemCheckVoltage s2).halted = true ↔
      (s2.data.voltage > 13.8 ∨ s2.data.voltage ≤ 11.0)) ∧
    ((s2.data.voltage > 13.8 ∨ s2.data.voltage ≤ 11.0) →
      (systemCheckVoltage s2).state.raised = s2.raised ∧
      (systemCheckVoltage s2).state.pins.OLED_PWR = 0) ∧
    ((13.0 < s2.data.voltage ∧ s2.data.voltage ≤ 13.8) →
      (systemCheckVoltage s2).state.raised = s2.raised ++ [t_error.WARN_VOLT_HIGH]) ∧
    ((11.0 < s2.data.voltage ∧ s2.data.voltage ≤ 11.4) →
      (systemCheckVoltage s2).state.raised = s2.raised ++ [t_error.WARN_VOLT_LOW]) ∧
    ((11.4 < s2.data.voltage ∧ s2.data.voltage ≤ 13.0) →
      (systemCheckVoltage s2).state.raised = s2.raised) := by
  rcases voltage_band_cases s2.data.voltage with h | h | h | h
  · rw [systemCheckVoltage_halt s2 h]
    refine ⟨rfl, rfl, rfl, rfl, rfl, rfl, ⟨fun _ => h, fun _ => rfl⟩, fun _ => ⟨rfl, rfl⟩,
      ?_, ?_, ?_⟩
    · rintro ⟨a, b⟩; rcases h with h | h <;> (norm_num at h a b; linarith)
    · rintro ⟨a, b⟩; rcases h with h | h <;> (norm_num at h a b; linarith)
    · rintro ⟨a, b⟩; rcases h with h | h <;> (norm_num at h a b; linarith)
  · rw [systemCheckVoltage_high s2 h]
    obtain ⟨a, b⟩ := h
    have hno : ¬ (s2.data.voltage > 13.8 ∨ s2.data.voltage ≤ 11.0) := by
      rintro (h | h) <;> (norm_num at h a b; linarith)
    refine ⟨hp1, hp2, hp3, hp4, hp5, rfl, ⟨fun h' => ?_, fun h' => absurd h' hno⟩,
      fun h' => absurd h' hno, ?_, ?_, ?_⟩
    · simp [Outcome.halted] at h'
    · intro _; rfl
    · rintro ⟨_, d⟩; norm_num at a d; linarith
    · rintro ⟨_, d⟩; norm_num at a d; linarith
  · rw [systemCheckVoltage_low s2 h]
    obtain ⟨a, b⟩ := h
    have hno : ¬ (s2.data.voltage > 13.8 ∨ s2.data.voltage ≤ 11.0) := by
      rintro (h | h) <;> (norm_num at h a b; linarith)
    refine ⟨hp1, hp2, hp3, hp4, hp5, rfl, ⟨fun h' => ?_, fun h' => absurd h' hno⟩,
      fun h' => absurd h' hno, ?_, ?_, ?_⟩
    · simp [Outcome.halted] at h'
    · rintro ⟨c, _⟩; norm_num at b c; linarith
    · intro _; rfl
    · rintro ⟨c, _⟩; norm_num at b c; linarith
  · rw [systemCheckVoltage_quiet s2 h]
    obtain ⟨a, b⟩ := h
    have hno : ¬ (s2.data.voltage > 13.8 ∨ s2.data.voltage ≤ 11.0) := by
      rintro (h | h) <;> (norm_num at h a b; linarith)
    refine ⟨hp1, hp2, hp3, hp4, hp5, rfl, ⟨fun h' => ?_, fun h' => absurd h' hno⟩,
      fun h' => absurd h' hno, ?_, ?_, ?_⟩
    · simp [Outcome.halted] at h'
    · rintro ⟨c, _⟩; norm_num at b c; linarith
    · rintro ⟨_, d⟩; norm_num at a d; linarith
    · intro _; rfl

/-- C7 (amended): for every state in which busCurrent > MAX_CURRENT (3.0 A) and
the single re-sample is no longer over the limit, `systemCheck` forces the
channel outputs and the power-enable off, takes over the re-sampled
measurements, raises the recoverable overcurrent warning, and then applies the
voltage rules to the re-sampled bus voltage v in the same evaluation: it halts
(display off as well) iff v > 13.8 or v <= 11.0, adds the voltage-high warning
when 13.0 < v <= 13.8, adds the voltage-low warning when 11.0 < v <= 11.4, and
raises nothing but the overcurrent warning when 11.4 < v <= 13.0. -/
theorem systemCheck_overcurrent_then_voltage (adc : t_adcSample) (s : Sys)
    (h1 : s.data.current > MAX_CURRENT)
    (h2 : (convertAnalogValues adc s).data.current ≤ MAX_CURRENT) :
    (systemCheck adc s).state.pins.SW_CH1 = 0 ∧
    (systemCheck adc s).state.pins.SW_CH2 = 0 ∧
    (systemCheck adc s).state.pins.SW_CH3 = 0 ∧
    (systemCheck adc s).state.pins.SW_CH4 = 0 ∧
    (systemCheck adc s).state.pins.PEN = 0 ∧
    (systemCheck adc s).state.data = (convertAnalogValues adc s).data ∧
    ((systemCheck adc s).halted = true ↔
      ((convertAnalogValues adc s).data.voltage > 13.8 ∨
        (convertAnalogValues adc s).data.voltage ≤ 11.0)) ∧
    (((convertAnalogValues adc s).data.voltage > 13.8 ∨
        (convertAnalogValues adc s).data.voltage ≤ 11.0) →
      (systemCheck adc s).state.raised = s.raised ++ [t_error.ERR_OVERCURRENT] ∧
      (systemCheck adc s).state.pins.OLED_PWR = 0) ∧
    ((13.0 < (convertAnalogValues adc s).data.voltage ∧
        (convertAnalogValues adc s).data.voltage ≤ 13.8) →
      (systemCheck adc s).state.raised =
        s.raised ++ [t_error.ERR_OVERCURRENT, t_error.WARN_VOLT_HIGH]) ∧
    ((11.0 < (convertAnalogValues adc s).data.voltage ∧
        (convertAnalogValues adc s).data.voltage ≤ 11.4) →
      (systemCheck adc s).state.raised =
        s.raised ++ [t_error.ERR_OVERCURRENT, t_error.WARN_VOLT_LOW]) ∧
    ((11.4 < (convertAnalogValues adc s).data.voltage ∧
        (convertAnalogValues adc s).data.voltage ≤ 13.0) →
      (systemCheck adc s).state.raised = s.raised ++ [t_error.ERR_OVERCURRENT]) := by
  rw [systemCheck_of_overcurrent_recovered adc s h1 h2]
  have key := systemCheckVoltage_effects
    { convertAnalogValues adc s with
      pins := { s.pins with SW_CH1 := 0, SW_CH2 := 0, SW_CH3 := 0, SW_CH4 := 0, PEN := 0 }
      raised := s.raised ++ [t_error.ERR_OVERCURRENT] } rfl rfl rfl rfl rfl
  obtain ⟨k1, k2, k3, k4, k5, k6, k7, k8, k9, k10, k11⟩ := key
  refine ⟨k1, k2, k3, k4, k5, k6, k7, k8, ?_, ?_, k11⟩
  · intro h
    rw [k9 h]
    simp
  · intro h
    rw [k10 h]
    simp

theorem systemCheck_overcurrent_then_voltage_witness :
    (sampleSys 12 4 708 1000).data.current > MAX_CURRENT ∧
    (convertAnalogValues ⟨0, 708, 1000⟩ (sampleSys 12 4 708 1000)).data.current ≤ MAX_CURRENT ∧
    (systemCheck ⟨0, 708, 1000⟩ (sampleSys 12 4 708 1000)).state.pins.PEN = 0 ∧
    ((systemCheck ⟨0, 708, 1000⟩ (sampleSys 12 4 708 1000)).halted = true ↔
      ((convertAnalogValues ⟨0, 708, 1000⟩ (sampleSys 12 4 708 1000)).data.voltage > 13.8 ∨
        (convertAnalogValues ⟨0, 708, 1000⟩ (sampleSys 12 4 708 1000)).data.voltage ≤ 11.0)) :=
  have h1 : (sampleSys 12 4 708 1000).data.current > MAX_CURRENT := by
    norm_num [sampleSys, MAX_CURRENT]
  have h2 : (convertAnalogValues ⟨0, 708, 1000⟩ (sampleSys 12 4 708 1000)).data.current
      ≤ MAX_CURRENT := by
    rw [resample_example_current]; norm_num [MAX_CURRENT]
  ⟨h1, h2,
    (systemCheck_overcurrent_then_voltage ⟨0, 708, 1000⟩ (sampleSys 12 4 708 1000) h1 h2).2.2.2.2.1,
    (systemCheck_overcurrent_then_voltage ⟨0, 708, 1000⟩ (sampleSys 12 4 708 1000) h1
      h2).2.2.2.2.2.2.1⟩

/-! ## Menu navigation engine -/

theorem toInt8_of_lt (x : Nat) (h : x < 128) : toInt8 x = (x : Int) := by
  unfold toInt8
  have h1 : x % 256 = x := Nat.mod_eq_of_lt (by omega)
  rw [h1, if_pos h]

/-- The loop of `getNextState` returns the priority column of the first
matching row of the rows it visits, or `-1` when none matches. -/
theorem getNextStateLoop_eq_find (state intState : Nat) (pb : e_buttonPress) (timeout : Nat)
    (rows : List t_nextState) (hfit : rowsFitInt8 rows) :
    getNextStateLoop state intState pb timeout rows =
      match rows.find? (fun r => decide (r.state = state) &&
          (decide (r.intState = intState) || decide (r.intState = ST_ANY))) with
      | some r => (columnByPriority r pb timeout : Int)
      | none => -1 := by
  induction rows with
  | nil => simp [getNextStateLoop]
  | cons row rest ih =>
    have hrest : rowsFitInt8 rest := fun r hr => hfit r (List.mem_cons_of_mem _ hr)
    obtain ⟨f1, f2, f3, f4⟩ := hfit row (List.mem_cons_self _ _)
    unfold getNextStateLoop
    by_cases hs : row.state = state
    · by_cases hp : row.intState = intState ∨ row.intState = ST_ANY
      · have hm : (decide (row.state = state) &&
            (decide (row.intState = intState) || decide (row.intState = ST_ANY))) = true := by
          simpa [hs] using hp
        rw [if_pos hs, if_pos hp]
        simp only [List.find?_cons, hm]
        unfold columnByPriority
        by_cases ht : timeout ≠ 0
        · rw [if_pos ht, if_pos ht, toInt8_of_lt _ f3]
        · rw [if_neg ht, if_neg ht]
          cases pb <;> simp [toInt8_of_lt, f1, f2, f4]
      · have hm : (decide (row.state = state) &&
            (decide (row.intState = intState) || decide (row.intState = ST_ANY))) = false := by
          rw [← Bool.not_eq_true]
          simpa [hs] using hp
        rw [if_pos hs, if_neg hp]
        simp only [List.find?_cons, hm]
        exact ih hrest
    · have hm : (decide (row.state = state) &&
          (decide (row.intState = intState) || decide (row.intState = ST_ANY))) = false := by
        simp [hs]
      rw [if_neg hs]
      simp only [List.find?_cons, hm]
      exact ih hrest

theorem nextStateTbl_fits : rowsFitInt8 nextStateTbl := by
  unfold rowsFitInt8
  decide

/-- C8: for every menu state, sub-page, button event and timeout flag,
`getNextState` returns the entry of the first row of `nextStateTbl` (in table
order) whose state equals the current state and whose sub-page equals the
current sub-page or is the wildcard, taken from the timeout column if the
timeout flag is set, else from the short-press column for a short press, else
from the long-press column for a long press, else from the no-action column;
it returns -1 when no row matches. From StatusView with any sub-page a short
press gives ChannelView and a timeout gives StatusView. -/
theorem getNextState_first_match (state intState : Nat) (pb : e_buttonPress) (timeout : Nat) :
    getNextState state intState pb timeout =
      (match firstMatchingRow state intState with
        | some r => (columnByPriority r pb timeout : Int)
        | none => -1) ∧
    getNextState ST_STATUS_VIEW intState e_buttonPress.PB_SHORT 0 = (ST_CHANNEL_VIEW : Int) ∧
    getNextState ST_STATUS_VIEW intState pb (timeout + 1) = (ST_STATUS_VIEW : Int) := by
  refine ⟨getNextStateLoop_eq_find state intState pb timeout nextStateTbl nextStateTbl_fits,
    ?_, ?_⟩
  · simp [getNextState, nextStateTbl, getNextStateLoop, ST_STATUS_VIEW, ST_ANY, ST_CHANNEL_VIEW,
      toInt8]
  · simp [getNextState, nextStateTbl, getNextStateLoop, ST_STATUS_VIEW, ST_ANY, toInt8]

/-- The loop of `getNextState` returns `-1` when none of the rows it visits
matches. -/
theorem getNextStateLoop_no_row (state intState : Nat) (pb : e_buttonPress) (timeout : Nat)
    (rows : List t_nextState)
    (h : ∀ r ∈ rows, ¬ (r.state = state ∧ (r.intState = intState ∨ r.intState = ST_ANY))) :
    getNextStateLoop state intState pb timeout rows = -1 := by
  induction rows with
  | nil => simp [getNextStateLoop]
  | cons row rest ih =>
    have hrow := h row (List.mem_cons_self _ _)
    have hrest := ih (fun r hr => h r (List.mem_cons_of_mem _ hr))
    unfold getNextStateLoop
    by_cases hs : row.state = state
    · have hp : ¬ (row.intState = intState ∨ row.intState = ST_ANY) := fun hp => hrow ⟨hs, hp⟩
      rw [if_pos hs, if_neg hp]
      exact hrest
    · rw [if_neg hs]
      exact hrest

theorem getNextState_no_row (state intState : Nat) (pb : e_buttonPress) (timeout : Nat)
    (h : noMatchingRow state intState) : getNextState state intState pb timeout = -1 :=
  getNextStateLoop_no_row state intState pb timeout nextStateTbl h

theorem menuCallScreen_returns (scr : t_screens) (env : t_menuEnv) (s : Sys) :
    menuCallScreen scr env s = .returns (menuCallScreen scr env s).state ∧
    (menuCallScreen scr env s).state.2.menuState = s.menuState ∧
    (menuCallScreen scr env s).state.2.menuSleep = s.menuSleep ∧
    (menuCallScreen scr env s).state.2.raised =
      s.raised ++ (if (getStateFunc scr s.menuState).isNone then [t_error.ERR_MENU] else []) := by
  unfold menuCallScreen
  cases hf : getStateFunc scr s.menuState with
  | none => simp [error, Outcome.state]
  | some func => simp [Outcome.state]

/-- The dispatcher on a pair without a matching row: `error(ERR_MENU)` after the
screen function, menu state kept. -/
theorem menuDispatch_no_row (scr : t_screens) (env : t_menuEnv) (s : Sys)
    (h : noMatchingRow s.menuState (menuCallScreen scr env s).state.1) :
    menuDispatch scr env s = .returns
      { (menuCallScreen scr env s).state.2 with
        g_screenRefresh := 0
        raised := (menuCallScreen scr env s).state.2.raised ++ [t_error.ERR_MENU] } := by
  obtain ⟨h1, h2, _, _⟩ := menuCallScreen_returns scr env s
  unfold menuDispatch
  rw [h1]
  generalize (menuCallScreen scr env s).state = ps at h h2 ⊢
  obtain ⟨page, s1⟩ := ps
  simp only at h h2 ⊢
  rw [h2, getNextState_no_row _ _ _ _ h]
  simp [error, Outcome.state, h2]

/-- The exit page does not depend on the sleep flag or the display log. -/
theorem menuCallScreen_wake (scr : t_screens) (env : t_menuEnv) (s : Sys)
    (c : List t_oledCmd) :
    (menuCallScreen scr env { s with menuSleep := 0, oledCmds := c }).state.1 =
      (menuCallScreen scr env s).state.1 := by
  unfold menuCallScreen
  cases hf : getStateFunc scr s.menuState with
  | none => simp [error, Outcome.state]
  | some func => simp [Outcome.state]

/-- One call of `menu()` on a pair without a matching row. -/
theorem menu_no_row_step (scr : t_screens) (env : t_menuEnv) (s : Sys)
    (hno : noMatchingRow s.menuState (menuExitPage scr env s)) :
    (menu scr env s).halted = false ∧
    (menu scr env s).state.menuState = s.menuState ∧
    (menuDispatches env s →
      (menu scr env s).state.raised =
        s.raised ++ (if (getStateFunc scr s.menuState).isNone then [t_error.ERR_MENU] else [])
          ++ [t_error.ERR_MENU]) := by
  unfold menuExitPage at hno
  unfold menu menuDispatches
  by_cases hsl : s.menuSleep ≠ 0
  · rw [if_pos hsl]
    by_cases ht : timeSince env.now env.userActivity < DISPLAY_TIMEOUT
    · rw [if_pos ht]
      have hno2 : noMatchingRow
          ({ s with menuSleep := 0, oledCmds := s.oledCmds ++ [t_oledCmd.DISPLAYON] } : Sys).menuState
          (menuCallScreen scr env
            { s with menuSleep := 0, oledCmds := s.oledCmds ++ [t_oledCmd.DISPLAYON] }).state.1 := by
        rw [menuCallScreen_wake]
        exact hno
      rw [menuDispatch_no_row scr env _ hno2]
      obtain ⟨_, h2, _, h4⟩ := menuCallScreen_returns scr env
        { s with menuSleep := 0, oledCmds := s.oledCmds ++ [t_oledCmd.DISPLAYON] }
      exact ⟨rfl, h2, fun _ => congrArg (fun l => l ++ [t_error.ERR_MENU]) h4⟩
    · rw [if_neg ht]
      refine ⟨rfl, rfl, ?_⟩
      rintro (⟨_, h⟩ | ⟨h, _⟩)
      · exact absurd h ht
      · exact absurd h hsl
  · rw [if_neg hsl]
    by_cases ht : timeSince env.now env.userActivity > DISPLAY_TIMEOUT
    · rw [if_pos ht]
      refine ⟨rfl, rfl, ?_⟩
      rintro (⟨h, _⟩ | ⟨_, h⟩)
      · exact absurd h hsl
      · exact absurd ht h
    · rw [if_neg ht, menuDispatch_no_row scr env s hno]
      obtain ⟨_, h2, _, h4⟩ := menuCallScreen_returns scr env s
      exact ⟨rfl, h2, fun _ => congrArg (fun l => l ++ [t_error.ERR_MENU]) h4⟩

/-- C9: for every (state, subPage) pair that has no matching row in
`nextStateTbl` (for example SetLensDiameter with sub-page 1) and for every
button event and timeout flag, `getNextState` returns -1; a call of `menu()`
whose screen function exits with such a pair returns with the menu state
unchanged and, when the dispatcher runs (the display is not held asleep),
raises `ERR_MENU`; a repeated call with the same pair again leaves the menu
state unchanged and, when the dispatcher runs, raises `ERR_MENU` again. -/
theorem menu_undefined_pair (scr : t_screens) (env env2 : t_menuEnv) (s : Sys)
    (hno : noMatchingRow s.menuState (menuExitPage scr env s)) :
    (∀ pb timeout, getNextState s.menuState (menuExitPage scr env s) pb timeout = -1) ∧
    (∀ pb timeout, getNextState ST_SET_LENS_DIA 1 pb timeout = -1) ∧
    (menu scr env s).halted = false ∧
    (menu scr env s).state.menuState = s.menuState ∧
    (menuDispatches env s → t_error.ERR_MENU ∈ (menu scr env s).state.raised ∧
      (menu scr env s).state.raised =
        s.raised ++ (if (getStateFunc scr s.menuState).isNone then [t_error.ERR_MENU] else [])
          ++ [t_error.ERR_MENU]) ∧
    (menuExitPage scr env2 (menu scr env s).state = menuExitPage scr env s →
      (menu scr env2 (menu scr env s).state).halted = false ∧
      (menu scr env2 (menu scr env s).state).state.menuState = s.menuState ∧
      (menuDispatches env2 (menu scr env s).state →
        (menu scr env2 (menu scr env s).state).state.raised =
          (menu scr env s).state.raised ++
            (if (getStateFunc scr s.menuState).isNone then [t_error.ERR_MENU] else [])
            ++ [t_error.ERR_MENU])) := by
  obtain ⟨a1, a2, a3⟩ := menu_no_row_step scr env s hno
  refine ⟨fun pb timeout => getNextState_no_row _ _ pb timeout hno, ?_, a1, a2, ?_, ?_⟩
  · intro pb timeout
    apply getNextState_no_row
    unfold noMatchingRow
    decide
  · intro hd
    have := a3 hd
    refine ⟨?_, this⟩
    rw [this]
    simp
  · intro hpage
    have hno2 : noMatchingRow (menu scr env s).state.menuState
        (menuExitPage scr env2 (menu scr env s).state) := by
      rw [a2, hpage]; exact hno
    obtain ⟨b1, b2, b3⟩ := menu_no_row_step scr env2 (menu scr env s).state hno2
    rw [a2] at b2 b3
    exact ⟨b1, b2, b3⟩

theorem menu_undefined_pair_witness :
    noMatchingRow ({ sampleSys 12 1 0 0 with menuState := ST_SET_LENS_DIA } : Sys).menuState
      (menuExitPage sampleScreens ⟨0, 0, e_buttonPress.PB_SHORT, 0⟩
        { sampleSys 12 1 0 0 with menuState := ST_SET_LENS_DIA }) ∧
    (menu sampleScreens ⟨0, 0, e_buttonPress.PB_SHORT, 0⟩
      { sampleSys 12 1 0 0 with menuState := ST_SET_LENS_DIA }).state.menuState =
        ST_SET_LENS_DIA :=
  have hno : noMatchingRow
      ({ sampleSys 12 1 0 0 with menuState := ST_SET_LENS_DIA } : Sys).menuState
      (menuExitPage sampleScreens ⟨0, 0, e_buttonPress.PB_SHORT, 0⟩
        { sampleSys 12 1 0 0 with menuState := ST_SET_LENS_DIA }) := by
    unfold noMatchingRow
    decide
  ⟨hno, (menu_undefined_pair sampleScreens ⟨0, 0, e_buttonPress.PB_SHORT, 0⟩
    ⟨0, 0, e_buttonPress.PB_SHORT, 0⟩ _ hno).2.2.2.1⟩

/-! ## Sensor link protocol -/

/-- C10: for every call of `checkSensor` made in the AwaitingResponse state
(static `state` = 1) when more than SENSOR_TIMEOUT (20) ticks have elapsed
since the request, whether or not a frame is available and whatever the frame
holds: SENSOR_OK becomes 0, the protocol state returns to Idle (0), the stored
readings tempC, relHum, dewPointC and sensorVersion are unchanged, and no
request byte is sent. -/
theorem checkSensor_timeout (now : Nat) (dataReady : Bool) (dp : t_dataPacket) (s : Sys)
    (hst : s.sensorState = 1) (hto : timeSince now s.sensorTimeout > 20) :
    (checkSensor now dataReady dp s).data.status.SENSOR_OK = 0 ∧
    (checkSensor now dataReady dp s).sensorState = 0 ∧
    (checkSensor now dataReady dp s).data.tempC = s.data.tempC ∧
    (checkSensor now dataReady dp s).data.relHum = s.data.relHum ∧
    (checkSensor now dataReady dp s).data.dewPointC = s.data.dewPointC ∧
    (checkSensor now dataReady dp s).data.sensorVersion = s.data.sensorVersion ∧
    (checkSensor now dataReady dp s).uartSent = s.uartSent := by
  unfold checkSensor
  by_cases haux : s.data.tempAux < TEMP_AUX_MIN ∨ s.data.tempAux > TEMP_AUX_MAX
  · simp [haux, hst, hto, SENSOR_TIMEOUT]
  · simp [haux, hst, hto, SENSOR_TIMEOUT]

theorem checkSensor_timeout_witness :
    ({ sampleSys 12 1 0 0 with sensorState := 1, sensorTimeout := 100 } : Sys).sensorState = 1 ∧
    timeSince 121 ({ sampleSys 12 1 0 0 with sensorState := 1, sensorTimeout := 100 } : Sys).sensorTimeout
      > 20 ∧
    (checkSensor 121 true ⟨0xAA, 1, 25, 60, 17, 3⟩
      { sampleSys 12 1 0 0 with sensorState := 1, sensorTimeout := 100 }).data.tempC = 0 ∧
    (checkSensor 121 true ⟨0xAA, 1, 25, 60, 17, 3⟩
      { sampleSys 12 1 0 0 with sensorState := 1, sensorTimeout := 100 }).data.status.SENSOR_OK = 0 :=
  have h1 : ({ sampleSys 12 1 0 0 with sensorState := 1, sensorTimeout := 100 } : Sys).sensorState
      = 1 := rfl
  have h2 : timeSince 121
      ({ sampleSys 12 1 0 0 with sensorState := 1, sensorTimeout := 100 } : Sys).sensorTimeout
        > 20 := by decide
  ⟨h1, h2,
    (checkSensor_timeout 121 true ⟨0xAA, 1, 25, 60, 17, 3⟩
      { sampleSys 12 1 0 0 with sensorState := 1, sensorTimeout := 100 } h1 h2).2.2.1,
    (checkSensor_timeout 121 true ⟨0xAA, 1, 25, 60, 17, 3⟩
      { sampleSys 12 1 0 0 with sensorState := 1, sensorTimeout := 100 } h1 h2).1⟩


/-! ## Sensor link protocol: late and invalid frames, requests -/

/-- All the ways one call of `checkSensor` can go, by protocol state, elapsed
time and frame availability. -/
theorem checkSensor_cases (now : Nat) (dataReady : Bool) (dp : t_dataPacket) (s : Sys) :
    (s.sensorState = 0 → timeSince now s.sensorUpdateInterval ≥ 50 →
      readings (checkSensor now dataReady dp s).data = readings s.data ∧
      (checkSensor now dataReady dp s).data.status.SENSOR_OK = s.data.status.SENSOR_OK ∧
      (checkSensor now dataReady dp s).sensorState = 1 ∧
      (checkSensor now dataReady dp s).uartSent = s.uartSent ++ [63] ∧
      (checkSensor now dataReady dp s).sensorUpdateInterval = now % U32 ∧
      (checkSensor now dataReady dp s).sensorTimeout = now % U32) ∧
    (s.sensorState = 0 → ¬ timeSince now s.sensorUpdateInterval ≥ 50 →
      readings (checkSensor now dataReady dp s).data = readings s.data ∧
      (checkSensor now dataReady dp s).data.status.SENSOR_OK = s.data.status.SENSOR_OK ∧
      (checkSensor now dataReady dp s).sensorState = 0 ∧
      (checkSensor now dataReady dp s).uartSent = s.uartSent ∧
      (checkSensor now dataReady dp s).sensorUpdateInterval = s.sensorUpdateInterval ∧
      (checkSensor now dataReady dp s).sensorTimeout = s.sensorTimeout) ∧
    (s.sensorState = 1 → timeSince now s.sensorTimeout > 20 →
      readings (checkSensor now dataReady dp s).data = readings s.data ∧
      (checkSensor now dataReady dp s).data.status.SENSOR_OK = 0 ∧
      (checkSensor now dataReady dp s).sensorState = 0 ∧
      (checkSensor now dataReady dp s).uartSent = s.uartSent ∧
      (checkSensor now dataReady dp s).sensorUpdateInterval = s.sensorUpdateInterval ∧
      (checkSensor now dataReady dp s).sensorTimeout = s.sensorTimeout) ∧
    (s.sensorState = 1 → ¬ timeSince now s.sensorTimeout > 20 → dataReady = false →
      readings (checkSensor now dataReady dp s).data = readings s.data ∧
      (checkSensor now dataReady dp s).data.status.SENSOR_OK = s.data.status.SENSOR_OK ∧
      (checkSensor now dataReady dp s).sensorState = 1 ∧
      (checkSensor now dataReady dp s).uartSent = s.uartSent ∧
      (checkSensor now dataReady dp s).sensorUpdateInterval = s.sensorUpdateInterval ∧
      (checkSensor now dataReady dp s).sensorTimeout = s.sensorTimeout) ∧
    (s.sensorState = 1 → ¬ timeSince now s.sensorTimeout > 20 → dataReady = true →
      (dp.header = 0xAA ∧ dp.status = 1) →
      readings (checkSensor now dataReady dp s).data = frameReadings dp ∧
      (checkSensor now dataReady dp s).data.status.SENSOR_OK = 1 ∧
      (checkSensor now dataReady dp s).sensorState = 0 ∧
      (checkSensor now dataReady dp s).uartSent = s.uartSent ∧
      (checkSensor now dataReady dp s).sensorUpdateInterval = s.sensorUpdateInterval ∧
      (checkSensor now dataReady dp s).sensorTimeout = s.sensorTimeout) ∧
    (s.sensorState = 1 → ¬ timeSince now s.sensorTimeout > 20 → dataReady = true →
      ¬ (dp.header = 0xAA ∧ dp.status = 1) →
      readings (checkSensor now dataReady dp s).data = readings s.data ∧
      (checkSensor now dataReady dp s).data.status.SENSOR_OK = 0 ∧
      (checkSensor now dataReady dp s).sensorState = 0 ∧
      (checkSensor now dataReady dp s).uartSent = s.uartSent ∧
      (checkSensor now dataReady dp s).sensorUpdateInterval = s.sensorUpdateInterval ∧
      (checkSensor now dataReady dp s).sensorTimeout = s.sensorTimeout) ∧
    (s.sensorState ≠ 0 → s.sensorState ≠ 1 →
      readings (checkSensor now dataReady dp s).data = readings s.data ∧
      (checkSensor now dataReady dp s).data.status.SENSOR_OK = s.data.status.SENSOR_OK ∧
      (checkSensor now dataReady dp s).sensorState = 0 ∧
      (checkSensor now dataReady dp s).uartSent = s.uartSent ∧
      (checkSensor now dataReady dp s).sensorUpdateInterval = s.sensorUpdateInterval ∧
      (checkSensor now dataReady dp s).sensorTimeout = s.sensorTimeout) := by
  unfold checkSensor
  by_cases haux : s.data.tempAux < TEMP_AUX_MIN ∨ s.data.tempAux > TEMP_AUX_MAX
  · refine ⟨?_, ?_, ?_, ?_, ?_, ?_, ?_⟩
    · intro h0 h1
      simp [haux, h0, h1, SENSOR_UPDATE_INTERVALL, readings]
    · intro h0 h1
      simp [haux, h0, h1, SENSOR_UPDATE_INTERVALL, readings]
    · intro h0 h1
      simp [haux, h0, h1, SENSOR_TIMEOUT, readings]
    · intro h0 h1 h2
      simp [haux, h0, h1, h2, SENSOR_TIMEOUT, readings]
    · intro h0 h1 h2 h3
      simp [haux, h0, h1, h2, h3, SENSOR_TIMEOUT, readings, frameReadings]
    · intro h0 h1 h2 h3
      simp [haux, h0, h1, h2, h3, SENSOR_TIMEOUT, readings]
    · intro h0 h1
      simp [haux, h0, h1, readings]
  · refine ⟨?_, ?_, ?_, ?_, ?_, ?_, ?_⟩
    · intro h0 h1
      simp [haux, h0, h1, SENSOR_UPDATE_INTERVALL, readings]
    · intro h0 h1
      simp [haux, h0, h1, SENSOR_UPDATE_INTERVALL, readings]
    · intro h0 h1
      simp [haux, h0, h1, SENSOR_TIMEOUT, readings]
    · intro h0 h1 h2
      simp [haux, h0, h1, h2, SENSOR_TIMEOUT, readings]
    · intro h0 h1 h2 h3
      simp [haux, h0, h1, h2, h3, SENSOR_TIMEOUT, readings, frameReadings]
    · intro h0 h1 h2 h3
      simp [haux, h0, h1, h2, h3, SENSOR_TIMEOUT, readings]
    · intro h0 h1
      simp [haux, h0, h1, readings]

/-- What `checkSensor` itself does with a frame that is presented to it: the
call that detects the timeout and every call made while the protocol is not in
AwaitingResponse leave the readings alone; a call in AwaitingResponse within
the timeout copies whichever available frame with header 0xAA and status 1 is
presented. Discarding a late frame is therefore left to the transport. -/
theorem checkSensor_late_frame (now : Nat) (dataReady : Bool) (dp : t_dataPacket) (s : Sys) :
    (s.sensorState = 1 → timeSince now s.sensorTimeout > 20 →
      readings (checkSensor now dataReady dp s).data = readings s.data ∧
      (checkSensor now dataReady dp s).sensorState = 0) ∧
    (s.sensorState ≠ 1 →
      readings (checkSensor now dataReady dp s).data = readings s.data) ∧
    (s.sensorState = 1 → ¬ timeSince now s.sensorTimeout > 20 → dataReady = true →
      dp.header = 0xAA → dp.status = 1 →
      readings (checkSensor now dataReady dp s).data = frameReadings dp ∧
      (checkSensor now dataReady dp s).data.status.SENSOR_OK = 1 ∧
      (checkSensor now dataReady dp s).sensorState = 0) := by
  obtain ⟨c1, c2, c3, _, c5, _, c7⟩ := checkSensor_cases now dataReady dp s
  refine ⟨fun h0 h1 => ⟨(c3 h0 h1).1, (c3 h0 h1).2.2.1⟩, ?_, ?_⟩
  · intro h1
    by_cases h0 : s.sensorState = 0
    · by_cases ht : timeSince now s.sensorUpdateInterval ≥ 50
      · exact (c1 h0 ht).1
      · exact (c2 h0 ht).1
    · exact (c7 h0 h1).1
  · intro h0 h1 h2 h3 h4
    have := c5 h0 h1 h2 ⟨h3, h4⟩
    exact ⟨this.1, this.2.1, this.2.2.1⟩

/-- The tick noted by the transport and the request time stamp of
`checkSensor` stay equal: both are set by the call that sends the request. -/
theorem linkStep_ticks (e : t_linkEnv) (st : t_link)
    (h : st.uart.txTick = st.sys.sensorTimeout) :
    (linkStep e st).uart.txTick = (linkStep e st).sys.sensorTimeout := by
  have hu1 : ∀ a : Option t_dataPacket,
      (match a with
        | some f => uartFrameArrives e.now f st.uart
        | none => st.uart).txTick = st.uart.txTick := by
    intro a
    cases a with
    | none => rfl
    | some f =>
      simp only [uartFrameArrives]
      split <;> rfl
  have hsend := checkSensor_cases e.now
    (uartIsDataReady (match e.arrival with
      | some f => uartFrameArrives e.now f st.uart
      | none => st.uart))
    (getDataPacket (match e.arrival with
      | some f => uartFrameArrives e.now f st.uart
      | none => st.uart)) st.sys
  obtain ⟨c1, c2, c3, c4, c5, c6, c7⟩ := hsend
  by_cases hs : st.sys.sensorState = 0 ∧
      timeSince e.now st.sys.sensorUpdateInterval ≥ SENSOR_UPDATE_INTERVALL
  · have hn1 : ¬ st.sys.sensorState = 1 := by rw [hs.1]; decide
    have k := (c1 hs.1 hs.2).2.2.2.2.2
    simp only [linkStep, hs, hn1, and_self, if_true, false_and, if_false, uartSendByte]
    exact k.symm
  · have hkeep : (checkSensor e.now
        (uartIsDataReady (match e.arrival with
          | some f => uartFrameArrives e.now f st.uart
          | none => st.uart))
        (getDataPacket (match e.arrival with
          | some f => uartFrameArrives e.now f st.uart
          | none => st.uart)) st.sys).sensorTimeout = st.sys.sensorTimeout := by
      by_cases h0 : st.sys.sensorState = 0
      · have ht : ¬ timeSince e.now st.sys.sensorUpdateInterval ≥ 50 := fun ht => hs ⟨h0, ht⟩
        exact (c2 h0 ht).2.2.2.2.2
      · by_cases h1 : st.sys.sensorState = 1
        · by_cases ht : timeSince e.now st.sys.sensorTimeout > 20
          · exact (c3 h1 ht).2.2.2.2.2
          · cases hr : uartIsDataReady (match e.arrival with
                | some f => uartFrameArrives e.now f st.uart
                | none => st.uart) with
            | false => rw [hr] at c4; exact (c4 h1 ht rfl).2.2.2.2.2
            | true =>
              rw [hr] at c5 c6
              by_cases hv : (getDataPacket (match e.arrival with
                  | some f => uartFrameArrives e.now f st.uart
                  | none => st.uart)).header = 0xAA ∧
                  (getDataPacket (match e.arrival with
                  | some f => uartFrameArrives e.now f st.uart
                  | none => st.uart)).status = 1
              · exact (c5 h1 ht rfl hv).2.2.2.2.2
              · exact (c6 h1 ht rfl hv).2.2.2.2.2
        · exact (c7 h0 h1).2.2.2.2.2
    simp only [linkStep, hs, if_false]
    rw [hkeep, ← h, ← hu1 e.arrival]
    split <;> rfl

theorem linkRun_ticks (es : List t_linkEnv) (st : t_link)
    (h : st.uart.txTick = st.sys.sensorTimeout) :
    (linkRun es st).uart.txTick = (linkRun es st).sys.sensorTimeout := by
  induction es generalizing st with
  | nil => exact h
  | cons e es ih => exact ih _ (linkStep_ticks e st h)

theorem linkRun_append (a b : List t_linkEnv) (st : t_link) :
    linkRun (a ++ b) st = linkRun b (linkRun a st) := by
  induction a generalizing st with
  | nil => rfl
  | cons e a ih => exact ih _

/-- A pass in which a frame arrives after the timeout of the request is the
same as the pass without the arrival. -/
theorem linkStep_late (now : Nat) (f : t_dataPacket) (st : t_link)
    (h : timeSince now st.uart.txTick > SENSOR_TIMEOUT) :
    uartFrameArrives now f st.uart = st.uart ∧
    linkStep ⟨now, some f⟩ st = linkStep ⟨now, none⟩ st := by
  have hd : uartFrameArrives now f st.uart = st.uart := by
    unfold uartFrameArrives
    rw [if_pos h]
  refine ⟨hd, ?_⟩
  simp only [linkStep, hd]

/-- C11: a response frame that arrives after the timeout of its request has
expired (more than SENSOR_TIMEOUT = 20 ticks after the request, by the time
stamp `checkSensor` keeps) is never applied. In every execution of the link,
from any state in which transport and protocol agree on the request tick, the
transport does not make the frame available; the pass in which it arrives,
which is the call that detects the timeout when the protocol is still in
AwaitingResponse, leaves the readings alone, marks the sensor unhealthy and
returns to Idle; and the state after that pass and after every later pass
(including the call that awaits the response to the next request) is the state
of the same execution without the arrival. Frames carry no request number, so
the request of a frame is the last request sent before it arrives. A valid
frame that arrives within the timeout while the protocol awaits it is applied
and consumed. -/
theorem sensor_link_late_frame_discarded (pre post : List t_linkEnv) (st : t_link) (now : Nat)
    (f : t_dataPacket) (hcons : st.uart.txTick = st.sys.sensorTimeout)
    (hlate : timeSince now (linkRun pre st).sys.sensorTimeout > 20) :
    uartFrameArrives now f (linkRun pre st).uart = (linkRun pre st).uart ∧
    linkStep ⟨now, some f⟩ (linkRun pre st) = linkStep ⟨now, none⟩ (linkRun pre st) ∧
    ((linkRun pre st).sys.sensorState = 1 →
      readings (linkStep ⟨now, some f⟩ (linkRun pre st)).sys.data =
        readings (linkRun pre st).sys.data ∧
      (linkStep ⟨now, some f⟩ (linkRun pre st)).sys.data.status.SENSOR_OK = 0 ∧
      (linkStep ⟨now, some f⟩ (linkRun pre st)).sys.sensorState = 0) ∧
    linkRun (pre ++ [⟨now, some f⟩] ++ post) st = linkRun (pre ++ [⟨now, none⟩] ++ post) st ∧
    (∀ (st2 : t_link) (now2 : Nat) (f2 : t_dataPacket),
      st2.uart.txTick = st2.sys.sensorTimeout → st2.sys.sensorState = 1 →
      ¬ timeSince now2 st2.sys.sensorTimeout > 20 → f2.header = 0xAA → f2.status = 1 →
      readings (linkStep ⟨now2, some f2⟩ st2).sys.data = frameReadings f2 ∧
      (linkStep ⟨now2, some f2⟩ st2).uart.rxFrame = none) := by
  have hinv := linkRun_ticks pre st hcons
  have hl : timeSince now (linkRun pre st).uart.txTick > SENSOR_TIMEOUT := by
    rw [hinv]; exact hlate
  obtain ⟨h1, h2⟩ := linkStep_late now f (linkRun pre st) hl
  refine ⟨h1, h2, ?_, ?_, ?_⟩
  · intro hs
    have k := (checkSensor_cases now
      (uartIsDataReady (uartFrameArrives now f (linkRun pre st).uart))
      (getDataPacket (uartFrameArrives now f (linkRun pre st).uart))
      (linkRun pre st).sys).2.2.1 hs hlate
    exact ⟨k.1, k.2.1, k.2.2.1⟩
  · simp only [linkRun_append, linkRun, h2]
  · intro st2 now2 f2 hc hs ht hh hst
    have hnl : ¬ timeSince now2 st2.uart.txTick > SENSOR_TIMEOUT := by rw [hc]; exact ht
    have hu : uartFrameArrives now2 f2 st2.uart = { st2.uart with rxFrame := some f2 } := by
      unfold uartFrameArrives
      rw [if_neg hnl]
    have hn0 : ¬ st2.sys.sensorState = 0 := by rw [hs]; decide
    have ht2 : ¬ timeSince now2 st2.sys.sensorTimeout > SENSOR_TIMEOUT := ht
    have k := (checkSensor_cases now2 true f2 st2.sys).2.2.2.2.1 hs ht rfl ⟨hh, hst⟩
    refine ⟨?_, ?_⟩
    · simp only [linkStep, hu, uartIsDataReady, getDataPacket, Option.isSome_some,
        Option.getD_some]
      exact k.1
    · simp only [linkStep, hu, uartIsDataReady, Option.isSome_some, hs, hn0, ht2,
        false_and, if_false, not_false_eq_true, and_self, if_true]

theorem sensor_link_late_frame_discarded_witness :
    sampleLink.uart.txTick = sampleLink.sys.sensorTimeout ∧
    timeSince 72 (linkRun [⟨50, none⟩, ⟨60, none⟩, ⟨71, none⟩] sampleLink).sys.sensorTimeout
      > 20 ∧
    linkRun ([⟨50, none⟩, ⟨60, none⟩, ⟨71, none⟩] ++ [⟨72, some sampleFrame⟩] ++
        [⟨100, none⟩, ⟨101, none⟩]) sampleLink =
      linkRun ([⟨50, none⟩, ⟨60, none⟩, ⟨71, none⟩] ++ [⟨72, none⟩] ++
        [⟨100, none⟩, ⟨101, none⟩]) sampleLink ∧
    readings (linkRun ([⟨50, none⟩, ⟨60, none⟩, ⟨71, none⟩] ++ [⟨72, some sampleFrame⟩] ++
        [⟨100, none⟩, ⟨101, none⟩]) sampleLink).sys.data = readings sampleLink.sys.data ∧
    readings (linkRun [⟨50, none⟩, ⟨60, some sampleFrame⟩] sampleLink).sys.data =
      frameReadings sampleFrame :=
  have hcons : sampleLink.uart.txTick = sampleLink.sys.sensorTimeout := by decide
  have hlate : timeSince 72
      (linkRun [⟨50, none⟩, ⟨60, none⟩, ⟨71, none⟩] sampleLink).sys.sensorTimeout > 20 := by
    decide
  ⟨hcons, hlate,
    (sensor_link_late_frame_discarded [⟨50, none⟩, ⟨60, none⟩, ⟨71, none⟩]
      [⟨100, none⟩, ⟨101, none⟩] sampleLink 72 sampleFrame hcons hlate).2.2.2.1,
    by decide, by decide⟩

/-- C12: for every call of `checkSensor` that receives a frame (AwaitingResponse,
timeout not expired, data ready) whose header byte is not 0xAA or whose status
flag is not 1, the stored readings tempC, relHum, dewPointC and sensorVersion
are unchanged, SENSOR_OK becomes 0 and the protocol returns to Idle; and
whenever any call changes the readings, it received, before the timeout, a
frame with header 0xAA and status 1, whose fields are the new readings. -/
theorem checkSensor_invalid_frame (now : Nat) (dp : t_dataPacket) (s : Sys)
    (hst : s.sensorState = 1) (hto : ¬ timeSince now s.sensorTimeout > 20)
    (hbad : dp.header ≠ 0xAA ∨ dp.status ≠ 1) :
    readings (checkSensor now true dp s).data = readings s.data ∧
    (checkSensor now true dp s).data.status.SENSOR_OK = 0 ∧
    (checkSensor now true dp s).sensorState = 0 ∧
    (∀ (now2 : Nat) (dataReady2 : Bool) (dp2 : t_dataPacket) (s2 : Sys),
      readings (checkSensor now2 dataReady2 dp2 s2).data ≠ readings s2.data →
        s2.sensorState = 1 ∧ ¬ timeSince now2 s2.sensorTimeout > 20 ∧ dataReady2 = true ∧
        dp2.header = 0xAA ∧ dp2.status = 1 ∧
        readings (checkSensor now2 dataReady2 dp2 s2).data = frameReadings dp2) := by
  obtain ⟨_, _, _, _, _, c6, _⟩ := checkSensor_cases now true dp s
  have hb : ¬ (dp.header = 0xAA ∧ dp.status = 1) := by
    rintro ⟨a, b⟩
    rcases hbad with h | h
    · exact h a
    · exact h b
  have k := c6 hst hto rfl hb
  refine ⟨k.1, k.2.1, k.2.2.1, ?_⟩
  intro now2 dataReady2 dp2 s2 hne
  obtain ⟨d1, d2, d3, d4, d5, d6, d7⟩ := checkSensor_cases now2 dataReady2 dp2 s2
  by_cases h1 : s2.sensorState = 1
  · by_cases ht : timeSince now2 s2.sensorTimeout > 20
    · exact absurd (d3 h1 ht).1 hne
    · cases hr : dataReady2 with
      | false => exact absurd (d4 h1 ht hr).1 hne
      | true =>
        by_cases hv : dp2.header = 0xAA ∧ dp2.status = 1
        · exact ⟨h1, ht, rfl, hv.1, hv.2, hr ▸ (d5 h1 ht hr hv).1⟩
        · exact absurd (d6 h1 ht hr hv).1 hne
  · by_cases h0 : s2.sensorState = 0
    · by_cases ht : timeSince now2 s2.sensorUpdateInterval ≥ 50
      · exact absurd (d1 h0 ht).1 hne
      · exact absurd (d2 h0 ht).1 hne
    · exact absurd (d7 h0 h1).1 hne

theorem checkSensor_invalid_frame_witness :
    ({ sampleSys 12 1 0 0 with sensorState := 1, sensorTimeout := 100 } : Sys).sensorState = 1 ∧
    ¬ timeSince 105
      ({ sampleSys 12 1 0 0 with sensorState := 1, sensorTimeout := 100 } : Sys).sensorTimeout > 20 ∧
    (({ sampleFrame with header := 0x55 } : t_dataPacket).header ≠ 0xAA ∨
      ({ sampleFrame with header := 0x55 } : t_dataPacket).status ≠ 1) ∧
    readings (checkSensor 105 true { sampleFrame with header := 0x55 }
      { sampleSys 12 1 0 0 with sensorState := 1, sensorTimeout := 100 }).data =
      readings ({ sampleSys 12 1 0 0 with sensorState := 1, sensorTimeout := 100 } : Sys).data ∧
    (checkSensor 105 true { sampleFrame with header := 0x55 }
      { sampleSys 12 1 0 0 with sensorState := 1, sensorTimeout := 100 }).data.status.SENSOR_OK
        = 0 :=
  have h1 : ({ sampleSys 12 1 0 0 with sensorState := 1, sensorTimeout := 100 } : Sys).sensorState
      = 1 := rfl
  have h2 : ¬ timeSince 105
      ({ sampleSys 12 1 0 0 with sensorState := 1, sensorTimeout := 100 } : Sys).sensorTimeout
        > 20 := by decide
  have h3 : ({ sampleFrame with header := 0x55 } : t_dataPacket).header ≠ 0xAA ∨
      ({ sampleFrame with header := 0x55 } : t_dataPacket).status ≠ 1 := by decide
  ⟨h1, h2, h3,
    (checkSensor_invalid_frame 105 { sampleFrame with header := 0x55 }
      { sampleSys 12 1 0 0 with sensorState := 1, sensorTimeout := 100 } h1 h2 h3).1,
    (checkSensor_invalid_frame 105 { sampleFrame with header := 0x55 }
      { sampleSys 12 1 0 0 with sensorState := 1, sensorTimeout := 100 } h1 h2 h3).2.1⟩

theorem timeSince_mod (now t : Nat) : timeSince now (t % U32) = timeSince now t := by
  unfold timeSince
  rw [Nat.mod_mod]

theorem timeSince_of_le (now t : Nat) (h1 : t ≤ now) (h2 : now < U32) :
    timeSince now t = now - t := by
  unfold timeSince U32 at *
  omega

/-- One call of `checkSensor` either sends the request byte, from Idle with the
update interval elapsed, entering AwaitingResponse and recording the tick, or
sends nothing and keeps the recorded request tick. -/
theorem checkSensor_send_cases (now : Nat) (dataReady : Bool) (dp : t_dataPacket) (s : Sys) :
    ((checkSensor now dataReady dp s).uartSent = s.uartSent ++ [63] ∧
      s.sensorState = 0 ∧ timeSince now s.sensorUpdateInterval ≥ 50 ∧
      (checkSensor now dataReady dp s).sensorState = 1 ∧
      (checkSensor now dataReady dp s).sensorUpdateInterval = now % U32) ∨
    ((checkSensor now dataReady dp s).uartSent = s.uartSent ∧
      (checkSensor now dataReady dp s).sensorUpdateInterval = s.sensorUpdateInterval ∧
      ¬ (s.sensorState = 0 ∧ timeSince now s.sensorUpdateInterval ≥ 50)) := by
  obtain ⟨c1, c2, c3, c4, c5, c6, c7⟩ := checkSensor_cases now dataReady dp s
  by_cases h0 : s.sensorState = 0
  · by_cases ht : timeSince now s.sensorUpdateInterval ≥ 50
    · have k := c1 h0 ht
      exact Or.inl ⟨k.2.2.2.1, h0, ht, k.2.2.1, k.2.2.2.2.1⟩
    · have k := c2 h0 ht
      exact Or.inr ⟨k.2.2.2.1, k.2.2.2.2.1, fun h => ht h.2⟩
  · refine Or.inr ⟨?_, ?_, fun h => h0 h.1⟩
    · by_cases h1 : s.sensorState = 1
      · by_cases ht : timeSince now s.sensorTimeout > 20
        · exact (c3 h1 ht).2.2.2.1
        · cases hr : dataReady with
          | false => exact hr ▸ (c4 h1 ht hr).2.2.2.1
          | true =>
            by_cases hv : dp.header = 0xAA ∧ dp.status = 1
            · exact hr ▸ (c5 h1 ht hr hv).2.2.2.1
            · exact hr ▸ (c6 h1 ht hr hv).2.2.2.1
      · exact (c7 h0 h1).2.2.2.1
    · by_cases h1 : s.sensorState = 1
      · by_cases ht : timeSince now s.sensorTimeout > 20
        · exact (c3 h1 ht).2.2.2.2.1
        · cases hr : dataReady with
          | false => exact hr ▸ (c4 h1 ht hr).2.2.2.2.1
          | true =>
            by_cases hv : dp.header = 0xAA ∧ dp.status = 1
            · exact hr ▸ (c5 h1 ht hr hv).2.2.2.2.1
            · exact hr ▸ (c6 h1 ht hr hv).2.2.2.2.1
      · exact (c7 h0 h1).2.2.2.2.1

theorem sensorRun_sent_length (es : List t_sensorEnv) (s : Sys) :
    s.uartSent.length ≤ (sensorRun es s).uartSent.length := by
  induction es generalizing s with
  | nil => exact le_refl _
  | cons e es ih =>
    simp only [sensorRun]
    refine le_trans ?_ (ih _)
    rcases checkSensor_send_cases e.now e.dataReady e.dp s with h | h
    · rw [h.1]; simp
    · rw [h.1]

/-- An execution in which no request byte is sent keeps the recorded tick of
the last request. -/
theorem sensorRun_no_send (es : List t_sensorEnv) (s : Sys)
    (h : (sensorRun es s).uartSent = s.uartSent) :
    (sensorRun es s).sensorUpdateInterval = s.sensorUpdateInterval := by
  induction es generalizing s with
  | nil => rfl
  | cons e es ih =>
    simp only [sensorRun] at h ⊢
    have hl := sensorRun_sent_length es (checkSensor e.now e.dataReady e.dp s)
    rcases checkSensor_send_cases e.now e.dataReady e.dp s with k | k
    · rw [h, k.1] at hl
      simp at hl
    · have h2 : (sensorRun es (checkSensor e.now e.dataReady e.dp s)).uartSent =
          (checkSensor e.now e.dataReady e.dp s).uartSent := by rw [h, k.1]
      rw [ih _ h2, k.2.1]

/-- C13: in every execution of `checkSensor` calls, a call sends the request
byte only from the Idle state and only when at least SENSOR_UPDATE_INTERVALL
(50) ticks have elapsed since the recorded tick of the previous request, and it
then enters AwaitingResponse; a call made in AwaitingResponse never sends. So
between two consecutive requests of an execution (first call `e1` from state
`s`, calls `mid` that send nothing, then call `e2`) the protocol has returned
to Idle and at least 50 ticks have elapsed, counted modulo 2^32 and, over a
tick counter that has not wrapped, as a plain difference. -/
theorem sensor_single_outstanding_request (s : Sys) (e1 e2 : t_sensorEnv)
    (mid : List t_sensorEnv)
    (h1 : (sensorRun [e1] s).uartSent ≠ s.uartSent)
    (hmid : (sensorRun ([e1] ++ mid) s).uartSent = (sensorRun [e1] s).uartSent)
    (h2 : (sensorRun ([e1] ++ mid ++ [e2]) s).uartSent ≠ (sensorRun ([e1] ++ mid) s).uartSent) :
    s.sensorState = 0 ∧
    (sensorRun [e1] s).sensorState = 1 ∧
    (sensorRun [e1] s).uartSent = s.uartSent ++ [63] ∧
    (sensorRun ([e1] ++ mid) s).sensorState = 0 ∧
    (sensorRun ([e1] ++ mid ++ [e2]) s).sensorState = 1 ∧
    (sensorRun ([e1] ++ mid ++ [e2]) s).uartSent = s.uartSent ++ [63, 63] ∧
    timeSince e2.now e1.now ≥ 50 ∧
    (e1.now ≤ e2.now → e2.now < U32 → e2.now - e1.now ≥ 50) ∧
    (∀ (now : Nat) (dataReady : Bool) (dp : t_dataPacket) (t : Sys), t.sensorState = 1 →
      (checkSensor now dataReady dp t).uartSent = t.uartSent) ∧
    (∀ (now : Nat) (dataReady : Bool) (dp : t_dataPacket) (t : Sys),
      (checkSensor now dataReady dp t).uartSent ≠ t.uartSent →
        t.sensorState = 0 ∧ timeSince now t.sensorUpdateInterval ≥ 50 ∧
        (checkSensor now dataReady dp t).sensorState = 1 ∧
        (checkSensor now dataReady dp t).uartSent = t.uartSent ++ [63]) := by
  have hsend : ∀ (now : Nat) (dataReady : Bool) (dp : t_dataPacket) (t : Sys),
      (checkSensor now dataReady dp t).uartSent ≠ t.uartSent →
        t.sensorState = 0 ∧ timeSince now t.sensorUpdateInterval ≥ 50 ∧
        (checkSensor now dataReady dp t).sensorState = 1 ∧
        (checkSensor now dataReady dp t).uartSent = t.uartSent ++ [63] ∧
        (checkSensor now dataReady dp t).sensorUpdateInterval = now % U32 := by
    intro now dataReady dp t hne
    rcases checkSensor_send_cases now dataReady dp t with k | k
    · exact ⟨k.2.1, k.2.2.1, k.2.2.2.1, k.1, k.2.2.2.2⟩
    · exact absurd k.1 hne
  have hrun : ∀ (a b : List t_sensorEnv) (t : Sys),
      sensorRun (a ++ b) t = sensorRun b (sensorRun a t) := by
    intro a
    induction a with
    | nil => intro b t; rfl
    | cons e a ih => intro b t; exact ih b _
  have e1s : sensorRun [e1] s = checkSensor e1.now e1.dataReady e1.dp s := rfl
  simp only [hrun] at hmid h2 ⊢
  rw [e1s] at h1 hmid h2 ⊢
  obtain ⟨a1, _, a3, a4, a5⟩ := hsend _ _ _ _ h1
  have hint := sensorRun_no_send mid _ hmid
  have e2s : ∀ t, sensorRun [e2] t = checkSensor e2.now e2.dataReady e2.dp t := fun _ => rfl
  rw [e2s] at h2 ⊢
  obtain ⟨b1, b2, b3, b4, _⟩ := hsend _ _ _ _ h2
  rw [hint, a5, timeSince_mod] at b2
  refine ⟨a1, a3, a4, b1, b3, ?_, b2, ?_, ?_, ?_⟩
  · rw [b4, hmid, a4]; simp
  · intro hle hlt
    rw [timeSince_of_le _ _ hle hlt] at b2
    exact b2
  · intro now dataReady dp t ht
    rcases checkSensor_send_cases now dataReady dp t with k | k
    · rw [k.2.1] at ht; cases ht
    · exact k.1
  · intro now dataReady dp t hne
    obtain ⟨c1, c2, c3, c4, _⟩ := hsend now dataReady dp t hne
    exact ⟨c1, c2, c3, c4⟩

theorem sensor_single_outstanding_request_witness :
    (sensorRun [⟨50, false, sampleFrame⟩] (sampleSys 12 1 0 0)).uartSent ≠
      (sampleSys 12 1 0 0).uartSent ∧
    (sensorRun ([⟨50, false, sampleFrame⟩] ++ [⟨60, false, sampleFrame⟩, ⟨71, false, sampleFrame⟩])
      (sampleSys 12 1 0 0)).uartSent =
      (sensorRun [⟨50, false, sampleFrame⟩] (sampleSys 12 1 0 0)).uartSent ∧
    (sensorRun ([⟨50, false, sampleFrame⟩] ++
        [⟨60, false, sampleFrame⟩, ⟨71, false, sampleFrame⟩] ++ [⟨100, false, sampleFrame⟩])
      (sampleSys 12 1 0 0)).uartSent ≠
      (sensorRun ([⟨50, false, sampleFrame⟩] ++
        [⟨60, false, sampleFrame⟩, ⟨71, false, sampleFrame⟩]) (sampleSys 12 1 0 0)).uartSent ∧
    timeSince 100 50 ≥ 50 :=
  have h1 : (sensorRun [⟨50, false, sampleFrame⟩] (sampleSys 12 1 0 0)).uartSent ≠
      (sampleSys 12 1 0 0).uartSent := by decide
  have hmid : (sensorRun ([⟨50, false, sampleFrame⟩] ++
        [⟨60, false, sampleFrame⟩, ⟨71, false, sampleFrame⟩]) (sampleSys 12 1 0 0)).uartSent =
      (sensorRun [⟨50, false, sampleFrame⟩] (sampleSys 12 1 0 0)).uartSent := by decide
  have h2 : (sensorRun ([⟨50, false, sampleFrame⟩] ++
        [⟨60, false, sampleFrame⟩, ⟨71, false, sampleFrame⟩] ++ [⟨100, false, sampleFrame⟩])
      (sampleSys 12 1 0 0)).uartSent ≠
      (sensorRun ([⟨50, false, sampleFrame⟩] ++
        [⟨60, false, sampleFrame⟩, ⟨71, false, sampleFrame⟩]) (sampleSys 12 1 0 0)).uartSent := by
    decide
  ⟨h1, hmid, h2,
    (sensor_single_outstanding_request (sampleSys 12 1 0 0) ⟨50, false, sampleFrame⟩
      ⟨100, false, sampleFrame⟩ [⟨60, false, sampleFrame⟩, ⟨71, false, sampleFrame⟩]
      h1 hmid h2).2.2.2.2.2.2.1⟩

/-! ## Channel current scanner -/

theorem chGet_chSet (d : t_globalData) (n m : Nat) (f : t_chData → t_chData) :
    chGet (chSet d n f) m =
      if n = m ∧ n < d.chData.length then f (chGet d n) else chGet d m := by
  simp only [chGet, chSet, List.getElem?_set]
  by_cases h : n = m
  · subst h
    by_cases hl : n < d.chData.length
    · simp [hl]
    · have : d.chData[n]? = none := List.getElem?_eq_none (not_lt.mp hl)
      simp [hl, this]
  · simp [h]

theorem chSet_length (d : t_globalData) (n : Nat) (f : t_chData → t_chData) :
    (chSet d n f).chData.length = d.chData.length := by
  simp [chSet]

theorem error_warning (code : t_error) (s : Sys) (h : code ≠ t_error.ERR_NUKED) :
    error code s = .returns { s with raised := s.raised ++ [code] } := by
  unfold error
  rw [if_neg h]

/-- The four branches of the classification chain. -/
theorem scanClassify_cases (adc channel : Nat) (s : Sys) :
    (ADC_TO_I ((adc % U16 : Nat) : ℚ) < MIN_CURRENT →
      (chGet s.data channel).status ≠ t_chStatus.CH_OPEN →
      scanClassify adc channel s = .returns { s with
        raised := s.raised ++ [t_error.WARN_REMOVED]
        data := chSet s.data channel (fun c => { c with status := t_chStatus.CH_OPEN }) }) ∧
    (ADC_TO_I ((adc % U16 : Nat) : ℚ) < MIN_CURRENT →
      (chGet s.data channel).status = t_chStatus.CH_OPEN →
      scanClassify adc channel s = .returns s) ∧
    (¬ ADC_TO_I ((adc % U16 : Nat) : ℚ) < MIN_CURRENT →
      ADC_TO_I ((adc % U16 : Nat) : ℚ) > MAX_CURRENT →
      scanClassify adc channel s = .returns { s with
        raised := s.raised ++ [t_error.WARN_SHORT]
        data := chSet s.data channel (fun c => { c with status := t_chStatus.CH_DISABLED })
        pins := if s.pins.nFAULT = 0 then { s.pins with PEN := 1 } else s.pins }) ∧
    (¬ ADC_TO_I ((adc % U16 : Nat) : ℚ) < MIN_CURRENT →
      ¬ ADC_TO_I ((adc % U16 : Nat) : ℚ) > MAX_CURRENT →
      scanClassify adc channel s = .returns { s with
        data := chSet
          (chSet
            (chSet s.data channel
              (fun c => { c with current := ADC_TO_I ((adc % U16 : Nat) : ℚ) }))
            channel
            (fun c => { c with Pmax := s.data.voltage * ADC_TO_I ((adc % U16 : Nat) : ℚ) }))
          channel (fun c => { c with DCreq := c.Pmax / c.Preq }) }) := by
  refine ⟨?_, ?_, ?_, ?_⟩
  · intro h1 h2
    unfold scanClassify
    simp only [h1, h2, if_true, ne_eq, not_false_eq_true]
    rw [error_warning _ _ (by decide)]
    rfl
  · intro h1 h2
    unfold scanClassify
    simp only [h1, h2, if_true, ne_eq, not_true_eq_false, if_false]
  · intro h1 h2
    unfold scanClassify
    simp only [h1, h2, if_true, if_false]
    rw [error_warning _ _ (by decide)]
    simp only [Outcome.andThen]
    by_cases hf : s.pins.nFAULT = 0
    · simp [hf]
    · simp [hf]
  · intro h1 h2
    unfold scanClassify
    simp only [h1, h2, if_false]
    rfl

/-- The classification chain never halts. -/
theorem scanClassify_total (adc channel : Nat) (s : Sys) :
    scanClassify adc channel s = .returns (scanClassify adc channel s).state := by
  obtain ⟨c1, c2, c3, c4⟩ := scanClassify_cases adc channel s
  by_cases h1 : ADC_TO_I ((adc % U16 : Nat) : ℚ) < MIN_CURRENT
  · by_cases h2 : (chGet s.data channel).status = t_chStatus.CH_OPEN
    · rw [c2 h1 h2]; rfl
    · rw [c1 h1 h2]; rfl
  · by_cases h2 : ADC_TO_I ((adc % U16 : Nat) : ℚ) > MAX_CURRENT
    · rw [c3 h1 h2]; rfl
    · rw [c4 h1 h2]; rfl

theorem scan_start_step (env : t_scanEnv) (s : ScanSys) (hb : s.busy = 0) :
    getAvgChannelCurrents env s = .returns { s with
      busy := 1
      samples := 0
      channel := 0
      avg := (chGet s.sys.data 0).cur % U16
      sys := { s.sys with pins := setSwitch 0 ON s.sys.pins }
      events := s.events ++ [t_scanEvent.switch 0 ON] } := by
  unfold getAvgChannelCurrents
  rw [if_pos hb]

theorem scan_sample_step (env : t_scanEnv) (s : ScanSys) (hb : s.busy ≠ 0)
    (hs : s.samples < NUM_SAMPLES) :
    getAvgChannelCurrents env s = .returns { s with
      samples := (s.samples + 1) % 256
      avg := ema (env.conversion % U16) s.avg (ALPHA 0.65)
      events := s.events ++ [t_scanEvent.convert] } := by
  unfold getAvgChannelCurrents
  rw [if_neg hb, if_pos hs]

theorem scan_classify_step (env : t_scanEnv) (s : ScanSys) (hb : s.busy ≠ 0)
    (hs : ¬ s.samples < NUM_SAMPLES) (sy : Sys)
    (hsy : scanClassify env.adcLocal s.channel
      { s.sys with pins := setSwitch s.channel OFF s.sys.pins } = .returns sy) :
    getAvgChannelCurrents env s =
      if s.channel < NUM_CHANNELS - 1 then
        .returns { s with
          samples := (s.samples + 1) % 256
          channel := (s.channel + 1) % 256
          avg := (chGet sy.data ((s.channel + 1) % 256)).cur % U16
          sys := { sy with pins := setSwitch ((s.channel + 1) % 256) ON sy.pins }
          events := s.events ++ [t_scanEvent.switch s.channel OFF] ++
            [t_scanEvent.switch ((s.channel + 1) % 256) ON] }
      else
        .returns { s with
          samples := (s.samples + 1) % 256
          sys := sy
          events := s.events ++ [t_scanEvent.switch s.channel OFF]
          busy := 0 } := by
  unfold getAvgChannelCurrents
  rw [if_neg hb, if_neg hs]
  simp only [hsy]

theorem scanCalls_succ (envs : Nat → t_scanEnv) (n : Nat) (s t : ScanSys)
    (h : scanCalls envs n s = .returns t) :
    scanCalls envs (n + 1) s = getAvgChannelCurrents (envs n) t := by
  simp only [scanCalls, h, Outcome.andThen]

/-- The sampling phase: after the start call and `k` further calls (`k` at most
20) channel 0 is on, `k` conversions have been made and nothing else changed. -/
theorem scan_sampling (envs : Nat → t_scanEnv) (s : ScanSys) (hb : s.busy = 0) (k : Nat)
    (hk : k ≤ 20) :
    ∃ t, scanCalls envs (k + 1) s = .returns t ∧ t.busy = 1 ∧ t.channel = 0 ∧ t.samples = k ∧
      t.events = s.events ++ [t_scanEvent.switch 0 ON] ++ List.replicate k t_scanEvent.convert ∧
      t.sys = { s.sys with pins := setSwitch 0 ON s.sys.pins } := by
  induction k with
  | zero =>
    rw [scanCalls_succ envs 0 s s rfl, scan_start_step _ _ hb]
    exact ⟨_, rfl, rfl, rfl, rfl, by simp, rfl⟩
  | succ j ih =>
    obtain ⟨t, h1, h2, h3, h4, h5, h6⟩ := ih (by omega)
    have hs : t.samples < NUM_SAMPLES := by rw [h4]; unfold NUM_SAMPLES; omega
    have hb2 : t.busy ≠ 0 := by rw [h2]; decide
    rw [scanCalls_succ envs (j + 1) s t h1, scan_sample_step _ _ hb2 hs]
    refine ⟨_, rfl, h2, h3, ?_, ?_, h6⟩
    · show (t.samples + 1) % 256 = j + 1
      rw [h4]; omega
    · show t.events ++ [t_scanEvent.convert] = _
      rw [h5, List.replicate_succ']
      simp

/-- A call made with the sample budget used up de-energizes and classifies the
current channel, then energizes the next channel or ends the scan. -/
theorem scan_classify_progress (envs : Nat → t_scanEnv) (n : Nat) (s t : ScanSys)
    (h : scanCalls envs n s = .returns t) (hb : t.busy = 1) (hs : 20 ≤ t.samples)
    (hs2 : t.samples < 255) :
    ∃ u, scanCalls envs (n + 1) s = .returns u ∧ u.samples = t.samples + 1 ∧
      u.sys.data = (scanClassify (envs n).adcLocal t.channel
        { t.sys with pins := setSwitch t.channel OFF t.sys.pins }).state.data ∧
      u.sys.raised = (scanClassify (envs n).adcLocal t.channel
        { t.sys with pins := setSwitch t.channel OFF t.sys.pins }).state.raised ∧
      (t.channel < 3 → u.busy = 1 ∧ u.channel = t.channel + 1 ∧
        u.events = t.events ++
          [t_scanEvent.switch t.channel OFF, t_scanEvent.switch (t.channel + 1) ON]) ∧
      (¬ t.channel < 3 → u.busy = 0 ∧ u.channel = t.channel ∧
        u.events = t.events ++ [t_scanEvent.switch t.channel OFF]) := by
  have hb2 : t.busy ≠ 0 := by rw [hb]; decide
  have hs3 : ¬ t.samples < NUM_SAMPLES := by unfold NUM_SAMPLES; omega
  have hm : (t.samples + 1) % 256 = t.samples + 1 := by omega
  rw [scanCalls_succ envs n s t h,
    scan_classify_step (envs n) t hb2 hs3 _ (scanClassify_total _ _ _)]
  by_cases hc : t.channel < 3
  · have hc2 : t.channel < NUM_CHANNELS - 1 := hc
    have hm2 : (t.channel + 1) % 256 = t.channel + 1 := by omega
    rw [if_pos hc2]
    refine ⟨_, rfl, hm, rfl, rfl, fun _ => ⟨hb, hm2, ?_⟩, fun h => absurd hc h⟩
    show t.events ++ [t_scanEvent.switch t.channel OFF] ++
      [t_scanEvent.switch ((t.channel + 1) % 256) ON] = _
    rw [hm2]; simp
  · have hc2 : ¬ t.channel < NUM_CHANNELS - 1 := hc
    rw [if_neg hc2]
    exact ⟨_, rfl, hm, rfl, rfl, fun h => absurd h hc, fun _ => ⟨rfl, rfl, rfl⟩⟩

/-- One complete scan from the not-busy state, for any system state and any
conversion results: the first 24 calls return busy, the 25th returns not busy,
the hardware actions are exactly `scanTrace`, and the 26th call starts the next
scan at channel 0. -/
theorem scan_complete (envs : Nat → t_scanEnv) (s : ScanSys) (hb : s.busy = 0) :
    (∀ k, 1 ≤ k → k ≤ 24 → ∃ t, scanCalls envs k s = .returns t ∧ t.busy = 1) ∧
    (∃ t, scanCalls envs 25 s = .returns t ∧ t.busy = 0 ∧ t.events = s.events ++ scanTrace) ∧
    (∃ t, scanCalls envs 26 s = .returns t ∧ t.busy = 1 ∧ t.channel = 0 ∧ t.samples = 0 ∧
      t.events = s.events ++ scanTrace ++ [t_scanEvent.switch 0 ON]) := by
  obtain ⟨t21, a1, a2, a3, a4, a5, _⟩ := scan_sampling envs s hb 20 (le_refl _)
  obtain ⟨t22, b1, b2, _, _, b5, _⟩ :=
    scan_classify_progress envs 21 s t21 a1 a2 (by omega) (by omega)
  obtain ⟨b3, b4, b6⟩ := b5 (by omega)
  obtain ⟨t23, c1, c2, _, _, c5, _⟩ :=
    scan_classify_progress envs 22 s t22 b1 b3 (by omega) (by omega)
  obtain ⟨c3, c4, c6⟩ := c5 (by omega)
  obtain ⟨t24, d1, d2, _, _, d5, _⟩ :=
    scan_classify_progress envs 23 s t23 c1 c3 (by omega) (by omega)
  obtain ⟨d3, d4, d6⟩ := d5 (by omega)
  obtain ⟨t25, e1, e2, _, _, _, e5⟩ :=
    scan_classify_progress envs 24 s t24 d1 d3 (by omega) (by omega)
  obtain ⟨e3, e4, e6⟩ := e5 (by omega)
  have hev : t25.events = s.events ++ scanTrace := by
    rw [e6, d6, c6, b6, a5, d4, c4, b4, a3]
    simp [scanTrace]
  refine ⟨?_, ⟨t25, e1, e3, hev⟩, ?_⟩
  · intro k hk1 hk2
    by_cases h21 : k ≤ 21
    · obtain ⟨t, h1, h2, _⟩ := scan_sampling envs s hb (k - 1) (by omega)
      have : k - 1 + 1 = k := by omega
      rw [this] at h1
      exact ⟨t, h1, h2⟩
    · have hk : k = 22 ∨ k = 23 ∨ k = 24 := by omega
      rcases hk with rfl | rfl | rfl
      · exact ⟨t22, b1, b3⟩
      · exact ⟨t23, c1, c3⟩
      · exact ⟨t24, d1, d3⟩
  · rw [scanCalls_succ envs 25 s t25 e1, scan_start_step _ _ e3]
    refine ⟨_, rfl, rfl, rfl, rfl, ?_⟩
    show t25.events ++ [t_scanEvent.switch 0 ON] = _
    rw [hev]

/-- What a classifying call leaves in the system state: the result of the
classification chain, with the pin of the next channel switched on when there
is a next channel. -/
theorem scan_classify_sys (env : t_scanEnv) (s : ScanSys) (hb : s.busy ≠ 0)
    (hs : ¬ s.samples < NUM_SAMPLES) :
    (getAvgChannelCurrents env s).halted = false ∧
    (getAvgChannelCurrents env s).state.sys.data =
      (scanClassify env.adcLocal s.channel
        { s.sys with pins := setSwitch s.channel OFF s.sys.pins }).state.data ∧
    (getAvgChannelCurrents env s).state.sys.raised =
      (scanClassify env.adcLocal s.channel
        { s.sys with pins := setSwitch s.channel OFF s.sys.pins }).state.raised := by
  rw [scan_classify_step env s hb hs _ (scanClassify_total _ _ _)]
  by_cases hc : s.channel < NUM_CHANNELS - 1
  · rw [if_pos hc]; exact ⟨rfl, rfl, rfl⟩
  · rw [if_neg hc]; exact ⟨rfl, rfl, rfl⟩

/-- A call that starts a scan or takes a sample leaves the aggregate and the
raised codes alone. -/
theorem scan_other_sys (env : t_scanEnv) (s : ScanSys)
    (h : s.busy = 0 ∨ s.samples < NUM_SAMPLES) :
    (getAvgChannelCurrents env s).halted = false ∧
    (getAvgChannelCurrents env s).state.sys.data = s.sys.data ∧
    (getAvgChannelCurrents env s).state.sys.raised = s.sys.raised := by
  by_cases hb : s.busy = 0
  · rw [scan_start_step env s hb]; exact ⟨rfl, rfl, rfl⟩
  · have hs : s.samples < NUM_SAMPLES := by
      rcases h with h | h
      · exact absurd h hb
      · exact h
    rw [scan_sample_step env s hb hs]; exact ⟨rfl, rfl, rfl⟩

/-- The record of the classified channel after the normal-current branch. -/
theorem scanClassify_normal (adc ch : Nat) (s : Sys) (hl : ch < s.data.chData.length)
    (h1 : ¬ ADC_TO_I ((adc % U16 : Nat) : ℚ) < MIN_CURRENT)
    (h2 : ¬ ADC_TO_I ((adc % U16 : Nat) : ℚ) > MAX_CURRENT) :
    chGet (scanClassify adc ch s).state.data ch =
      { chGet s.data ch with
        current := ADC_TO_I ((adc % U16 : Nat) : ℚ)
        Pmax := s.data.voltage * ADC_TO_I ((adc % U16 : Nat) : ℚ)
        DCreq := (s.data.voltage * ADC_TO_I ((adc % U16 : Nat) : ℚ)) / (chGet s.data ch).Preq } := by
  rw [(scanClassify_cases adc ch s).2.2.2 h1 h2]
  simp [Outcome.state, chGet_chSet, chSet_length, hl]

/-- The classification chain for channel `ch` keeps the number of channels and
the record of every other channel. -/
theorem scanClassify_other (adc ch : Nat) (s : Sys) :
    (scanClassify adc ch s).state.data.chData.length = s.data.chData.length ∧
    (∀ j, j ≠ ch → chGet (scanClassify adc ch s).state.data j = chGet s.data j) := by
  obtain ⟨c1, c2, c3, c4⟩ := scanClassify_cases adc ch s
  by_cases h1 : ADC_TO_I ((adc % U16 : Nat) : ℚ) < MIN_CURRENT
  · by_cases h2 : (chGet s.data ch).status = t_chStatus.CH_OPEN
    · rw [c2 h1 h2]
      exact ⟨rfl, fun _ _ => rfl⟩
    · rw [c1 h1 h2]
      refine ⟨by simp [Outcome.state, chSet_length], fun j hj => ?_⟩
      have hn : ¬ (ch = j ∧ ch < s.data.chData.length) := fun h => hj h.1.symm
      simp only [Outcome.state, chGet_chSet, hn, if_false]
  · by_cases h2 : ADC_TO_I ((adc % U16 : Nat) : ℚ) > MAX_CURRENT
    · rw [c3 h1 h2]
      refine ⟨by simp [Outcome.state, chSet_length], fun j hj => ?_⟩
      have hn : ¬ (ch = j ∧ ch < s.data.chData.length) := fun h => hj h.1.symm
      simp only [Outcome.state, chGet_chSet, hn, if_false]
    · rw [c4 h1 h2]
      refine ⟨by simp [Outcome.state, chSet_length], fun j hj => ?_⟩
      have hn : ¬ (ch = j ∧ ch < s.data.chData.length) := fun h => hj h.1.symm
      simp only [Outcome.state, chGet_chSet, chSet_length, hn, if_false]

/-- Every call keeps the number of channels, and keeps the record of channel
`j` unless it is the call that classifies `j`. -/
theorem scan_step_other_channel (env : t_scanEnv) (t : ScanSys) (j : Nat) :
    (getAvgChannelCurrents env t).halted = false ∧
    (getAvgChannelCurrents env t).state.sys.data.chData.length = t.sys.data.chData.length ∧
    ((t.busy = 0 ∨ t.samples < NUM_SAMPLES ∨ t.channel ≠ j) →
      chGet (getAvgChannelCurrents env t).state.sys.data j = chGet t.sys.data j) := by
  by_cases hcl : t.busy ≠ 0 ∧ ¬ t.samples < NUM_SAMPLES
  · obtain ⟨hb, hs⟩ := hcl
    obtain ⟨a1, a2, _⟩ := scan_classify_sys env t hb hs
    obtain ⟨k1, k2⟩ := scanClassify_other env.adcLocal t.channel
      { t.sys with pins := setSwitch t.channel OFF t.sys.pins }
    refine ⟨a1, ?_, ?_⟩
    · rw [a2, k1]
    · intro h
      have hj : j ≠ t.channel := by
        rcases h with h | h | h
        · exact absurd h hb
        · exact absurd h hs
        · exact fun e => h e.symm
      rw [a2, k2 j hj]
  · have ho : t.busy = 0 ∨ t.samples < NUM_SAMPLES := by
      by_cases hb : t.busy = 0
      · exact Or.inl hb
      · exact Or.inr (by_contra fun h => hcl ⟨hb, h⟩)
    obtain ⟨a1, a2, _⟩ := scan_other_sys env t ho
    exact ⟨a1, by rw [a2], fun _ => by rw [a2]⟩

/-- What a classifying call does to the classified channel and to the raised
codes, by the band of the current it classifies. -/
theorem scan_classify_effect (env : t_scanEnv) (t : ScanSys) (hb : t.busy ≠ 0)
    (hs : ¬ t.samples < NUM_SAMPLES) :
    (ADC_TO_I ((env.adcLocal % U16 : Nat) : ℚ) < MIN_CURRENT →
      (chGet t.sys.data t.channel).status ≠ t_chStatus.CH_OPEN →
      (t.channel < t.sys.data.chData.length →
        chGet (getAvgChannelCurrents env t).state.sys.data t.channel =
          { chGet t.sys.data t.channel with status := t_chStatus.CH_OPEN }) ∧
      (getAvgChannelCurrents env t).state.sys.raised =
        t.sys.raised ++ [t_error.WARN_REMOVED]) ∧
    (ADC_TO_I ((env.adcLocal % U16 : Nat) : ℚ) < MIN_CURRENT →
      (chGet t.sys.data t.channel).status = t_chStatus.CH_OPEN →
      (getAvgChannelCurrents env t).state.sys.data = t.sys.data ∧
      (getAvgChannelCurrents env t).state.sys.raised = t.sys.raised) ∧
    (¬ ADC_TO_I ((env.adcLocal % U16 : Nat) : ℚ) < MIN_CURRENT →
      ADC_TO_I ((env.adcLocal % U16 : Nat) : ℚ) > MAX_CURRENT →
      (t.channel < t.sys.data.chData.length →
        chGet (getAvgChannelCurrents env t).state.sys.data t.channel =
          { chGet t.sys.data t.channel with status := t_chStatus.CH_DISABLED }) ∧
      (getAvgChannelCurrents env t).state.sys.raised =
        t.sys.raised ++ [t_error.WARN_SHORT]) ∧
    (¬ ADC_TO_I ((env.adcLocal % U16 : Nat) : ℚ) < MIN_CURRENT →
      ¬ ADC_TO_I ((env.adcLocal % U16 : Nat) : ℚ) > MAX_CURRENT →
      (t.channel < t.sys.data.chData.length →
        chGet (getAvgChannelCurrents env t).state.sys.data t.channel =
          { chGet t.sys.data t.channel with
            current := ADC_TO_I ((env.adcLocal % U16 : Nat) : ℚ)
            Pmax := t.sys.data.voltage * ADC_TO_I ((env.adcLocal % U16 : Nat) : ℚ)
            DCreq := (t.sys.data.voltage * ADC_TO_I ((env.adcLocal % U16 : Nat) : ℚ)) /
              (chGet t.sys.data t.channel).Preq }) ∧
      (getAvgChannelCurrents env t).state.sys.raised = t.sys.raised) := by
  obtain ⟨_, a2, a3⟩ := scan_classify_sys env t hb hs
  obtain ⟨c1, c2, c3, c4⟩ := scanClassify_cases env.adcLocal t.channel
    { t.sys with pins := setSwitch t.channel OFF t.sys.pins }
  rw [a2, a3]
  refine ⟨?_, ?_, ?_, ?_⟩
  · intro h1 h2
    rw [c1 h1 h2]
    refine ⟨fun hl => ?_, rfl⟩
    simp [Outcome.state, chGet_chSet, hl]
  · intro h1 h2
    rw [c2 h1 h2]
    exact ⟨rfl, rfl⟩
  · intro h1 h2
    rw [c3 h1 h2]
    refine ⟨fun hl => ?_, rfl⟩
    simp [Outcome.state, chGet_chSet, hl]
  · intro h1 h2
    refine ⟨fun hl => ?_, ?_⟩
    · exact scanClassify_normal env.adcLocal t.channel
        { t.sys with pins := setSwitch t.channel OFF t.sys.pins } hl h1 h2
    · rw [c4 h1 h2]; rfl

/-- Where a scan stands before call `21 + c` (calls counted from 0) for
`c = 0..3`: busy on channel `c`, with the sample budget of channel 0 used up
and `samples` never reset. -/
theorem scan_control (envs : Nat → t_scanEnv) (s : ScanSys) (hb : s.busy = 0) (c : Nat)
    (hc : c ≤ 3) :
    ∃ t, scanCalls envs (21 + c) s = .returns t ∧ t.busy = 1 ∧ t.channel = c ∧
      t.samples = 20 + c := by
  induction c with
  | zero =>
    obtain ⟨t, a1, a2, a3, a4, _, _⟩ := scan_sampling envs s hb 20 (le_refl _)
    exact ⟨t, a1, a2, a3, a4⟩
  | succ j ih =>
    obtain ⟨t, h1, h2, h3, h4⟩ := ih (by omega)
    obtain ⟨u, b1, b2, _, _, b5, _⟩ :=
      scan_classify_progress envs (21 + j) s t h1 h2 (by omega) (by omega)
    obtain ⟨b3, b4, _⟩ := b5 (by omega)
    refine ⟨u, ?_, b3, ?_, ?_⟩
    · have : 21 + (j + 1) = 21 + j + 1 := by omega
      rw [this]; exact b1
    · rw [b4, h3]
    · rw [b2, h4]; omega

/-- Call `i` of a scan (`i` at most 24) is the start call for `i = 0`, a
sampling call for `1 ≤ i ≤ 20` and the call that classifies channel `i - 21`
for `21 ≤ i`. -/
theorem scan_call_kind (envs : Nat → t_scanEnv) (s : ScanSys) (hb : s.busy = 0) (i : Nat)
    (hi : i ≤ 24) :
    ∃ t, scanCalls envs i s = .returns t ∧
      (i = 0 → t.busy = 0) ∧
      (1 ≤ i → i ≤ 20 → t.busy = 1 ∧ t.samples < NUM_SAMPLES) ∧
      (21 ≤ i → t.busy = 1 ∧ ¬ t.samples < NUM_SAMPLES ∧ t.channel = i - 21) := by
  by_cases h0 : i = 0
  · subst h0
    exact ⟨s, rfl, fun _ => hb, fun h _ => absurd h (by omega), fun h => absurd h (by omega)⟩
  · by_cases h20 : i ≤ 20
    · obtain ⟨t, a1, a2, _, a4, _, _⟩ := scan_sampling envs s hb (i - 1) (by omega)
      have e : i - 1 + 1 = i := by omega
      rw [e] at a1
      refine ⟨t, a1, fun h => absurd h h0, fun _ _ => ⟨a2, ?_⟩, fun h => absurd h (by omega)⟩
      rw [a4]; unfold NUM_SAMPLES; omega
    · obtain ⟨t, a1, a2, a3, a4⟩ := scan_control envs s hb (i - 21) (by omega)
      have e : 21 + (i - 21) = i := by omega
      rw [e] at a1
      refine ⟨t, a1, fun h => absurd h h0, fun _ h => absurd h h20, fun _ => ⟨a2, ?_, a3⟩⟩
      rw [a4]; unfold NUM_SAMPLES; omega

theorem scanCalls_add (envs : Nat → t_scanEnv) (n m : Nat) (s t : ScanSys)
    (h : scanCalls envs n s = .returns t) :
    scanCalls envs (n + m) s = scanCalls (fun i => envs (n + i)) m t := by
  induction m with
  | zero => exact h
  | succ j ih =>
    have e : n + (j + 1) = n + j + 1 := by omega
    rw [e]
    simp only [scanCalls, ih]

/-- Within one scan the record of channel `k` and the number of channels are
the same before call `a` and before call `b` when none of the calls `a` to
`b - 1` is the call `21 + k` that classifies `k`. -/
theorem scan_keeps_channel (envs : Nat → t_scanEnv) (s : ScanSys) (hb : s.busy = 0)
    (k a n : Nat) (hn : a + n ≤ 25) (hne : ∀ i, a ≤ i → i < a + n → i ≠ 21 + k)
    (ta : ScanSys) (ha : scanCalls envs a s = .returns ta) :
    ∃ tb, scanCalls envs (a + n) s = .returns tb ∧
      chGet tb.sys.data k = chGet ta.sys.data k ∧
      tb.sys.data.chData.length = ta.sys.data.chData.length := by
  induction n with
  | zero => exact ⟨ta, ha, rfl, rfl⟩
  | succ j ih =>
    obtain ⟨t, h1, h2, h3⟩ := ih (by omega) (fun i hi1 hi2 => hne i hi1 (by omega))
    obtain ⟨t2, c1, c2, c3, c4⟩ := scan_call_kind envs s hb (a + j) (by omega)
    have et : t2 = t := Outcome.returns.inj (c1.symm.trans h1)
    subst et
    obtain ⟨d1, d2, d3⟩ := scan_step_other_channel (envs (a + j)) t2 k
    have hkind : t2.busy = 0 ∨ t2.samples < NUM_SAMPLES ∨ t2.channel ≠ k := by
      by_cases h0 : a + j = 0
      · exact Or.inl (c2 h0)
      · by_cases h20 : a + j ≤ 20
        · exact Or.inr (Or.inl (c3 (by omega) h20).2)
        · refine Or.inr (Or.inr ?_)
          rw [(c4 (by omega)).2.2]
          have := hne (a + j) (by omega) (by omega)
          omega
    have hstep : scanCalls envs (a + (j + 1)) s =
        .returns (getAvgChannelCurrents (envs (a + j)) t2).state := by
      have e : a + (j + 1) = a + j + 1 := by omega
      rw [e, scanCalls_succ envs (a + j) s t2 h1]
      cases hg : getAvgChannelCurrents (envs (a + j)) t2 with
      | returns x => rfl
      | halts x => rw [hg] at d1; cases d1
    exact ⟨_, hstep, (d3 hkind).trans h2, d2.trans h3⟩

/-- A call never halts: its outcome is the `returns` of its state. -/
theorem scan_step_returns (env : t_scanEnv) (t : ScanSys) :
    getAvgChannelCurrents env t = .returns (getAvgChannelCurrents env t).state := by
  have h := (scan_step_other_channel env t 0).1
  cases hg : getAvgChannelCurrents env t with
  | returns x => rfl
  | halts x => rw [hg] at h; cases h

/-- Status of channel `j` after the classification chain has run for channel
`ch`, by branch. -/
theorem scanClassify_status (adc ch j : Nat) (s : Sys) :
    (ADC_TO_I ((adc % U16 : Nat) : ℚ) < MIN_CURRENT →
      (chGet s.data ch).status ≠ t_chStatus.CH_OPEN →
      (scanClassify adc ch s).state.raised = s.raised ++ [t_error.WARN_REMOVED] ∧
      (chGet (scanClassify adc ch s).state.data j).status =
        if ch = j ∧ ch < s.data.chData.length then t_chStatus.CH_OPEN
        else (chGet s.data j).status) ∧
    (ADC_TO_I ((adc % U16 : Nat) : ℚ) < MIN_CURRENT →
      (chGet s.data ch).status = t_chStatus.CH_OPEN →
      (scanClassify adc ch s).state.raised = s.raised ∧
      (scanClassify adc ch s).state.data = s.data) ∧
    (¬ ADC_TO_I ((adc % U16 : Nat) : ℚ) < MIN_CURRENT →
      ADC_TO_I ((adc % U16 : Nat) : ℚ) > MAX_CURRENT →
      (scanClassify adc ch s).state.raised = s.raised ++ [t_error.WARN_SHORT] ∧
      (chGet (scanClassify adc ch s).state.data j).status =
        if ch = j ∧ ch < s.data.chData.length then t_chStatus.CH_DISABLED
        else (chGet s.data j).status) ∧
    (¬ ADC_TO_I ((adc % U16 : Nat) : ℚ) < MIN_CURRENT →
      ¬ ADC_TO_I ((adc % U16 : Nat) : ℚ) > MAX_CURRENT →
      (scanClassify adc ch s).state.raised = s.raised ∧
      (chGet (scanClassify adc ch s).state.data j).status = (chGet s.data j).status) := by
  obtain ⟨c1, c2, c3, c4⟩ := scanClassify_cases adc ch s
  refine ⟨?_, ?_, ?_, ?_⟩
  · intro h1 h2
    rw [c1 h1 h2]
    refine ⟨rfl, ?_⟩
    simp only [Outcome.state, chGet_chSet]
    split <;> rfl
  · intro h1 h2
    rw [c2 h1 h2]
    exact ⟨rfl, rfl⟩
  · intro h1 h2
    rw [c3 h1 h2]
    refine ⟨rfl, ?_⟩
    simp only [Outcome.state, chGet_chSet]
    split <;> rfl
  · intro h1 h2
    rw [c4 h1 h2]
    refine ⟨rfl, ?_⟩
    by_cases h : ch = j ∧ ch < s.data.chData.length
    · obtain ⟨rfl, hl⟩ := h
      simp [Outcome.state, chGet_chSet, chSet_length, hl]
    · simp only [Outcome.state, chGet_chSet, chSet_length, h, if_false]

/-- C14: for every channel `k` whose status is On when a scan starts from the
not-busy state: when that scan classifies its current as below MIN_CURRENT
(call `21 + k`, counted from 0), `getAvgChannelCurrents` sets the status to
Open and raises WARN_REMOVED exactly once; the status stays Open through every
following call of that scan and of the next scan; and when the next scan
classifies the channel again as below MIN_CURRENT (call `46 + k`), the status
stays Open and that call raises nothing and changes nothing in the aggregate. -/
theorem scan_channel_removed_once (envs : Nat → t_scanEnv) (s : ScanSys) (k : Nat)
    (hb : s.busy = 0) (hk : k ≤ 3) (hl : k < s.sys.data.chData.length)
    (hon : (chGet s.sys.data k).status = t_chStatus.ON)
    (hlow1 : ADC_TO_I (((envs (21 + k)).adcLocal % U16 : Nat) : ℚ) < MIN_CURRENT)
    (hlow2 : ADC_TO_I (((envs (46 + k)).adcLocal % U16 : Nat) : ℚ) < MIN_CURRENT) :
    ∃ a b c d, scanCalls envs (21 + k) s = .returns a ∧
      scanCalls envs (22 + k) s = .returns b ∧
      scanCalls envs (46 + k) s = .returns c ∧
      scanCalls envs (47 + k) s = .returns d ∧
      a.busy = 1 ∧ a.channel = k ∧ ¬ a.samples < NUM_SAMPLES ∧
      (chGet a.sys.data k).status = t_chStatus.ON ∧
      (chGet b.sys.data k).status = t_chStatus.CH_OPEN ∧
      b.sys.raised = a.sys.raised ++ [t_error.WARN_REMOVED] ∧
      (∀ m, 22 + k ≤ m → m ≤ 47 + k →
        ∃ t, scanCalls envs m s = .returns t ∧
          (chGet t.sys.data k).status = t_chStatus.CH_OPEN) ∧
      c.busy = 1 ∧ c.channel = k ∧ ¬ c.samples < NUM_SAMPLES ∧
      (chGet c.sys.data k).status = t_chStatus.CH_OPEN ∧
      d.sys.raised = c.sys.raised ∧ d.sys.data = c.sys.data := by
  -- first scan, up to the call that classifies `k`
  obtain ⟨a, a1, a2, a3, a4⟩ := scan_control envs s hb k hk
  have hba : a.busy ≠ 0 := by rw [a2]; decide
  have hsa : ¬ a.samples < NUM_SAMPLES := by rw [a4]; unfold NUM_SAMPLES; omega
  obtain ⟨a0, p1, p2, p3⟩ := scan_keeps_channel envs s hb k 0 (21 + k) (by omega)
    (fun i _ hi => by omega) s rfl
  have ea : a0 = a := by
    have e : 0 + (21 + k) = 21 + k := by omega
    rw [e] at p1
    exact Outcome.returns.inj (p1.symm.trans a1)
  subst ea
  have hla : k < a0.sys.data.chData.length := by rw [p3]; exact hl
  have hona : (chGet a0.sys.data k).status = t_chStatus.ON := by rw [p2]; exact hon
  -- the classifying call
  have hb1 : scanCalls envs (22 + k) s =
      .returns (getAvgChannelCurrents (envs (21 + k)) a0).state := by
    have e : 22 + k = 21 + k + 1 := by omega
    rw [e, scanCalls_succ envs (21 + k) s a0 a1]
    exact scan_step_returns _ _
  obtain ⟨e1, _, _, _⟩ := scan_classify_effect (envs (21 + k)) a0 hba hsa
  rw [a3] at e1
  obtain ⟨q1, q2⟩ := e1 hlow1 (by rw [hona]; decide)
  have hopenb : (chGet (getAvgChannelCurrents (envs (21 + k)) a0).state.sys.data k).status =
      t_chStatus.CH_OPEN := by rw [q1 hla]
  have hlenb : (getAvgChannelCurrents (envs (21 + k)) a0).state.sys.data.chData.length =
      s.sys.data.chData.length := by
    rw [(scan_step_other_channel (envs (21 + k)) a0 0).2.1, p3]
  -- rest of the first scan
  have hrange1 : ∀ n, 22 + k + n ≤ 25 → ∃ t, scanCalls envs (22 + k + n) s = .returns t ∧
      (chGet t.sys.data k).status = t_chStatus.CH_OPEN ∧
      t.sys.data.chData.length = s.sys.data.chData.length := by
    intro n hn
    obtain ⟨t, r1, r2, r3⟩ := scan_keeps_channel envs s hb k (22 + k) n hn
      (fun i hi _ => by omega) _ hb1
    exact ⟨t, r1, by rw [r2]; exact hopenb, by rw [r3]; exact hlenb⟩
  obtain ⟨t25, s1, s2, s3⟩ := hrange1 (3 - k) (by omega)
  have e25 : 22 + k + (3 - k) = 25 := by omega
  rw [e25] at s1
  obtain ⟨t25b, u1, u2, _⟩ := (scan_complete envs s hb).2.1
  have et : t25b = t25 := Outcome.returns.inj (u1.symm.trans s1)
  subst et
  -- the next scan, from the state after call 24
  have hshift : ∀ m, scanCalls envs (25 + m) s = scanCalls (fun i => envs (25 + i)) m t25b :=
    fun m => scanCalls_add envs 25 m s t25b s1
  obtain ⟨c, c1, c2, c3, c4⟩ := scan_control (fun i => envs (25 + i)) t25b u2 k hk
  have hbc : c.busy ≠ 0 := by rw [c2]; decide
  have hsc : ¬ c.samples < NUM_SAMPLES := by rw [c4]; unfold NUM_SAMPLES; omega
  have hrange2 : ∀ n, n ≤ 21 + k →
      ∃ t, scanCalls (fun i => envs (25 + i)) n t25b = .returns t ∧
        (chGet t.sys.data k).status = t_chStatus.CH_OPEN := by
    intro n hn
    obtain ⟨t, r1, r2, _⟩ := scan_keeps_channel (fun i => envs (25 + i)) t25b u2 k 0 n
      (by omega) (fun i _ hi => by omega) t25b rfl
    have e : 0 + n = n := by omega
    rw [e] at r1
    exact ⟨t, r1, by rw [r2]; exact s2⟩
  obtain ⟨c0, v1, v2⟩ := hrange2 (21 + k) (le_refl _)
  have ec : c0 = c := Outcome.returns.inj (v1.symm.trans c1)
  subst ec
  obtain ⟨_, f2, _, _⟩ := scan_classify_effect (envs (25 + (21 + k))) c0 hbc hsc
  have e46 : 25 + (21 + k) = 46 + k := by omega
  rw [e46, c3] at f2
  obtain ⟨g1, g2⟩ := f2 hlow2 v2
  have hc46 : scanCalls envs (46 + k) s = .returns c0 := by
    rw [← e46, hshift]; exact c1
  have hd47 : scanCalls envs (47 + k) s =
      .returns (getAvgChannelCurrents (envs (46 + k)) c0).state := by
    have e : 47 + k = 46 + k + 1 := by omega
    rw [e, scanCalls_succ envs (46 + k) s c0 hc46]
    exact scan_step_returns _ _
  refine ⟨a0, _, c0, _, a1, hb1, hc46, hd47, a2, a3, hsa, hona, hopenb, q2, ?_,
    c2, c3, hsc, v2, g2, g1⟩
  intro m hm1 hm2
  by_cases h25 : m ≤ 25
  · obtain ⟨t, r1, r2, _⟩ := hrange1 (m - (22 + k)) (by omega)
    have e : 22 + k + (m - (22 + k)) = m := by omega
    rw [e] at r1
    exact ⟨t, r1, r2⟩
  · by_cases h46 : m ≤ 46 + k
    · obtain ⟨t, r1, r2⟩ := hrange2 (m - 25) (by omega)
      have e : m = 25 + (m - 25) := by omega
      refine ⟨t, ?_, r2⟩
      rw [e, hshift]; exact r1
    · have e : m = 47 + k := by omega
      subst e
      exact ⟨_, hd47, by rw [g1]; exact v2⟩

theorem scan_channel_removed_once_witness :
    (sampleScan t_chStatus.ON 5 0 0 0 0).busy = 0 ∧
    2 < (sampleScan t_chStatus.ON 5 0 0 0 0).sys.data.chData.length ∧
    (chGet (sampleScan t_chStatus.ON 5 0 0 0 0).sys.data 2).status = t_chStatus.ON ∧
    ADC_TO_I (((0 : Nat) % U16 : Nat) : ℚ) < MIN_CURRENT ∧
    (∃ a b c d, scanCalls (fun _ => ⟨0, 1000⟩) (21 + 2) (sampleScan t_chStatus.ON 5 0 0 0 0)
        = .returns a ∧
      scanCalls (fun _ => ⟨0, 1000⟩) (22 + 2) (sampleScan t_chStatus.ON 5 0 0 0 0)
        = .returns b ∧
      scanCalls (fun _ => ⟨0, 1000⟩) (46 + 2) (sampleScan t_chStatus.ON 5 0 0 0 0)
        = .returns c ∧
      scanCalls (fun _ => ⟨0, 1000⟩) (47 + 2) (sampleScan t_chStatus.ON 5 0 0 0 0)
        = .returns d ∧
      (chGet b.sys.data 2).status = t_chStatus.CH_OPEN ∧
      b.sys.raised = a.sys.raised ++ [t_error.WARN_REMOVED] ∧
      d.sys.raised = c.sys.raised) :=
  have hl : 2 < (sampleScan t_chStatus.ON 5 0 0 0 0).sys.data.chData.length := by decide
  have hon : (chGet (sampleScan t_chStatus.ON 5 0 0 0 0).sys.data 2).status = t_chStatus.ON := by
    decide
  have hlow : ADC_TO_I (((0 : Nat) % U16 : Nat) : ℚ) < MIN_CURRENT := by
    norm_num [ADC_TO_I, MIN_CURRENT, U16]
  ⟨rfl, hl, hon, hlow,
    match scan_channel_removed_once (fun _ => ⟨0, 1000⟩) (sampleScan t_chStatus.ON 5 0 0 0 0) 2
      rfl (by decide) hl hon hlow hlow with
    | ⟨a, b, c, d, h1, h2, h3, h4, _, _, _, _, h9, h10, _, _, _, _, _, h16, _⟩ =>
      ⟨a, b, c, d, h1, h2, h3, h4, h9, h10, h16⟩⟩

/-- C15 (claim as stated fails): channel 0 is Disabled; the call that
classifies it with a current below MIN_CURRENT (local `adc` = 0) sets its
status to Open and raises WARN_REMOVED. -/
theorem scan_disabled_becomes_open :
    (chGet (sampleScan t_chStatus.CH_DISABLED 5 0 0 20 1).sys.data 0).status =
      t_chStatus.CH_DISABLED ∧
    (chGet (getAvgChannelCurrents ⟨0, 0⟩
      (sampleScan t_chStatus.CH_DISABLED 5 0 0 20 1)).state.sys.data 0).status =
      t_chStatus.CH_OPEN ∧
    (getAvgChannelCurrents ⟨0, 0⟩
      (sampleScan t_chStatus.CH_DISABLED 5 0 0 20 1)).state.sys.raised =
      [t_error.WARN_REMOVED] := by
  have hb : (sampleScan t_chStatus.CH_DISABLED 5 0 0 20 1).busy ≠ 0 := by decide
  have hs : ¬ (sampleScan t_chStatus.CH_DISABLED 5 0 0 20 1).samples < NUM_SAMPLES := by decide
  have hlow : ADC_TO_I (((0 : Nat) % U16 : Nat) : ℚ) < MIN_CURRENT := by
    norm_num [ADC_TO_I, MIN_CURRENT, U16]
  obtain ⟨_, a2, a3⟩ := scan_classify_sys ⟨0, 0⟩ _ hb hs
  obtain ⟨k1, k2⟩ := (scanClassify_status 0 0 0
    { (sampleScan t_chStatus.CH_DISABLED 5 0 0 20 1).sys with
      pins := setSwitch 0 OFF (sampleScan t_chStatus.CH_DISABLED 5 0 0 20 1).sys.pins }).1
    hlow (by decide)
  refine ⟨by decide, ?_, ?_⟩
  · rw [a2]
    exact k2.trans (if_pos ⟨rfl, by decide⟩)
  · rw [a3]
    exact k1

/-- C15 (amended): for every call of `getAvgChannelCurrents` and every channel
whose status is Disabled before the call, the status is still Disabled after
the call unless the call classifies that very channel with a current below
MIN_CURRENT (0.05 A); in that case the status becomes Open and WARN_REMOVED is
raised. -/
theorem scan_disabled_unless_low (env : t_scanEnv) (s : ScanSys) (j : Nat)
    (hj : j < s.sys.data.chData.length)
    (hd : (chGet s.sys.data j).status = t_chStatus.CH_DISABLED) :
    (getAvgChannelCurrents env s).halted = false ∧
    ((s.busy ≠ 0 ∧ ¬ s.samples < NUM_SAMPLES ∧ s.channel = j ∧
        ADC_TO_I ((env.adcLocal % U16 : Nat) : ℚ) < MIN_CURRENT) →
      (chGet (getAvgChannelCurrents env s).state.sys.data j).status = t_chStatus.CH_OPEN ∧
      (getAvgChannelCurrents env s).state.sys.raised =
        s.sys.raised ++ [t_error.WARN_REMOVED]) ∧
    (¬ (s.busy ≠ 0 ∧ ¬ s.samples < NUM_SAMPLES ∧ s.channel = j ∧
        ADC_TO_I ((env.adcLocal % U16 : Nat) : ℚ) < MIN_CURRENT) →
      (chGet (getAvgChannelCurrents env s).state.sys.data j).status =
        t_chStatus.CH_DISABLED) := by
  by_cases hcl : s.busy ≠ 0 ∧ ¬ s.samples < NUM_SAMPLES
  · obtain ⟨hb, hs⟩ := hcl
    obtain ⟨a1, a2, a3⟩ := scan_classify_sys env s hb hs
    obtain ⟨k1, k2, k3, k4⟩ := scanClassify_status env.adcLocal s.channel j
      { s.sys with pins := setSwitch s.channel OFF s.sys.pins }
    refine ⟨a1, ?_, ?_⟩
    · rintro ⟨_, _, hc, hlow⟩
      have hne : (chGet ({ s.sys with pins := setSwitch s.channel OFF s.sys.pins } : Sys).data
          s.channel).status ≠ t_chStatus.CH_OPEN := by
        show (chGet s.sys.data s.channel).status ≠ _
        rw [hc, hd]; decide
      obtain ⟨m1, m2⟩ := k1 hlow hne
      refine ⟨?_, ?_⟩
      · rw [a2, m2]
        exact if_pos ⟨hc, hc ▸ hj⟩
      · rw [a3, m1]
    · intro hn
      rw [a2]
      by_cases hlow : ADC_TO_I ((env.adcLocal % U16 : Nat) : ℚ) < MIN_CURRENT
      · have hc : ¬ s.channel = j := fun hc => hn ⟨hb, hs, hc, hlow⟩
        by_cases ho : (chGet ({ s.sys with
            pins := setSwitch s.channel OFF s.sys.pins } : Sys).data s.channel).status =
              t_chStatus.CH_OPEN
        · rw [(k2 hlow ho).2]; exact hd
        · rw [(k1 hlow ho).2, if_neg (fun h => hc h.1)]; exact hd
      · by_cases hhigh : ADC_TO_I ((env.adcLocal % U16 : Nat) : ℚ) > MAX_CURRENT
        · rw [(k3 hlow hhigh).2]
          split
          · rfl
          · exact hd
        · rw [(k4 hlow hhigh).2]; exact hd
  · have ho : s.busy = 0 ∨ s.samples < NUM_SAMPLES := by
      by_cases hb : s.busy = 0
      · exact Or.inl hb
      · exact Or.inr (by_contra fun h => hcl ⟨hb, h⟩)
    obtain ⟨a1, a2, _⟩ := scan_other_sys env s ho
    refine ⟨a1, ?_, ?_⟩
    · rintro ⟨hb, hs, _, _⟩
      exact absurd ⟨hb, hs⟩ hcl
    · intro _
      rw [a2]; exact hd

theorem scan_disabled_unless_low_witness :
    0 < (sampleScan t_chStatus.CH_DISABLED 5 0 0 20 1).sys.data.chData.length ∧
    (chGet (sampleScan t_chStatus.CH_DISABLED 5 0 0 20 1).sys.data 0).status =
      t_chStatus.CH_DISABLED ∧
    (getAvgChannelCurrents ⟨1000, 0⟩
      (sampleScan t_chStatus.CH_DISABLED 5 0 0 20 1)).halted = false :=
  have hj : 0 < (sampleScan t_chStatus.CH_DISABLED 5 0 0 20 1).sys.data.chData.length := by
    decide
  have hd : (chGet (sampleScan t_chStatus.CH_DISABLED 5 0 0 20 1).sys.data 0).status =
      t_chStatus.CH_DISABLED := by decide
  ⟨hj, hd, (scan_disabled_unless_low ⟨1000, 0⟩
    (sampleScan t_chStatus.CH_DISABLED 5 0 0 20 1) 0 hj hd).1⟩

/-- C16 (claim as stated fails): a channel with required power 1 W, bus voltage
12 V and a classified current of about 1 A (local `adc` = 512, within
MIN_CURRENT and MAX_CURRENT) gets the duty cycle 12 * I / 1, which is above 1;
and after `initGlobalData` the required power of a channel is 0. -/
theorem scan_duty_cycle_above_one :
    ¬ ADC_TO_I (((512 : Nat) % U16 : Nat) : ℚ) < MIN_CURRENT ∧
    ¬ ADC_TO_I (((512 : Nat) % U16 : Nat) : ℚ) > MAX_CURRENT ∧
    (chGet (sampleScan t_chStatus.ON 1 0 0 20 1).sys.data 0).Preq = 1 ∧
    (chGet (getAvgChannelCurrents ⟨512, 0⟩
      (sampleScan t_chStatus.ON 1 0 0 20 1)).state.sys.data 0).DCreq = 12 * (2560 / 2557.5) ∧
    (chGet (getAvgChannelCurrents ⟨512, 0⟩
      (sampleScan t_chStatus.ON 1 0 0 20 1)).state.sys.data 0).DCreq > 1 ∧
    (chGet (initGlobalData (sampleScan t_chStatus.ON 1 0 0 20 1).sys.data) 0).Preq = 0 := by
  have h1 : ¬ ADC_TO_I (((512 : Nat) % U16 : Nat) : ℚ) < MIN_CURRENT := by
    norm_num [ADC_TO_I, MIN_CURRENT, U16]
  have h2 : ¬ ADC_TO_I (((512 : Nat) % U16 : Nat) : ℚ) > MAX_CURRENT := by
    norm_num [ADC_TO_I, MAX_CURRENT, U16]
  have hb : (sampleScan t_chStatus.ON 1 0 0 20 1).busy ≠ 0 := by decide
  have hs : ¬ (sampleScan t_chStatus.ON 1 0 0 20 1).samples < NUM_SAMPLES := by decide
  obtain ⟨_, a2, _⟩ := scan_classify_sys ⟨512, 0⟩ _ hb hs
  have hdc : (chGet (getAvgChannelCurrents ⟨512, 0⟩
      (sampleScan t_chStatus.ON 1 0 0 20 1)).state.sys.data 0).DCreq = 12 * (2560 / 2557.5) := by
    rw [a2]
    have := scanClassify_normal 512 0
      { (sampleScan t_chStatus.ON 1 0 0 20 1).sys with
        pins := setSwitch 0 OFF (sampleScan t_chStatus.ON 1 0 0 20 1).sys.pins }
      (by decide) h1 h2
    have e : (sampleScan t_chStatus.ON 1 0 0 20 1).channel = 0 := rfl
    have e2 : (⟨512, 0⟩ : t_scanEnv).adcLocal = 512 := rfl
    rw [e, e2, this]
    norm_num [sampleScan, sampleSys, sampleCh, chGet, ADC_TO_I, U16]
  refine ⟨h1, h2, by decide, hdc, ?_, by decide⟩
  rw [hdc]; norm_num

/-- C16 (amended): for every state and every channel classified with a normal
current (MIN_CURRENT <= current <= MAX_CURRENT), `getAvgChannelCurrents`
records the current, sets Pmax = voltage * current and keeps Preq; when Preq is
not 0 it sets DCreq = Pmax / Preq. No bound is applied to DCreq: for Preq > 0
it lies in [0, 1] exactly when 0 <= Pmax <= Preq. -/
theorem scan_duty_cycle (env : t_scanEnv) (s : ScanSys) (hb : s.busy ≠ 0)
    (hs : ¬ s.samples < NUM_SAMPLES) (hl : s.channel < s.sys.data.chData.length)
    (h1 : ¬ ADC_TO_I ((env.adcLocal % U16 : Nat) : ℚ) < MIN_CURRENT)
    (h2 : ¬ ADC_TO_I ((env.adcLocal % U16 : Nat) : ℚ) > MAX_CURRENT) :
    (chGet (getAvgChannelCurrents env s).state.sys.data s.channel).current =
      ADC_TO_I ((env.adcLocal % U16 : Nat) : ℚ) ∧
    (chGet (getAvgChannelCurrents env s).state.sys.data s.channel).Pmax =
      s.sys.data.voltage * ADC_TO_I ((env.adcLocal % U16 : Nat) : ℚ) ∧
    (chGet (getAvgChannelCurrents env s).state.sys.data s.channel).Preq =
      (chGet s.sys.data s.channel).Preq ∧
    ((chGet s.sys.data s.channel).Preq ≠ 0 →
      (chGet (getAvgChannelCurrents env s).state.sys.data s.channel).DCreq =
        (chGet (getAvgChannelCurrents env s).state.sys.data s.channel).Pmax /
          (chGet (getAvgChannelCurrents env s).state.sys.data s.channel).Preq) ∧
    (0 < (chGet s.sys.data s.channel).Preq →
      ((0 ≤ (chGet (getAvgChannelCurrents env s).state.sys.data s.channel).DCreq ∧
          (chGet (getAvgChannelCurrents env s).state.sys.data s.channel).DCreq ≤ 1) ↔
        (0 ≤ (chGet (getAvgChannelCurrents env s).state.sys.data s.channel).Pmax ∧
          (chGet (getAvgChannelCurrents env s).state.sys.data s.channel).Pmax ≤
            (chGet s.sys.data s.channel).Preq))) := by
  obtain ⟨_, a2, _⟩ := scan_classify_sys env s hb hs
  have hn := scanClassify_normal env.adcLocal s.channel
    { s.sys with pins := setSwitch s.channel OFF s.sys.pins } hl h1 h2
  rw [a2, hn]
  refine ⟨rfl, rfl, rfl, fun _ => rfl, ?_⟩
  intro hpos
  show (0 ≤ _ / _ ∧ _ / _ ≤ 1) ↔ _
  have hpos2 : 0 < (chGet ({ s.sys with
      pins := setSwitch s.channel OFF s.sys.pins } : Sys).data s.channel).Preq := hpos
  rw [div_le_one hpos2]
  constructor
  · rintro ⟨p, q⟩
    refine ⟨?_, q⟩
    by_contra hneg
    have := div_neg_of_neg_of_pos (not_le.mp hneg) hpos2
    linarith
  · rintro ⟨p, q⟩
    exact ⟨div_nonneg p (le_of_lt hpos2), q⟩

theorem scan_duty_cycle_witness :
    (sampleScan t_chStatus.ON 20 0 0 20 1).busy ≠ 0 ∧
    ¬ (sampleScan t_chStatus.ON 20 0 0 20 1).samples < NUM_SAMPLES ∧
    (sampleScan t_chStatus.ON 20 0 0 20 1).channel <
      (sampleScan t_chStatus.ON 20 0 0 20 1).sys.data.chData.length ∧
    ¬ ADC_TO_I (((⟨512, 0⟩ : t_scanEnv).adcLocal % U16 : Nat) : ℚ) < MIN_CURRENT ∧
    ¬ ADC_TO_I (((⟨512, 0⟩ : t_scanEnv).adcLocal % U16 : Nat) : ℚ) > MAX_CURRENT ∧
    (chGet (getAvgChannelCurrents ⟨512, 0⟩
      (sampleScan t_chStatus.ON 20 0 0 20 1)).state.sys.data
        (sampleScan t_chStatus.ON 20 0 0 20 1).channel).Pmax =
      (sampleScan t_chStatus.ON 20 0 0 20 1).sys.data.voltage *
        ADC_TO_I (((⟨512, 0⟩ : t_scanEnv).adcLocal % U16 : Nat) : ℚ) :=
  have hb : (sampleScan t_chStatus.ON 20 0 0 20 1).busy ≠ 0 := by decide
  have hs : ¬ (sampleScan t_chStatus.ON 20 0 0 20 1).samples < NUM_SAMPLES := by decide
  have hl : (sampleScan t_chStatus.ON 20 0 0 20 1).channel <
      (sampleScan t_chStatus.ON 20 0 0 20 1).sys.data.chData.length := by decide
  have h1 : ¬ ADC_TO_I (((⟨512, 0⟩ : t_scanEnv).adcLocal % U16 : Nat) : ℚ) < MIN_CURRENT := by
    norm_num [ADC_TO_I, MIN_CURRENT, U16]
  have h2 : ¬ ADC_TO_I (((⟨512, 0⟩ : t_scanEnv).adcLocal % U16 : Nat) : ℚ) > MAX_CURRENT := by
    norm_num [ADC_TO_I, MAX_CURRENT, U16]
  ⟨hb, hs, hl, h1, h2,
    (scan_duty_cycle ⟨512, 0⟩ (sampleScan t_chStatus.ON 20 0 0 20 1) hb hs hl h1 h2).2.1⟩

/-- The running average during the sampling phase when every conversion
returns the same `c`: after `k` samples it is the `k`-fold smoothing of the
stored `cur` of channel 0 toward `c`. -/
theorem scan_sampling_avg (envs : Nat → t_scanEnv) (s : ScanSys) (hb : s.busy = 0) (c : Nat)
    (hc : ∀ n, (envs n).conversion = c) (k : Nat) (hk : k ≤ 20) :
    ∃ t, scanCalls envs (k + 1) s = .returns t ∧ t.busy = 1 ∧ t.channel = 0 ∧ t.samples = k ∧
      t.avg = emaIter (c % U16) (ALPHA 0.65) ((chGet s.sys.data 0).cur % U16) k ∧
      t.sys = { s.sys with pins := setSwitch 0 ON s.sys.pins } := by
  induction k with
  | zero =>
    rw [scanCalls_succ envs 0 s s rfl, scan_start_step _ _ hb]
    exact ⟨_, rfl, rfl, rfl, rfl, rfl, rfl⟩
  | succ j ih =>
    obtain ⟨t, h1, h2, h3, h4, h5, h6⟩ := ih (by omega)
    have hs : t.samples < NUM_SAMPLES := by rw [h4]; unfold NUM_SAMPLES; omega
    have hb2 : t.busy ≠ 0 := by rw [h2]; decide
    rw [scanCalls_succ envs (j + 1) s t h1, scan_sample_step _ _ hb2 hs]
    refine ⟨_, rfl, h2, h3, ?_, ?_, h6⟩
    · show (t.samples + 1) % 256 = j + 1
      rw [h4]; omega
    · show ema ((envs (j + 1)).conversion % U16) t.avg (ALPHA 0.65) = _
      rw [emaIter_succ, hc, h5]

/-- The system state a call leaves does not depend on the static `avg`. -/
theorem scan_sys_ignores_avg (env : t_scanEnv) (s : ScanSys) (a : Nat) :
    (getAvgChannelCurrents env { s with avg := a }).state.sys =
      (getAvgChannelCurrents env s).state.sys := by
  by_cases hb : s.busy = 0
  · rw [scan_start_step env s hb, scan_start_step env { s with avg := a } hb]
  · by_cases hs : s.samples < NUM_SAMPLES
    · rw [scan_sample_step env s hb hs, scan_sample_step env { s with avg := a } hb hs]
      simp only [Outcome.state]
    · rw [scan_classify_step env s hb hs _ (scanClassify_total _ _ _),
        scan_classify_step env { s with avg := a } hb hs _ (scanClassify_total _ _ _)]
      by_cases hc : s.channel < NUM_CHANNELS - 1
      · have hc2 : ({ s with avg := a } : ScanSys).channel < NUM_CHANNELS - 1 := hc
        rw [if_pos hc, if_pos hc2]
      · have hc2 : ¬ ({ s with avg := a } : ScanSys).channel < NUM_CHANNELS - 1 := hc
        rw [if_neg hc, if_neg hc2]
        simp only [Outcome.state]

/-- C18 (the code at the failing input, and at every input): a complete scan
from the not-busy state takes 25 calls and issues exactly the hardware actions
of `scanTrace`; they hold 20 conversions while channel 0 is on and none while
channel 1, 2 or 3 is on, because `samples` is not reset when the scan moves to
the next channel. -/
theorem scan_samples_only_channel_zero :
    (∃ t, scanCalls (fun _ => ⟨0, 1000⟩) 25 (sampleScan t_chStatus.ON 5 0 0 0 0) = .returns t ∧
      t.busy = 0 ∧ t.events = scanTrace) ∧
    (∀ (envs : Nat → t_scanEnv) (s : ScanSys), s.busy = 0 →
      ∃ t, scanCalls envs 25 s = .returns t ∧ t.busy = 0 ∧ t.events = s.events ++ scanTrace) ∧
    samplesOf 0 scanTrace = 20 ∧ samplesOf 1 scanTrace = 0 ∧ samplesOf 2 scanTrace = 0 ∧
    samplesOf 3 scanTrace = 0 ∧ conversions scanTrace = 20 := by
  refine ⟨?_, fun envs s hb => (scan_complete envs s hb).2.1, by decide, by decide, by decide,
    by decide, by decide⟩
  obtain ⟨t, h1, h2, h3⟩ :=
    (scan_complete (fun _ => ⟨0, 1000⟩) (sampleScan t_chStatus.ON 5 0 0 0 0) rfl).2.1
  exact ⟨t, h1, h2, h3⟩

/-- C20: every scan terminates. From the not-busy state, for every system state
and every sequence of conversion results, each of the first 24 calls of
`getAvgChannelCurrents` returns busy = 1 and the 25th returns busy = 0; the 26th
call starts a new scan at channel 0. During the scan the channels 0, 1, 2, 3
are classified exactly once each, in that order: the calls 0 to 20 (counted
from 0) leave the aggregate and the raised codes alone, and call `21 + c`
(`c = 0..3`) is made on channel `c` and applies the classification chain to
that channel and to no other: below MIN_CURRENT it sets a channel that is not
Open to Open and raises WARN_REMOVED (an Open channel is left alone); above
MAX_CURRENT it sets the channel to Disabled and raises WARN_SHORT; otherwise it
records the current, Pmax and DCreq and raises nothing. -/
theorem scan_terminates (envs : Nat → t_scanEnv) (s : ScanSys) (hb : s.busy = 0) :
    (∀ k, 1 ≤ k → k ≤ 24 → ∃ t, scanCalls envs k s = .returns t ∧ t.busy = 1) ∧
    (∃ t, scanCalls envs 25 s = .returns t ∧ t.busy = 0 ∧
      t.events = s.events ++ scanTrace ∧ classifiedChannels scanTrace = [0, 1, 2, 3]) ∧
    (∃ t, scanCalls envs 26 s = .returns t ∧ t.busy = 1 ∧ t.channel = 0 ∧ t.samples = 0 ∧
      t.events = s.events ++ scanTrace ++ [t_scanEvent.switch 0 ON]) ∧
    (∀ i, i ≤ 21 → ∃ t, scanCalls envs i s = .returns t ∧
      t.sys.data = s.sys.data ∧ t.sys.raised = s.sys.raised) ∧
    (∀ c, c ≤ 3 → ∃ t u, scanCalls envs (21 + c) s = .returns t ∧
      scanCalls envs (22 + c) s = .returns u ∧
      t.busy = 1 ∧ t.channel = c ∧ ¬ t.samples < NUM_SAMPLES ∧
      u.sys.data.chData.length = t.sys.data.chData.length ∧
      (∀ j, j ≠ c → chGet u.sys.data j = chGet t.sys.data j) ∧
      (ADC_TO_I (((envs (21 + c)).adcLocal % U16 : Nat) : ℚ) < MIN_CURRENT →
        (chGet t.sys.data c).status ≠ t_chStatus.CH_OPEN →
        (c < t.sys.data.chData.length →
          chGet u.sys.data c = { chGet t.sys.data c with status := t_chStatus.CH_OPEN }) ∧
        u.sys.raised = t.sys.raised ++ [t_error.WARN_REMOVED]) ∧
      (ADC_TO_I (((envs (21 + c)).adcLocal % U16 : Nat) : ℚ) < MIN_CURRENT →
        (chGet t.sys.data c).status = t_chStatus.CH_OPEN →
        u.sys.data = t.sys.data ∧ u.sys.raised = t.sys.raised) ∧
      (¬ ADC_TO_I (((envs (21 + c)).adcLocal % U16 : Nat) : ℚ) < MIN_CURRENT →
        ADC_TO_I (((envs (21 + c)).adcLocal % U16 : Nat) : ℚ) > MAX_CURRENT →
        (c < t.sys.data.chData.length →
          chGet u.sys.data c =
            { chGet t.sys.data c with status := t_chStatus.CH_DISABLED }) ∧
        u.sys.raised = t.sys.raised ++ [t_error.WARN_SHORT]) ∧
      (¬ ADC_TO_I (((envs (21 + c)).adcLocal % U16 : Nat) : ℚ) < MIN_CURRENT →
        ¬ ADC_TO_I (((envs (21 + c)).adcLocal % U16 : Nat) : ℚ) > MAX_CURRENT →
        (c < t.sys.data.chData.length →
          chGet u.sys.data c =
            { chGet t.sys.data c with
              current := ADC_TO_I (((envs (21 + c)).adcLocal % U16 : Nat) : ℚ)
              Pmax := t.sys.data.voltage *
                ADC_TO_I (((envs (21 + c)).adcLocal % U16 : Nat) : ℚ)
              DCreq := (t.sys.data.voltage *
                ADC_TO_I (((envs (21 + c)).adcLocal % U16 : Nat) : ℚ)) /
                  (chGet t.sys.data c).Preq }) ∧
        u.sys.raised = t.sys.raised)) := by
  obtain ⟨a, ⟨t, b1, b2, b3⟩, c⟩ := scan_complete envs s hb
  refine ⟨a, ⟨t, b1, b2, b3, by decide⟩, c, ?_, ?_⟩
  · intro i hi
    by_cases h0 : i = 0
    · subst h0
      exact ⟨s, rfl, rfl, rfl⟩
    · obtain ⟨t, a1, _, _, _, _, a6⟩ := scan_sampling envs s hb (i - 1) (by omega)
      have e : i - 1 + 1 = i := by omega
      rw [e] at a1
      refine ⟨t, a1, ?_, ?_⟩
      · rw [a6]
      · rw [a6]
  · intro c hc
    obtain ⟨t, h1, h2, h3, h4⟩ := scan_control envs s hb c hc
    have hb2 : t.busy ≠ 0 := by rw [h2]; decide
    have hs : ¬ t.samples < NUM_SAMPLES := by rw [h4]; unfold NUM_SAMPLES; omega
    have hstep : scanCalls envs (22 + c) s =
        .returns (getAvgChannelCurrents (envs (21 + c)) t).state := by
      have e : 22 + c = 21 + c + 1 := by omega
      rw [e, scanCalls_succ envs (21 + c) s t h1]
      exact scan_step_returns _ _
    obtain ⟨_, d2, d3⟩ := scan_step_other_channel (envs (21 + c)) t 0
    obtain ⟨e1, e2, e3, e4⟩ := scan_classify_effect (envs (21 + c)) t hb2 hs
    rw [h3] at e1 e2 e3 e4
    refine ⟨t, _, h1, hstep, h2, h3, hs, d2, ?_, e1, e2, e3, e4⟩
    intro j hj
    exact (scan_step_other_channel (envs (21 + c)) t j).2.2
      (Or.inr (Or.inr (by rw [h3]; exact fun e => hj e.symm)))

theorem scan_terminates_witness :
    (sampleScan t_chStatus.ON 5 0 0 0 0).busy = 0 ∧
    (∃ t, scanCalls (fun _ => ⟨0, 1000⟩) 25 (sampleScan t_chStatus.ON 5 0 0 0 0) = .returns t ∧
      t.busy = 0 ∧ t.events = (sampleScan t_chStatus.ON 5 0 0 0 0).events ++ scanTrace ∧
      classifiedChannels scanTrace = [0, 1, 2, 3]) :=
  ⟨rfl, (scan_terminates (fun _ => ⟨0, 1000⟩) (sampleScan t_chStatus.ON 5 0 0 0 0) rfl).2.1⟩

/-- C19 (the code at the failing input): channel 0 is On and every conversion
reads 1000 counts, so after its 20 samples the smoothed average held in `avg`
is 1000 counts, a normal current of about 1.96 A. The classifying call does not
look at `avg`: it converts the automatic local `adc`, here 0 on entry, finds a
current below MIN_CURRENT, sets the channel to Open, raises WARN_REMOVED and
records no current. With 1000 in the local the same state is classified as
normal. In general the system state a call leaves is the same for every value
of `avg`. -/
theorem scan_classifies_local_not_average :
    (∃ t, scanCalls (fun _ => ⟨0, 1000⟩) 21 (sampleScan t_chStatus.ON 5 0 0 0 0) = .returns t ∧
      t.busy = 1 ∧ t.channel = 0 ∧ t.samples = 20 ∧ t.avg = 1000) ∧
    (¬ ADC_TO_I (((1000 : Nat) % U16 : Nat) : ℚ) < MIN_CURRENT ∧
      ¬ ADC_TO_I (((1000 : Nat) % U16 : Nat) : ℚ) > MAX_CURRENT) ∧
    (∃ u, scanCalls (fun _ => ⟨0, 1000⟩) 22 (sampleScan t_chStatus.ON 5 0 0 0 0) = .returns u ∧
      (chGet u.sys.data 0).status = t_chStatus.CH_OPEN ∧
      (chGet u.sys.data 0).current = 0 ∧
      u.sys.raised = [t_error.WARN_REMOVED]) ∧
    ((chGet (getAvgChannelCurrents ⟨1000, 1000⟩
        (sampleScan t_chStatus.ON 5 1000 0 20 1)).state.sys.data 0).status = t_chStatus.ON ∧
      (chGet (getAvgChannelCurrents ⟨1000, 1000⟩
        (sampleScan t_chStatus.ON 5 1000 0 20 1)).state.sys.data 0).current =
          ADC_TO_I (((1000 : Nat) % U16 : Nat) : ℚ)) ∧
    (∀ (env : t_scanEnv) (s : ScanSys) (a : Nat),
      (getAvgChannelCurrents env { s with avg := a }).state.sys =
        (getAvgChannelCurrents env s).state.sys) := by
  have hn1 : ¬ ADC_TO_I (((1000 : Nat) % U16 : Nat) : ℚ) < MIN_CURRENT := by
    norm_num [ADC_TO_I, MIN_CURRENT, U16]
  have hn2 : ¬ ADC_TO_I (((1000 : Nat) % U16 : Nat) : ℚ) > MAX_CURRENT := by
    norm_num [ADC_TO_I, MAX_CURRENT, U16]
  have hlow : ADC_TO_I (((0 : Nat) % U16 : Nat) : ℚ) < MIN_CURRENT := by
    norm_num [ADC_TO_I, MIN_CURRENT, U16]
  obtain ⟨t, h1, h2, h3, h4, h5, h6⟩ :=
    scan_sampling_avg (fun _ => ⟨0, 1000⟩) (sampleScan t_chStatus.ON 5 0 0 0 0) rfl 1000
      (fun _ => rfl) 20 (le_refl _)
  have havg : t.avg = 1000 := by
    have e1 : 1000 % U16 = 1000 := by decide
    have e2 : (chGet (sampleScan t_chStatus.ON 5 0 0 0 0).sys.data 0).cur % U16 = 0 := by decide
    have h8 : emaIter 1000 42597 0 8 = 1000 := by decide
    rw [h5, ALPHA_065, e1, e2, show 20 = 8 + 12 from rfl, emaIter_add, h8]
    exact emaIter_fixed 1000 42597 (by decide) (by decide) 12
  refine ⟨⟨t, h1, h2, h3, h4, havg⟩, ⟨hn1, hn2⟩, ?_, ?_, scan_sys_ignores_avg⟩
  · have hb : t.busy ≠ 0 := by rw [h2]; decide
    have hs : ¬ t.samples < NUM_SAMPLES := by rw [h4]; decide
    obtain ⟨a1, a2, a3⟩ := scan_classify_sys ⟨0, 1000⟩ t hb hs
    have hret : scanCalls (fun _ => ⟨0, 1000⟩) 22 (sampleScan t_chStatus.ON 5 0 0 0 0) =
        .returns (getAvgChannelCurrents ⟨0, 1000⟩ t).state := by
      rw [scanCalls_succ _ 21 _ t h1]
      cases hg : getAvgChannelCurrents ⟨0, 1000⟩ t with
      | returns x => rfl
      | halts x => rw [hg] at a1; cases a1
    have hcase := (scanClassify_cases 0 0
      { (sampleScan t_chStatus.ON 5 0 0 0 0).sys with
        pins := setSwitch 0 OFF
          (setSwitch 0 ON (sampleScan t_chStatus.ON 5 0 0 0 0).sys.pins) }).1 hlow (by decide)
    have hsys : ({ t.sys with pins := setSwitch 0 OFF t.sys.pins } : Sys) =
        { (sampleScan t_chStatus.ON 5 0 0 0 0).sys with
          pins := setSwitch 0 OFF
            (setSwitch 0 ON (sampleScan t_chStatus.ON 5 0 0 0 0).sys.pins) } := by
      rw [h6]
    have e0 : (⟨0, 1000⟩ : t_scanEnv).adcLocal = 0 := rfl
    rw [e0, h3, hsys, hcase] at a2 a3
    refine ⟨_, hret, ?_, ?_, ?_⟩
    · rw [a2]; decide
    · rw [a2]; decide
    · rw [a3]; decide
  · have hb : (sampleScan t_chStatus.ON 5 1000 0 20 1).busy ≠ 0 := by decide
    have hs : ¬ (sampleScan t_chStatus.ON 5 1000 0 20 1).samples < NUM_SAMPLES := by decide
    obtain ⟨_, a2, _⟩ := scan_classify_sys ⟨1000, 1000⟩ _ hb hs
    have hnorm := scanClassify_normal 1000 0
      { (sampleScan t_chStatus.ON 5 1000 0 20 1).sys with
        pins := setSwitch 0 OFF (sampleScan t_chStatus.ON 5 1000 0 20 1).sys.pins }
      (by decide) hn1 hn2
    have e0 : (⟨1000, 1000⟩ : t_scanEnv).adcLocal = 1000 := rfl
    have e1 : (sampleScan t_chStatus.ON 5 1000 0 20 1).channel = 0 := rfl
    rw [e0, e1] at a2
    rw [a2, hnorm]
    exact ⟨by decide, rfl⟩

/-! ## Thermal power model -/

/-- One pass of the loop body: the scalars, the number of channels and the lens
diameters are kept; the required power of channel `m` is set and that of the
other channels kept. -/
theorem calcChannel_effect (d : t_globalData) (m : Nat) :
    (calcChannel d m).dewPointC = d.dewPointC ∧
    (calcChannel d m).dpOffset = d.dpOffset ∧
    (calcChannel d m).skyTemp = d.skyTemp ∧
    (calcChannel d m).fudgeFactor = d.fudgeFactor ∧
    (calcChannel d m).chData.length = d.chData.length ∧
    (∀ n, (chGet (calcChannel d m) n).lensDia = (chGet d n).lensDia) ∧
    (∀ n, (chGet (calcChannel d m) n).Preq =
      if m = n ∧ m < d.chData.length then
        requiredPowerW d.fudgeFactor (chGet d n).lensDia d.dewPointC d.dpOffset d.skyTemp
      else (chGet d n).Preq) := by
  refine ⟨rfl, rfl, rfl, rfl, ?_, ?_, ?_⟩
  · simp [calcChannel, chSet_length]
  · intro n
    simp only [calcChannel, chGet_chSet, chSet_length]
    by_cases h : m = n ∧ m < d.chData.length
    · obtain ⟨rfl, hl⟩ := h
      simp [hl]
    · simp only [h, if_false]
  · intro n
    simp only [calcChannel, chGet_chSet, chSet_length]
    by_cases h : m = n ∧ m < d.chData.length
    · obtain ⟨rfl, hl⟩ := h
      simp only [hl, and_self, if_true, requiredPowerW, EPSILON, RHO, PI, C_TO_K, INCH_TO_MM]
      ring
    · simp only [h, if_false]

/-- The loop over a list of channel numbers: scalars, number of channels and
lens diameters are kept; the required power of every listed channel within the
array is the specified formula over the values before the loop. -/
theorem calcChannel_foldl (ms : List Nat) (d : t_globalData) :
    (ms.foldl calcChannel d).dewPointC = d.dewPointC ∧
    (ms.foldl calcChannel d).dpOffset = d.dpOffset ∧
    (ms.foldl calcChannel d).skyTemp = d.skyTemp ∧
    (ms.foldl calcChannel d).fudgeFactor = d.fudgeFactor ∧
    (ms.foldl calcChannel d).chData.length = d.chData.length ∧
    (∀ n, (chGet (ms.foldl calcChannel d) n).lensDia = (chGet d n).lensDia) ∧
    (∀ n, (chGet (ms.foldl calcChannel d) n).Preq =
      if n ∈ ms ∧ n < d.chData.length then
        requiredPowerW d.fudgeFactor (chGet d n).lensDia d.dewPointC d.dpOffset d.skyTemp
      else (chGet d n).Preq) := by
  induction ms generalizing d with
  | nil =>
    refine ⟨rfl, rfl, rfl, rfl, rfl, fun _ => rfl, fun n => ?_⟩
    simp
  | cons m ms ih =>
    obtain ⟨a1, a2, a3, a4, a5, a6, a7⟩ := calcChannel_effect d m
    obtain ⟨b1, b2, b3, b4, b5, b6, b7⟩ := ih (calcChannel d m)
    simp only [List.foldl_cons]
    refine ⟨b1.trans a1, b2.trans a2, b3.trans a3, b4.trans a4, b5.trans a5,
      fun n => (b6 n).trans (a6 n), fun n => ?_⟩
    rw [b7 n, a1, a2, a3, a4, a5, a6 n, a7 n]
    by_cases hn : n ∈ ms ∧ n < d.chData.length
    · have : n ∈ m :: ms ∧ n < d.chData.length := ⟨List.mem_cons_of_mem _ hn.1, hn.2⟩
      rw [if_pos hn, if_pos this]
    · rw [if_neg hn]
      by_cases hm : m = n ∧ m < d.chData.length
      · have : n ∈ m :: ms ∧ n < d.chData.length := by
          obtain ⟨rfl, hl⟩ := hm
          exact ⟨List.mem_cons_self _ _, hl⟩
        rw [if_pos hm, if_pos this]
      · have : ¬ (n ∈ m :: ms ∧ n < d.chData.length) := by
          rintro ⟨h1, h2⟩
          rcases List.mem_cons.mp h1 with h | h
          · exact hm ⟨h.symm, h ▸ h2⟩
          · exact hn ⟨h, h2⟩
        rw [if_neg hm, if_neg this]

/-- C17: for every state and every channel, `calcRequiredPower` sets
Preq = fudgeFactor * EPSILON * RHO * A * (T1^4 - T2^4) in exact arithmetic over
the constants of the code, with A = PI * (0.0254 * lensDia)^2 / 4,
T1 = dewPoint + dpOffset + 273.15 and T2 = skyTemp + 273.15; doubling the fudge
factor doubles the required power of every channel, skyTemp = dewPoint +
dpOffset makes it 0, and for lensDia = 4, dewPoint = 10, dpOffset = 3,
skyTemp = -40, fudgeFactor = 1 it is positive. -/
theorem calcRequiredPower_formula (d : t_globalData) (n : Nat) (hn : n < NUM_CHANNELS)
    (hl : n < d.chData.length) :
    (chGet (calcRequiredPower d) n).Preq =
      d.fudgeFactor * 0.95 * 5.67e-8 * (3.14 * (0.0254 * (chGet d n).lensDia) ^ 2 / 4) *
        ((d.dewPointC + d.dpOffset + 273.15) ^ 4 - (d.skyTemp + 273.15) ^ 4) ∧
    (chGet (calcRequiredPower { d with fudgeFactor := 2 * d.fudgeFactor }) n).Preq =
      2 * (chGet (calcRequiredPower d) n).Preq ∧
    (d.skyTemp = d.dewPointC + d.dpOffset → (chGet (calcRequiredPower d) n).Preq = 0) ∧
    ((chGet d n).lensDia = 4 → d.dewPointC = 10 → d.dpOffset = 3 → d.skyTemp = -40 →
      d.fudgeFactor = 1 → 0 < (chGet (calcRequiredPower d) n).Preq) := by
  have hmem : n ∈ List.range NUM_CHANNELS := List.mem_range.mpr hn
  have key : ∀ e : t_globalData, n < e.chData.length →
      (chGet (calcRequiredPower e) n).Preq =
        requiredPowerW e.fudgeFactor (chGet e n).lensDia e.dewPointC e.dpOffset e.skyTemp := by
    intro e he
    unfold calcRequiredPower
    rw [(calcChannel_foldl (List.range NUM_CHANNELS) e).2.2.2.2.2.2 n, if_pos ⟨hmem, he⟩]
  have k1 := key d hl
  have k2 := key { d with fudgeFactor := 2 * d.fudgeFactor } hl
  refine ⟨?_, ?_, ?_, ?_⟩
  · rw [k1]; rfl
  · rw [k1, k2]
    show requiredPowerW (2 * d.fudgeFactor) (chGet d n).lensDia d.dewPointC d.dpOffset d.skyTemp = _
    unfold requiredPowerW
    ring
  · intro hs
    rw [k1, hs]
    unfold requiredPowerW
    ring
  · intro h1 h2 h3 h4 h5
    rw [k1, h1, h2, h3, h4, h5]
    unfold requiredPowerW
    norm_num

theorem calcRequiredPower_formula_witness :
    2 < NUM_CHANNELS ∧
    2 < ({ (sampleScan t_chStatus.ON 0 0 0 0 0).sys.data with
      dewPointC := 10 } : t_globalData).chData.length ∧
    0 < (chGet (calcRequiredPower
      { (sampleScan t_chStatus.ON 0 0 0 0 0).sys.data with dewPointC := 10 }) 2).Preq :=
  have hn : 2 < NUM_CHANNELS := by decide
  have hl : 2 < ({ (sampleScan t_chStatus.ON 0 0 0 0 0).sys.data with
      dewPointC := 10 } : t_globalData).chData.length := by decide
  ⟨hn, hl, (calcRequiredPower_formula
    { (sampleScan t_chStatus.ON 0 0 0 0 0).sys.data with dewPointC := 10 } 2 hn
    hl).2.2.2 (by decide) (by decide) (by decide) (by decide) (by decide)⟩

end DewController
